import Mathlib

/-!
Verification of the ymirscript/ymir compiler against its natural-language
specification.  The TypeScript sources are shallowly embedded: pure
functions become Lean functions, the stateful recursive-descent parser
becomes explicit state passing over a fuel-indexed recursion, JavaScript
objects become association lists with JavaScript assignment semantics,
and fallible code returns `Except`.  Each definition carries a comment
naming the source location it embeds.
-/

namespace Ymir

/-- `MiddlewareOptionValue` (library/script/nodes.ts): the recursive sum of
option values: string | number | boolean | object mapping | array |
`GlobalVariable {name, path[]}`.  JavaScript numbers are modelled as `Int`
(no claim depends on fractional values). -/
inductive OptionValue where
  | str (s : String)
  | num (n : Int)
  | boolv (b : Bool)
  | obj (entries : List (String × OptionValue))
  | arr (elems : List OptionValue)
  | global (name : String) (path : List String)

/-- `MiddlewareOptions` (library/script/nodes.ts): a JavaScript object mapping
keys to option values, modelled as an association list in insertion order. -/
abbrev MiddlewareOptions := List (String × OptionValue)

/-- First-defined alternative of two optional values. -/
def optOr {α : Type} : Option α → Option α → Option α
  | some x, _ => some x
  | none, b => b

@[simp] theorem optOr_none_left {α : Type} (b : Option α) : optOr none b = b := rfl

@[simp] theorem optOr_some_left {α : Type} (x : α) (b : Option α) :
    optOr (some x) b = some x := rfl

@[simp] theorem optOr_none_right {α : Type} (a : Option α) : optOr a none = a := by
  cases a <;> rfl

/-- JavaScript property read `o[k]`: the binding of `k` (keys of a JavaScript
object are unique, so the first binding is the binding). -/
def jsGet : MiddlewareOptions → String → Option OptionValue
  | [], _ => none
  | (k', v) :: t, k => if k' = k then some v else jsGet t k

/-- JavaScript property assignment `o[k] = v`: replaces the value of an
existing key in place, otherwise appends the key at the end (first-occurrence
insertion order is preserved, exactly as for JavaScript objects). -/
def jsAssign : MiddlewareOptions → String → OptionValue → MiddlewareOptions
  | [], k, v => [(k, v)]
  | (k', v') :: t, k, v => if k' = k then (k, v) :: t else (k', v') :: jsAssign t k v

/-- The value a sequence of assignments leaves behind for key `k`: the last
entry of `l` carrying `k`, if any. -/
def lastAssoc : MiddlewareOptions → String → Option OptionValue
  | [], _ => none
  | (k', v) :: t, k => optOr (lastAssoc t k) (if k' = k then some v else none)

/-- JavaScript object spread `{...a, ...b}`: assign all entries of `a`, then
all entries of `b`, into a fresh object (later assignments win). -/
def objSpread (a b : MiddlewareOptions) : MiddlewareOptions :=
  (a ++ b).foldl (fun o kv => jsAssign o kv.1 kv.2) []

/-- Keys of an option object. -/
def optKeys (o : MiddlewareOptions) : List String := o.map Prod.fst

/-! ### AST nodes (library/script/nodes.ts) -/
/-- `QueryParameterType` (nodes.ts:9-18), carried as its enum string value. -/
inductive QueryParameterType where
  | any | string | int | float | bool | date | datetime | time
deriving DecidableEq

/-- The string value of a `QueryParameterType` enum member. -/
def QueryParameterType.toStr : QueryParameterType → String
  | .any => "any"
  | .string => "string"
  | .int => "int"
  | .float => "float"
  | .bool => "bool"
  | .date => "date"
  | .datetime => "datetime"
  | .time => "time"

/-- `QueryParameterNode` (nodes.ts:23-39). -/
structure QueryParameterNode where
  name : String
  type : QueryParameterType
deriving DecidableEq

/-- `PathNode` (nodes.ts:44-87); `alias` is called `aliasName` here. -/
structure PathNode where
  path : String
  aliasName : Option String
  queryParameters : List QueryParameterNode
deriving DecidableEq

/-- `path.replace(/[^a-zA-Z0-9_]/g, "")` (nodes.ts:76). -/
def sanitizeAlnum (s : String) : String :=
  String.mk (s.toList.filter fun c => c.isAlpha || c.isDigit || c == '_')

/-- `toUpperCase()` on one character, on the ASCII range the compiler's
identifiers use. -/
def charUpper (c : Char) : Char :=
  if 97 ≤ c.toNat ∧ c.toNat ≤ 122 then Char.ofNat (c.toNat - 32) else c

/-- `toLowerCase()` on one character, on the ASCII range. -/
def charLower (c : Char) : Char :=
  if 65 ≤ c.toNat ∧ c.toNat ≤ 90 then Char.ofNat (c.toNat + 32) else c

/-- `toLowerCase()` over a whole string (ASCII range). -/
def strLower (s : String) : String := String.mk (s.toList.map charLower)

/-- A JavaScript whitespace character of the kinds `trim()` strips here. -/
def isTrimC (c : Char) : Bool := c == ' ' || c == '\t' || c == '\n' || c == '\r'

/-- `String.prototype.trim()`: strip leading and trailing whitespace. -/
def strTrim (s : String) : String :=
  String.mk (((s.toList.dropWhile isTrimC).reverse.dropWhile isTrimC).reverse)

/-- `PathNode.name` (nodes.ts:71-86): alias if present, else the path with all
non-alphanumeric characters removed, `_`-prefixed when starting with a digit. -/
def PathNode.name (p : PathNode) : String :=
  match p.aliasName with
  | some a => a
  | none =>
    let normPath := sanitizeAlnum p.path
    if normPath.length = 0 then ""
    else if (normPath.toList.headD ' ').isDigit then "_" ++ normPath
    else normPath

/-- `AuthenticateClauseNode` (nodes.ts:355-373). -/
structure AuthenticateClauseNode where
  authBlock : String
  authorization : Option (List String)
deriving DecidableEq

/-- `AuthBlockNode` (nodes.ts:294-350).  `type` is the runtime string the
parser casts to `AuthType` (`"API-Key"` or `"Bearer"`); `alias` is called
`aliasName` here. -/
structure AuthBlockNode where
  type : String
  source : String
  field : String
  aliasName : Option String
  options : MiddlewareOptions
  isDefaultAccessPublic : Bool
  isAuthorizationInUse : Bool

/-- The `AuthBlockNode` constructor (nodes.ts:331-340): options default to the
empty object, `isDefaultAccessPublic` is false exactly when the constructor
argument is the string `"authenticated"`, the authorization flag starts false. -/
def AuthBlockNode.make (type source field : String) (aliasName : Option String)
    (defaultAccess : Option String) (options : Option MiddlewareOptions := none) :
    AuthBlockNode :=
  { type := type, source := source, field := field, aliasName := aliasName,
    options := options.getD [],
    isDefaultAccessPublic := if defaultAccess = some "authenticated" then false else true,
    isAuthorizationInUse := false }

/-- `AuthBlockNode.id` (nodes.ts:342-344): the alias when defined — even when
it is the empty string — otherwise the auth-type string. -/
def AuthBlockNode.id (b : AuthBlockNode) : String :=
  match b.aliasName with
  | some a => a
  | none => b.type

/-- `AuthBlockNode.name` (nodes.ts:346-349): identifier-sanitized id with the
first letter capitalized.  When the sanitized id is empty, the source code
evaluates `id[0].toUpperCase()` on `undefined` and throws a `TypeError`;
that failure is modelled as `none`. -/
def AuthBlockNode.name (b : AuthBlockNode) : Option String :=
  match (sanitizeAlnum b.id).toList with
  | [] => none
  | c :: t => some (String.mk (charUpper c :: t))

/-- `MiddlewareNode` (nodes.ts:378-413). -/
structure MiddlewareNode where
  name : String
  options : MiddlewareOptions

/-- `RouteNode` (nodes.ts:208-267) restricted to the fields the parser under
scrutiny constructs (`new RouteNode(method, path, header, body, authenticate)`,
parser.ts:386, leaves `description` undefined); `method` is carried as its
enum string value. -/
structure RouteNode where
  method : String
  path : PathNode
  header : Option MiddlewareOptions
  body : Option MiddlewareOptions
  authenticate : Option AuthenticateClauseNode
  description : Option String := none

/-- `RouterNode` (nodes.ts:92-164). -/
inductive RouterNode where
  | mk (path : PathNode) (header : Option MiddlewareOptions)
       (body : Option MiddlewareOptions)
       (authenticate : Option AuthenticateClauseNode)
       (routers : List RouterNode) (routes : List RouteNode)

def RouterNode.path : RouterNode → PathNode
  | .mk p _ _ _ _ _ => p

def RouterNode.header : RouterNode → Option MiddlewareOptions
  | .mk _ h _ _ _ _ => h

def RouterNode.body : RouterNode → Option MiddlewareOptions
  | .mk _ _ b _ _ _ => b

def RouterNode.authenticate : RouterNode → Option AuthenticateClauseNode
  | .mk _ _ _ a _ _ => a

def RouterNode.routers : RouterNode → List RouterNode
  | .mk _ _ _ _ rs _ => rs

def RouterNode.routes : RouterNode → List RouteNode
  | .mk _ _ _ _ _ rs => rs

/-- `routerNode.routes.push(route)` (parser.ts:112). -/
def RouterNode.pushRoute : RouterNode → RouteNode → RouterNode
  | .mk p h b a rs rts, r => .mk p h b a rs (rts ++ [r])

/-- `routerNode.routers.push(router)` (parser.ts:116). -/
def RouterNode.pushRouter : RouterNode → RouterNode → RouterNode
  | .mk p h b a rs rts, r => .mk p h b a (rs ++ [r]) rts

/-- `ProjectNode` (nodes.ts:180-203).  The source makes `ProjectNode` extend
`RouterNode` via `ScriptFileNode`; following the spec's design note the
project-only fields are hoisted next to a `root` router whose path is the
empty `PathNode` of `ScriptFileNode` (nodes.ts:170-175). -/
structure ProjectNode where
  target : String
  authBlocks : List (String × AuthBlockNode)
  middlewares : List MiddlewareNode
  root : RouterNode

/-! ### Java/Spring emitter: effective schemas (targets/java/springboot.ts) -/
/-- The schema-inheritance step `{...(pre || {}), ...(own || {})}` used at
springboot.ts:64-65 (for routers) and springboot.ts:97-98 (for routes). -/
def effStep (pre : MiddlewareOptions) (own : Option MiddlewareOptions) : MiddlewareOptions :=
  objSpread pre (own.getD [])

/-- springboot.ts:64: `headerValidations = {...(preHeaderValidations || {}), ...(node.header || {})}`. -/
def routerEffHeader (pre : MiddlewareOptions) (n : RouterNode) : MiddlewareOptions :=
  effStep pre n.header

/-- springboot.ts:65: the same step for `node.body`. -/
def routerEffBody (pre : MiddlewareOptions) (n : RouterNode) : MiddlewareOptions :=
  effStep pre n.body

/-- springboot.ts:97: `headerValidations = {...headerValidations, ...(node.header || {})}` for a route. -/
def routeEffHeader (inherited : MiddlewareOptions) (r : RouteNode) : MiddlewareOptions :=
  effStep inherited r.header

/-- springboot.ts:98: the same step for a route's body. -/
def routeEffBody (inherited : MiddlewareOptions) (r : RouteNode) : MiddlewareOptions :=
  effStep inherited r.body

/-- The effective header schema of a node at the end of an ancestor chain:
`compileRouterNode` threads `headerValidations` from the root (empty object,
springboot.ts:61-65) through every `node.routers.forEach` recursion
(springboot.ts:84-86), applying `routerEffHeader` once per ancestor. -/
def effHeaderChain (chain : List RouterNode) : MiddlewareOptions :=
  chain.foldl routerEffHeader []

/-- Body analogue of `effHeaderChain`. -/
def effBodyChain (chain : List RouterNode) : MiddlewareOptions :=
  chain.foldl routerEffBody []

/-! ### Java/Spring emitter: the middleware-option hash (springboot.ts:456-475) -/
/-- `Object.keys(obj).sort()` orders the (unique) keys of a JavaScript object
lexicographically by UTF-16 code units; on distinct keys every comparison sort
yields that unique order, modelled by insertion sort over `≤` on `String`
(which is lexicographic on code points and agrees with UTF-16 order on the
basic plane). -/
def sortEntries (l : List (String × OptionValue)) : List (String × OptionValue) :=
  List.insertionSort (fun a b => a.1 ≤ b.1) l

/-- Index entries of a string array (the `path` of a `GlobalVariable`). -/
def strIdx : Nat → List String → List (String × OptionValue)
  | _, [] => []
  | i, s :: t => (toString i, .str s) :: strIdx (i + 1) t

mutual

/-- `sortObjectKeysRecursively` (springboot.ts:457-469): sort the keys, and
rebuild the object recursing into every value of `typeof "object"` — which in
JavaScript includes arrays (their keys are the decimal index strings, also
sorted lexicographically) and `GlobalVariable` instances (keys `name`, `path`;
`"name" < "path"` so sorting is the identity there).  Sorting compares keys
only, so sorting before or after the pointwise recursion is the same function;
the recursion is applied first here. -/
def canonV : OptionValue → OptionValue
  | .str s => .str s
  | .num n => .num n
  | .boolv b => .boolv b
  | .obj l => .obj (sortEntries (canonEntries l))
  | .arr l => .obj (sortEntries (canonIdx 0 l))
  | .global n p => .obj [("name", .str n), ("path", .obj (sortEntries (strIdx 0 p)))]

/-- One `forEach` pass of `sortObjectKeysRecursively`: values of object type
are recursed into, other values are copied. -/
def canonEntries : List (String × OptionValue) → List (String × OptionValue)
  | [] => []
  | (k, v) :: t => (k, canonIfObj v) :: canonEntries t

/-- `typeof obj[key] === "object" && obj[key] !== null ? recurse : copy`. -/
def canonIfObj : OptionValue → OptionValue
  | .obj l => canonV (.obj l)
  | .arr l => canonV (.arr l)
  | .global n p => canonV (.global n p)
  | v => v

/-- The entries of an array seen as a JavaScript object: decimal index keys. -/
def canonIdx : Nat → List OptionValue → List (String × OptionValue)
  | _, [] => []
  | i, v :: t => (toString i, canonIfObj v) :: canonIdx (i + 1) t

end

/-- Minimal JSON string escaping (`JSON.stringify` of a string). -/
def jsonEscape (s : String) : String :=
  s.toList.foldr
    (fun c acc =>
      (if c == '\\' then "\\\\"
       else if c == '"' then "\\\""
       else if c == '\n' then "\\n"
       else if c == '\t' then "\\t"
       else if c == '\r' then "\\r"
       else String.mk [c]) ++ acc) ""

/-- A JSON string literal. -/
def jsonQuote (s : String) : String := "\"" ++ jsonEscape s ++ "\""

def jsonStrs : List String → String
  | [] => ""
  | [s] => jsonQuote s
  | s :: t => jsonQuote s ++ "," ++ jsonStrs t

mutual

/-- `JSON.stringify` over option values (JavaScript numbers restricted to
integers print without a decimal point). -/
def jsonV : OptionValue → String
  | .str s => jsonQuote s
  | .num n => toString n
  | .boolv b => cond b "true" "false"
  | .obj l => "\x7b" ++ jsonEntries l ++ "\x7d"
  | .arr l => "[" ++ jsonElems l ++ "]"
  | .global n p =>
      "\x7b\"name\":" ++ jsonQuote n ++ ",\"path\":[" ++ jsonStrs p ++ "]\x7d"

def jsonEntries : List (String × OptionValue) → String
  | [] => ""
  | [(k, v)] => jsonQuote k ++ ":" ++ jsonV v
  | (k, v) :: t => jsonQuote k ++ ":" ++ jsonV v ++ "," ++ jsonEntries t

def jsonElems : List OptionValue → String
  | [] => ""
  | [v] => jsonV v
  | v :: t => jsonV v ++ "," ++ jsonElems t

end

/-- `.replace(/ /g, "").replace(/\n/g, "")` (springboot.ts:472): every space
and newline is removed, including inside string literals. -/
def stripSpaceNewline (s : String) : String :=
  String.mk (s.toList.filter fun c => !(c == ' ' || c == '\n'))

/-- The standard base64 alphabet used by `std/encoding/base64.ts`. -/
def b64Chars : List Char :=
  "ABCDEFGHIJKLMNOPQRSTUVWXYZabcdefghijklmnopqrstuvwxyz0123456789+/".toList

def b64Char (n : Nat) : String := String.mk [b64Chars.getD n 'A']

/-- Base64 of a byte sequence, standard alphabet with `=` padding. -/
def base64Chunks : List Nat → String
  | [] => ""
  | [a] => b64Char (a / 4) ++ b64Char (a % 4 * 16) ++ "=="
  | [a, b] => b64Char (a / 4) ++ b64Char (a % 4 * 16 + b / 16) ++ b64Char (b % 16 * 4) ++ "="
  | a :: b :: c :: rest =>
      b64Char (a / 4) ++ b64Char (a % 4 * 16 + b / 16) ++
      b64Char (b % 16 * 4 + c / 64) ++ b64Char (c % 64) ++ base64Chunks rest

def strUtf8Bytes (s : String) : List Nat := s.toUTF8.toList.map (·.toNat)

/-- `generateMiddlewareOptionsHash` (springboot.ts:456-475): JSON of the
option mapping with keys recursively sorted, spaces and newlines stripped,
then base64. -/
def generateMiddlewareOptionsHash (options : MiddlewareOptions) : String :=
  base64Chunks (strUtf8Bytes (stripSpaceNewline (jsonV (canonV (.obj options)))))

/-- "Equal as option mappings up to recursive key order": leaves are equal,
arrays are pointwise related, objects agree up to a permutation of their
(unique-keyed) entries with recursively related values. -/
inductive OVPerm : OptionValue → OptionValue → Prop
  | str (s) : OVPerm (.str s) (.str s)
  | num (n) : OVPerm (.num n) (.num n)
  | boolv (b) : OVPerm (.boolv b) (.boolv b)
  | global (n p) : OVPerm (.global n p) (.global n p)
  | arr (xs ys : List OptionValue) (hlen : xs.length = ys.length)
      (hv : ∀ i (h₁ : i < xs.length) (h₂ : i < ys.length),
        OVPerm (xs.get ⟨i, h₁⟩) (ys.get ⟨i, h₂⟩)) :
      OVPerm (.arr xs) (.arr ys)
  | obj (l₁ l' l₂ : List (String × OptionValue))
      (hn : (l₁.map Prod.fst).Nodup)
      (hlen : l₁.length = l'.length)
      (hk : ∀ i (h₁ : i < l₁.length) (h₂ : i < l'.length),
        (l₁.get ⟨i, h₁⟩).1 = (l'.get ⟨i, h₂⟩).1)
      (hv : ∀ i (h₁ : i < l₁.length) (h₂ : i < l'.length),
        OVPerm (l₁.get ⟨i, h₁⟩).2 (l'.get ⟨i, h₂⟩).2)
      (hp : l'.Perm l₂) :
      OVPerm (.obj l₁) (.obj l₂)

instance : IsTotal (String × OptionValue) (fun a b => a.1 ≤ b.1) :=
  ⟨fun a b => le_total a.1 b.1⟩

instance : IsTrans (String × OptionValue) (fun a b => a.1 ≤ b.1) :=
  ⟨fun _ _ _ h₁ h₂ => le_trans h₁ h₂⟩

instance : IsAntisymm (String × OptionValue) (fun a b => a.1 < b.1) :=
  ⟨fun _ _ h₁ h₂ => absurd (lt_trans h₁ h₂) (lt_irrefl _)⟩

/-! ### Java/Spring emitter: DTO generation (springboot.ts:165-197, 478-706) -/
/-- `FieldBuilder` (springboot.ts:671-706); `annotations` is `annots` here. -/
structure FieldB where
  name : String
  type : String
  accessModifier : String := ""
  annots : List String := []
deriving DecidableEq

/-- `MethodBuilder` (springboot.ts:592-669), restricted to the parts DTO
generation touches. -/
structure MethodB where
  name : String
  returnType : String := "void"
  accessModifier : String := "public"
  parameters : List FieldB := []
  annots : List String := []
  body : List String := []
deriving DecidableEq

/-- `ClassBuilder` (springboot.ts:478-590): package, name, interface flag,
imports, annotations, fields, methods, inner classes. -/
inductive ClassB where
  | mk (pkg : String) (name : String) (isInterface : Bool)
       (imports : List String) (annots : List String)
       (fields : List FieldB) (methods : List MethodB) (inner : List ClassB)

def ClassB.name : ClassB → String
  | .mk _ n _ _ _ _ _ _ => n

def ClassB.fields : ClassB → List FieldB
  | .mk _ _ _ _ _ f _ _ => f

/-- `new ClassBuilder(pkg, name)` (class, not interface). -/
def newClassB (pkg name : String) : ClassB :=
  .mk pkg name false [] [] [] [] []

/-- `FieldBuilder.setAsField` (springboot.ts:685-688). -/
def FieldB.setAsField (f : FieldB) : FieldB :=
  { f with accessModifier := "private " }

/-- `ClassBuilder.addField` (springboot.ts:520-526): deduplicates by field
name, marks the field private. -/
def ClassB.addField : ClassB → FieldB → ClassB
  | .mk p n i im an fs ms inn, f =>
    if (fs.map FieldB.name).contains f.name then .mk p n i im an fs ms inn
    else .mk p n i im an (fs ++ [f.setAsField]) ms inn

/-- `ClassBuilder.addMethod` (springboot.ts:515-518). -/
def ClassB.addMethod : ClassB → MethodB → ClassB
  | .mk p n i im an fs ms inn, m => .mk p n i im an fs (ms ++ [m]) inn

/-- `ClassBuilder.addClass` (springboot.ts:528-535); the interface guard is
unreachable in DTO generation, which only builds classes. -/
def ClassB.addClass : ClassB → ClassB → ClassB
  | .mk p n i im an fs ms inn, c => .mk p n i im an fs ms (inn ++ [c])

/-- `makeCamelCase` (springboot.ts:363-368). -/
def makeCamelCase (s : String) : String :=
  match s.toList with
  | [] => s
  | c :: t => String.mk (charLower c :: t)

/-- `makePascalCase` (springboot.ts:370-375). -/
def makePascalCase (s : String) : String :=
  match s.toList with
  | [] => s
  | c :: t => String.mk (charUpper c :: t)

/-- `enusreJavaAllowedName` (springboot.ts:345-361); its `"param" + Date.now()`
fallback for fully-stripped names is modelled with timestamp 0. -/
def enusreJavaAllowedName (name : String) : String :=
  if name = "default" then "default_"
  else if name = "package" then "package_"
  else
    let trimmed := String.mk (name.toList.filter fun c => c.isAlpha || c.isDigit)
    if trimmed.length = 0 then "param0"
    else if (trimmed.toList.headD ' ').isDigit then "_" ++ trimmed
    else trimmed

/-- `getJavaTypeOfType` (springboot.ts:324-343). -/
def getJavaTypeOfType (queryType : String) : String :=
  if queryType = "string" then "String"
  else if queryType = "int" then "long"
  else if queryType = "float" then "double"
  else if queryType = "bool" then "boolean"
  else if queryType = "date" then "java.time.LocalDate"
  else if queryType = "datetime" then "java.time.LocalDateTime"
  else if queryType = "time" then "java.time.LocalTime"
  else "Object"

/-- The string-valued entry branch of the inner `compile` closure
(springboot.ts:182-185): a typed private field plus a getter. -/
def addStrField (cb : ClassB) (key : String) (valStr : String) : ClassB :=
  (cb.addField ⟨makeCamelCase (enusreJavaAllowedName key), getJavaTypeOfType valStr, "", []⟩).addMethod
    ⟨"get" ++ makePascalCase key, getJavaTypeOfType valStr, "public", [], [],
      ["return this." ++ makeCamelCase (enusreJavaAllowedName key) ++ ";"]⟩

/-- The object-valued entry branch of the inner `compile` closure
(springboot.ts:175-181): an inner DTO class, a field of its type, a getter. -/
def addObjField (cb : ClassB) (key : String) (inner : ClassB) : ClassB :=
  ((cb.addClass inner).addField ⟨makeCamelCase (enusreJavaAllowedName key), inner.name, "", []⟩).addMethod
    ⟨"get" ++ makePascalCase key, inner.name, "public", [], [],
      ["return this." ++ makeCamelCase (enusreJavaAllowedName key) ++ ";"]⟩

/-- One field per index of a string array (an array value cast to
`MiddlewareOptions` is iterated by its decimal index keys). -/
def strIdxDto (cb : ClassB) : Nat → List String → ClassB
  | _, [] => cb
  | i, s :: t => strIdxDto (addStrField cb (toString i) s) (i + 1) t

mutual

/-- The inner `compile` closure of `compileBodyOptionsAsDto`
(springboot.ts:171-189) applied to a value cast to `MiddlewareOptions`: a
fresh `ClassBuilder`, then one pass over the `for key in` entries of the cast
value.  In JavaScript `typeof v === "object"` also holds for arrays (whose
keys are decimal index strings) and for `GlobalVariable` instances (keys
`name` and `path`); the `GlobalVariable` case is expanded in place: its
`name` is a string value and its `path` an array of strings. -/
def compileDtoObjVal : OptionValue → String → Option String → ClassB
  | .obj l, name, pkg => compileDtoEntries (newClassB (pkg.getD "") name) l
  | .arr l, name, pkg => compileDtoIdx (newClassB (pkg.getD "") name) 0 l
  | .global gn gp, name, pkg =>
      let cb := addStrField (newClassB (pkg.getD "") name) "name" gn
      addObjField cb "path" (strIdxDto (newClassB "" "PathDto") 0 gp)
  | _, name, pkg => newClassB (pkg.getD "") name

/-- The `for (const key in options)` loop of the `compile` closure. -/
def compileDtoEntries : ClassB → List (String × OptionValue) → ClassB
  | cb, [] => cb
  | cb, (key, v) :: t => compileDtoEntries (compileDtoEntry cb key v) t

/-- One loop iteration: object-typed values become inner DTOs, string-typed
values become typed fields, any other value is skipped. -/
def compileDtoEntry : ClassB → String → OptionValue → ClassB
  | cb, key, .obj l => addObjField cb key (compileDtoObjVal (.obj l) (makePascalCase key ++ "Dto") none)
  | cb, key, .arr l => addObjField cb key (compileDtoObjVal (.arr l) (makePascalCase key ++ "Dto") none)
  | cb, key, .global gn gp =>
      addObjField cb key (compileDtoObjVal (.global gn gp) (makePascalCase key ++ "Dto") none)
  | cb, key, .str s => addStrField cb key s
  | cb, _, _ => cb

/-- The entries loop over an array cast to `MiddlewareOptions`. -/
def compileDtoIdx : ClassB → Nat → List OptionValue → ClassB
  | cb, _, [] => cb
  | cb, i, v :: t => compileDtoIdx (compileDtoEntry cb (toString i) v) (i + 1) t

end

/-- Lookup in the `_createdDtos` hash map (springboot.ts:10). -/
def strAssoc : List (String × String) → String → Option String
  | [], _ => none
  | (k', v) :: t, k => if k' = k then some v else strAssoc t k

/-- `compileBodyOptionsAsDto` (springboot.ts:165-197): hash the body options;
a cached hash returns the existing DTO name unchanged, otherwise the DTO class
is compiled, saved, and recorded under its hash.  The `_createdDtos` map is
threaded explicitly; `classBuilder.save` only writes the file and is dropped. -/
def compileBodyOptionsAsDto (createdDtos : List (String × String))
    (bodyOptions : MiddlewareOptions) (name : String) (dtoPackage : String) :
    String × List (String × String) :=
  let hash := generateMiddlewareOptionsHash bodyOptions
  match strAssoc createdDtos hash with
  | some n => (n, createdDtos)
  | none =>
      let cb := compileDtoObjVal (.obj bodyOptions) name (some dtoPackage)
      (cb.name, createdDtos ++ [(hash, cb.name)])

/-! ### Express/JavaScript emitter (src/unnamed/part_009,
`JavaScriptExpressJsTargetPlugin`) -/
mutual

/-- JavaScript `String(v)` as used by template literals. -/
def jsStr : OptionValue → String
  | .str s => s
  | .num n => toString n
  | .boolv b => cond b "true" "false"
  | .obj _ => "[object Object]"
  | .arr l => jsStrList l
  | .global _ _ => "[object Object]"

def jsStrList : List OptionValue → String
  | [] => ""
  | [v] => jsStr v
  | v :: t => jsStr v ++ "," ++ jsStrList t

end

/-- JavaScript truthiness of an option value. -/
def jsTruthy : OptionValue → Bool
  | .str s => !s.isEmpty
  | .num n => n != 0
  | .boolv b => b
  | _ => true

/-- Truthiness of an optional string (`undefined` and `""` are falsy). -/
def jsTruthyStr (o : Option String) : Bool := !(o.getD "").isEmpty

/-- `s.charAt(0).toUpperCase() + s.slice(1)`. -/
def jsCapFirst (s : String) : String :=
  match s.toList with
  | [] => ""
  | c :: t => String.mk (charUpper c :: t)

/-- Emitter state of `JavaScriptExpressJsTargetPlugin` (part_009:9-12):
the default authenticate id, the id→name auth handler map, and the lines
appended to the top of the output file. -/
structure EmitState where
  defaultAuthenticate : Option String := none
  authHandlers : List (String × String) := []
  topAppend : List String := []

/-- Failures of the emitter: `AbortError` (part_009:234,303,315) and
JavaScript runtime exceptions. -/
inductive EmitErr where
  | abort
  | jsError (msg : String)

/-- Assignment into a string-keyed record such as `_authHandlers`. -/
def strAssocAssign : List (String × String) → String → String → List (String × String)
  | [], k, v => [(k, v)]
  | (k', v') :: t, k, v =>
      if k' = k then (k, v) :: t else (k', v') :: strAssocAssign t k v

/-- `Math.random()`-based `randomString(32)` (part_009:734-741), modelled as a
fixed draw; no claim depends on its value. -/
def randomString32 : String := "00000000000000000000000000000000"

/-- `handleBearerAuthForModeNone` (part_009:351-361), returning the lines it
appends to `output` and `postValidOutput` plus the returned caller lines. -/
def handleBearerModeNone (nm : String) : List String × List String × List String :=
  (["async authenticate" ++ nm ++ "(jwt) \x7b",
    "    return true;",
    "\x7d"],
   ["req.user = jwt;"],
   ["const data = await this.authenticate" ++ nm ++ "(jwt);"])

/-- The subclass stubs `handleBearerAuthForModeBasic` pushes to `output`
(part_009:371-403). -/
def bearerBasicOutput (nm : String) (withLogout : Bool) : List String :=
  ["/**",
   " * Validates the given JWT.",
   " * @param \x7bstring\x7d jwt The JWT to validate.",
   " * @returns \x7bobject|undefined\x7d The payload of the JWT or undefined if the validation failed.",
   " */",
   "async validateJwtFor" ++ nm ++ "(jwt) \x7b",
   "    return undefined;",
   "\x7d",
   "",
   "/**",
   " * Generates a JWT for the given username/email and password.",
   " * @param \x7bstring\x7d username The username/email.",
   " * @param \x7bstring\x7d password The password.",
   " * @returns \x7bstring|undefined\x7d The generated JWT or undefined if the authentication failed.",
   " */",
   "async generateJwtFor" ++ nm ++ "(username, password) \x7b",
   "    return undefined;",
   "\x7d"] ++
  (if withLogout then
    ["",
     "/**",
     " * Logs the user out/ invalidates the JWT.",
     " * @param \x7bstring\x7d jwt The JWT of the user.",
     " */",
     "async logout" ++ nm ++ "(jwt) \x7b",
     "    return;",
     "\x7d"]
   else [])

/-- The login/logout wiring `handleBearerAuthForModeBasic` pushes to
`buildOutput` (part_009:405-437). -/
def bearerBasicBuild (nm loginPath loginSource usernameField passwordField logoutPath : String)
    (withLogout : Bool) : List String :=
  ["app.post(\"" ++ loginPath ++ "\", async (req, res) => \x7b",
   "    const " ++ usernameField ++ " = req." ++ loginSource ++ "[\"" ++ usernameField ++ "\"];",
   "    const " ++ passwordField ++ " = req." ++ loginSource ++ "[\"" ++ passwordField ++ "\"];",
   "",
   "    const jwt = await this.generateJwtFor" ++ nm ++ "(" ++ usernameField ++ ", " ++ passwordField ++ ");",
   "",
   "    if (jwt === undefined) \x7b",
   "        res.status(401).send(messages._401);",
   "        return;",
   "    \x7d",
   "",
   "    res.send(jwt);",
   "\x7d);"] ++
  (if withLogout then
    ["",
     "app.post(\"" ++ logoutPath ++ "\", async (req, res) => \x7b",
     "    const jwt = getHeader(req.headers, \"Authorization\")?.replace(\"Bearer \", \"\");",
     "",
     "    if (jwt === undefined) \x7b",
     "        res.status(401).send(messages._401);",
     "        return;",
     "    \x7d",
     "",
     "    await this.logout" ++ nm ++ "(jwt);",
     "",
     "    res.send();",
     "\x7d);"]
   else [])

/-- `handleBearerAuthForModeBasic` (part_009:363-442): output lines, build
lines, postValid lines, caller lines. -/
def handleBearerModeBasic (nm : String) (opts : MiddlewareOptions) :
    List String × List String × List String × List String :=
  let withLogout := jsTruthy ((jsGet opts "withLogout").getD (.boolv false))
  let loginPath := jsStr ((jsGet opts "loginPath").getD (.str "/login"))
  let loginSource := jsStr ((jsGet opts "loginSource").getD (.str "body"))
  let usernameField := jsStr ((jsGet opts "usernameField").getD (.str "username"))
  let passwordField := jsStr ((jsGet opts "passwordField").getD (.str "password"))
  let logoutPath := jsStr ((jsGet opts "logoutPath").getD (.str "/logout"))
  (bearerBasicOutput nm withLogout,
   bearerBasicBuild nm loginPath loginSource usernameField passwordField logoutPath withLogout,
   ["req.user = data;"],
   ["const data = await this.validateJwtFor" ++ nm ++ "(jwt);"])

/-- The subclass stubs `handleBearerAuthForModeFull` pushes to `output`
(part_009:462-494). -/
def bearerFullOutput (nm : String) (withLogout : Bool) : List String :=
  ["/**",
   " * Validates the given JWT payload.",
   " * @param \x7bobject\x7d payload The payload of the JWT.",
   " * @returns \x7bboolean|object\x7d Whether or not the payload is valid or the transformed payload.",
   " */",
   "async validateJwtPayloadFor" ++ nm ++ "(payload) \x7b",
   "    return false;",
   "\x7d",
   "",
   "/**",
   " * Returns the payload for the given username/email and password.",
   " * @param \x7bstring\x7d username The username/email.",
   " * @param \x7bstring\x7d password The password.",
   " * @returns \x7bobject|undefined\x7d The payload or undefined if the authentication failed.",
   " */",
   "async getJwtPayloadFor" ++ nm ++ "(username, password) \x7b",
   "    return undefined;",
   "\x7d"] ++
  (if withLogout then
    ["",
     "/**",
     " * Logs the user out/ invalidates the JWT. E.g: Integrate an ID in the payload and invalidate this ID on logout.",
     " * @param \x7bobject\x7d payload The payload of the JWT.",
     " */",
     "async logout" ++ nm ++ "(payload) \x7b",
     "    return;",
     "\x7d"]
   else [])

/-- The login/logout wiring `handleBearerAuthForModeFull` pushes to
`buildOutput` (part_009:496-532). -/
def bearerFullBuild (nm loginPath loginSource usernameField passwordField logoutPath secret expirationTime : String)
    (withLogout : Bool) : List String :=
  ["app.post(\"" ++ loginPath ++ "\", async (req, res) => \x7b",
   "    const " ++ usernameField ++ " = req." ++ loginSource ++ "[\"" ++ usernameField ++ "\"];",
   "    const " ++ passwordField ++ " = req." ++ loginSource ++ "[\"" ++ passwordField ++ "\"];",
   "",
   "    const payload = await this.getJwtPayloadFor" ++ nm ++ "(" ++ usernameField ++ ", " ++ passwordField ++ ");",
   "",
   "    if (payload === undefined) \x7b",
   "        res.status(401).send(messages._401);",
   "        return;",
   "    \x7d",
   "",
   "    const jwt = jsonwebtoken_.sign(payload, " ++ secret ++ ", \x7b expiresIn: \x27" ++ expirationTime ++ "s\x27 \x7d);",
   "",
   "    res.json(\x7btoken: jwt\x7d);",
   "\x7d);"] ++
  (if withLogout then
    ["",
     "app.post(\"" ++ logoutPath ++ "\", async (req, res) => \x7b",
     "    const jwt = getHeader(req.headers, \"Authorization\")?.replace(\"Bearer \", \"\");",
     "",
     "    if (jwt === undefined) \x7b",
     "        res.status(401).send(messages._401);",
     "        return;",
     "    \x7d",
     "",
     "    const payload = jsonwebtoken_.verify(jwt, " ++ secret ++ ");",
     "",
     "    await this.logout" ++ nm ++ "(payload);",
     "",
     "    res.send();",
     "\x7d);"]
   else [])

/-- `handleBearerAuthForModeFull` (part_009:444-541): output lines, build
lines, postValid lines, caller lines, and the line pushed to `_topAppend`. -/
def handleBearerModeFull (nm : String) (opts : MiddlewareOptions) :
    List String × List String × List String × List String × List String :=
  let withLogout := jsTruthy ((jsGet opts "withLogout").getD (.boolv false))
  let loginPath := jsStr ((jsGet opts "loginPath").getD (.str "/login"))
  let loginSource := jsStr ((jsGet opts "loginSource").getD (.str "body"))
  let usernameField := jsStr ((jsGet opts "usernameField").getD (.str "username"))
  let passwordField := jsStr ((jsGet opts "passwordField").getD (.str "password"))
  let logoutPath := jsStr ((jsGet opts "logoutPath").getD (.str "/logout"))
  let expirationTime := jsStr ((jsGet opts "exp").getD (.num 3600))
  let secret :=
    match jsGet opts "secret" with
    | some (.global gn gp) =>
        if gp.length > 0 && gp.headD "" = "env" then "process.env." ++ gn
        else "\"" ++ randomString32 ++ "\""
    | _ => "\"" ++ randomString32 ++ "\""
  (bearerFullOutput nm withLogout,
   bearerFullBuild nm loginPath loginSource usernameField passwordField logoutPath secret expirationTime withLogout,
   ["req.user = data;"],
   ["const payload = jsonwebtoken_.verify(jwt, " ++ secret ++ ");",
    "const result = await this.validateJwtPayloadFor" ++ nm ++ "(payload);",
    "const data = typeof result === \"boolean\" ? result ? payload : undefined : result;"],
   ["const jsonwebtoken_ = require(\"jsonwebtoken\");"])

/-- The API-key authentication body emitted by `handleAuthBlock`
(part_009:244-284). -/
def apiKeyOutput (nm : String) (authBlock : AuthBlockNode) : List String :=
  ["",
   "async authenticate" ++ nm ++ "(apiKey) \x7b",
   "    return true;",
   "\x7d",
   "",
   "async #handle" ++ nm ++ "Authentication(req, res) \x7b"] ++
  (if authBlock.source = "header" then
    ["    const apiKey = getHeader(req.headers, \"" ++ authBlock.field ++ "\");"]
   else if authBlock.source = "query" then
    ["    const apiKey = req.query[\"" ++ authBlock.field ++ "\"];"]
   else
    ["    const apiKey = req.body[\"" ++ authBlock.field ++ "\"];"]) ++
  ["    if (apiKey === undefined) \x7b",
   "        res.status(401).send(messages._401);",
   "        return undefined;",
   "    \x7d",
   "",
   "    const isValid = await this.authenticate" ++ nm ++ "(apiKey);",
   "    if (!isValid) \x7b",
   "        res.status(401).send(messages._401);",
   "        return undefined;",
   "    \x7d",
   "",
   "    return apiKey;",
   "\x7d"] ++
  (if authBlock.isAuthorizationInUse then
    ["",
     "async authorize" ++ nm ++ "(apiKey, roles) \x7b",
     "    return true;",
     "\x7d"]
   else [])

/-- `handleAuthBlock` (part_009:227-349).  A second default-access block hits
`Logger.fatal("Only one default authentication block can be defined.")`
followed by `throw new AbortError()` (part_009:231-238); the `AuthBlockNode`
name getter throws a `TypeError` when the sanitized id is empty. -/
def handleAuthBlock (st : EmitState) (authBlock : AuthBlockNode) :
    Except EmitErr ((List String × List String) × EmitState) := do
  let st ←
    if authBlock.isDefaultAccessPublic = false then
      if st.defaultAuthenticate.isSome then
        throw .abort
      else
        pure { st with defaultAuthenticate := some authBlock.id }
    else
      pure st
  if authBlock.type = "API-Key" then
    let nm ← match authBlock.name with
      | some nm => pure nm
      | none => throw (.jsError "TypeError: cannot read charAt of undefined")
    let st := { st with authHandlers := strAssocAssign st.authHandlers authBlock.id nm }
    pure ((apiKeyOutput nm authBlock, []), st)
  else if authBlock.type = "Bearer" then
    let nm ← match authBlock.name with
      | some nm => pure nm
      | none => throw (.jsError "TypeError: cannot read charAt of undefined")
    let st := { st with authHandlers := strAssocAssign st.authHandlers authBlock.id nm }
    let mode := (jsGet authBlock.options "mode").getD (.str "NONE")
    let (outAdd, buildAdd, postValid, caller, st) ←
      match mode with
      | OptionValue.str "NONE" =>
        let (o, p, c) := handleBearerModeNone nm
        pure (o, ([] : List String), p, c, st)
      | OptionValue.str "BASIC" =>
        let (o, b, p, c) := handleBearerModeBasic nm authBlock.options
        pure (o, b, p, c, st)
      | OptionValue.str "FULL" =>
        let (o, b, p, c, top) := handleBearerModeFull nm authBlock.options
        pure (o, b, p, c, { st with topAppend := st.topAppend ++ top })
      | _ =>
        throw .abort
    let srcLine ←
      if authBlock.source = "header" then
        pure ["    const jwt = getHeader(req.headers, \"Authorization\")?.replace(\"Bearer \", \"\");"]
      else
        throw .abort
    let output :=
      [""] ++ outAdd ++
      ["",
       "async #handle" ++ nm ++ "Authentication(req, res) \x7b"] ++
      srcLine ++
      ["    if (jwt === undefined) \x7b",
       "        res.status(401).send(messages._401);",
       "        return undefined;",
       "    \x7d",
       ""] ++
      caller.map ("    " ++ ·) ++
      ["",
       "    if (!data) \x7b",
       "        res.status(401).send(messages._401);",
       "        return undefined;",
       "    \x7d",
       ""] ++
      postValid.map ("    " ++ ·) ++
      ["",
       "    return jwt;",
       "\x7d"] ++
      (if authBlock.isAuthorizationInUse then
        ["",
         "async authorize" ++ nm ++ "(req, roles) \x7b",
         "    return true;",
         "\x7d"]
       else [])
    pure ((output, buildAdd), st)
  else
    pure (([], []), st)

/-- The auth-block loop of `handleRouter` (part_009:116-122): each block's
output is indented four spaces, the build lines are collected in order. -/
def handleAuthBlocksFold (st : EmitState) :
    List AuthBlockNode → Except EmitErr ((List String × List String) × EmitState)
  | [] => .ok (([], []), st)
  | b :: t => do
      let ((o, bo), st') ← handleAuthBlock st b
      let ((o2, bo2), st'') ← handleAuthBlocksFold st' t
      pure ((o.map ("    " ++ ·) ++ o2, bo ++ bo2), st'')

/-- The leaf branch of `generateDeepObjectValidation` (part_009:672-682):
undefined check and type-predicate check, each answering 400 with the
template-filled message and returning false. -/
def deepLeafLines (objName key typeStr : String) : List String :=
  ["    if (" ++ objName ++ "[\"" ++ key ++ "\"] === undefined) \x7b",
   "        res.status(400).send(messages._400.replace(\"\x7bfield\x7d\", \"" ++ objName ++ "." ++ key ++ "\").replace(\"\x7btype\x7d\", \"" ++ typeStr ++ "\"));",
   "        return false;",
   "    \x7d",
   "    if (!is" ++ jsCapFirst typeStr ++ "(" ++ objName ++ "[\"" ++ key ++ "\"])) \x7b",
   "        res.status(400).send(messages._400.replace(\"\x7bfield\x7d\", \"" ++ objName ++ "." ++ key ++ "\").replace(\"\x7btype\x7d\", \"" ++ typeStr ++ "\"));",
   "        return false;",
   "    \x7d",
   ""]

/-- The object branch guard of `generateDeepObjectValidation`
(part_009:666-670). -/
def deepObjGuard (objName key : String) : List String :=
  ["    if (" ++ objName ++ "[\"" ++ key ++ "\"] === undefined) \x7b",
   "        res.status(400).send(messages._400.replace(\"\x7bfield\x7d\", \"" ++ objName ++ "." ++ key ++ "\").replace(\"\x7btype\x7d\", \"object\"));",
   "        return false;",
   "    \x7d",
   ""]

/-- Leaf validations for the indices of a string array. -/
def deepStrIdx (objName : String) : Nat → List String → List String
  | _, [] => []
  | i, s :: t => deepLeafLines objName (toString i) s ++ deepStrIdx objName (i + 1) t

mutual

/-- `generateDeepObjectValidation` (part_009:661-687): one pass over the
schema entries; `instanceof Object` values (objects, arrays, globals) get a
guard and a recursive validation under `objName.key`, other values get the
leaf checks.  A `GlobalVariable` value iterates as entries `name` (a string)
and `path` (an array of strings) and is expanded in place. -/
def generateDeepObjectValidation : String → List (String × OptionValue) → List String
  | _, [] => []
  | objName, (key, v) :: t =>
      deepEntryValidation objName key v ++ generateDeepObjectValidation objName t

def deepEntryValidation : String → String → OptionValue → List String
  | objName, key, .obj l =>
      deepObjGuard objName key ++ generateDeepObjectValidation (objName ++ "." ++ key) l
  | objName, key, .arr l =>
      deepObjGuard objName key ++ deepIdxValidation (objName ++ "." ++ key) 0 l
  | objName, key, .global gn gp =>
      deepObjGuard objName key ++
      (deepLeafLines (objName ++ "." ++ key) "name" gn ++
       (deepObjGuard (objName ++ "." ++ key) "path" ++
        deepStrIdx (objName ++ "." ++ key ++ ".path") 0 gp))
  | objName, key, v => deepLeafLines objName key (jsStr v)

def deepIdxValidation : String → Nat → List OptionValue → List String
  | _, _, [] => []
  | objName, i, v :: t =>
      deepEntryValidation objName (toString i) v ++ deepIdxValidation objName (i + 1) t

end

/-- The `for (const key in header)` loop (part_009:609-622); values that are
`instanceof Object` are skipped. -/
def headerEntryLines : List (String × OptionValue) → List String
  | [] => []
  | (key, v) :: t =>
      (match v with
       | .obj _ => []
       | .arr _ => []
       | .global _ _ => []
       | v =>
          ["    if (getHeader(header, \"" ++ key ++ "\") === undefined) \x7b",
           "        res.status(400).send(messages._400.replace(\"\x7bfield\x7d\", \"header." ++ key ++ "\").replace(\"\x7btype\x7d\", \"" ++ jsStr v ++ "\"));",
           "        return false;",
           "    \x7d",
           "    if (!is" ++ jsCapFirst (jsStr v) ++ "(getHeader(header, \"" ++ key ++ "\"))) \x7b",
           "        res.status(400).send(messages._400.replace(\"\x7bfield\x7d\", \"header." ++ key ++ "\").replace(\"\x7btype\x7d\", \"" ++ jsStr v ++ "\"));",
           "        return false;",
           "    \x7d",
           ""]) ++ headerEntryLines t

/-- The header part of `generateValidationCode` (part_009:601-623): guard on
`req.headers`, then per non-object entry the `getHeader` undefined check and
the type-predicate check. -/
def headerValidationLines : Option MiddlewareOptions → List String
  | none => []
  | some h =>
      ["    if (req.headers === undefined) \x7b",
       "        res.status(400).send(messages._400.replace(\"\x7bfield\x7d\", \"header\").replace(\"\x7btype\x7d\", \"object\"));",
       "        return false;",
       "    \x7d",
       "",
       "    const header = req.headers;"] ++
      headerEntryLines h

def queryEntryLines : List QueryParameterNode → List String
  | [] => []
  | p :: t =>
      ["    if (query." ++ p.name ++ " === undefined) \x7b",
       "        res.status(400).send(messages._400.replace(\"\x7bfield\x7d\", \"query." ++ p.name ++ "\").replace(\"\x7btype\x7d\", \"" ++ p.type.toStr ++ "\"));",
       "        return false;",
       "    \x7d",
       "    if (!is" ++ jsCapFirst p.type.toStr ++ "(query." ++ p.name ++ ")) \x7b",
       "        "++ "res.status(400).send(messages._400.replace(\"\x7bfield\x7d\", \"query." ++ p.name ++ "\").replace(\"\x7btype\x7d\", \"" ++ p.type.toStr ++ "\"));",
       "        return false;",
       "    \x7d",
       ""] ++ queryEntryLines t

/-- The query part of `generateValidationCode` (part_009:625-644). -/
def queryValidationLines (path : PathNode) : List String :=
  if path.queryParameters.length > 0 then
    ["    if (req.query === undefined) \x7b",
     "        res.status(400).send(messages._400.replace(\"\x7bfield\x7d\", \"query\").replace(\"\x7btype\x7d\", \"object\"));",
     "        return false;",
     "    \x7d",
     "",
     "    const query = req.query;"] ++
    queryEntryLines path.queryParameters
  else []

/-- The body part of `generateValidationCode` (part_009:646-656). -/
def bodyValidationLines : Option MiddlewareOptions → List String
  | none => []
  | some b =>
      ["    if (req.body === undefined) \x7b",
       "        res.status(400).send(messages._400.replace(\"\x7bfield\x7d\", \"body\").replace(\"\x7btype\x7d\", \"object\"));",
       "        return false;",
       "    \x7d",
       "",
       "    const body = req.body;"] ++
      generateDeepObjectValidation "body" b

/-- `generateValidationCode` (part_009:598-659): header checks, then query
checks, then (recursively) body checks, in that order. -/
def generateValidationCode (header : Option MiddlewareOptions)
    (body : Option MiddlewareOptions) (path : PathNode) : List String :=
  headerValidationLines header ++ queryValidationLines path ++ bodyValidationLines body

/-- The `else if (this._defaultAuthenticate)` branch (part_009:579-586). -/
def defaultAuthSection (st : EmitState) : List String :=
  if jsTruthyStr st.defaultAuthenticate then
    let h := (strAssoc st.authHandlers (st.defaultAuthenticate.getD "")).getD "undefined"
    ["    const authResult = await this.#handle" ++ h ++ "Authentication(req, res);",
     "    if (authResult === undefined) \x7b",
     "        return false;",
     "    \x7d"]
  else []

/-- The inline authentication/authorization section `handleRoute` emits at the
top of a handler (part_009:562-586). -/
def routeAuthSection (st : EmitState) (route : RouteNode) : List String :=
  match route.authenticate with
  | some cl =>
      if jsTruthyStr (strAssoc st.authHandlers cl.authBlock) then
        let h := (strAssoc st.authHandlers cl.authBlock).getD "undefined"
        ["    const authResult = await this.#handle" ++ h ++ "Authentication(req, res);",
         "    if (authResult === undefined) \x7b",
         "        return false;",
         "    \x7d"] ++
        (match cl.authorization with
         | some roles =>
            ["    const isAuthorized = await this.authorize" ++ h ++ "(req, [" ++ String.intercalate ", " roles ++ "]);",
             "    if (!isAuthorized) \x7b",
             "        res.status(403).send(messages._403);",
             "        return false;",
             "    \x7d"]
         | none => [])
      else defaultAuthSection st
  | none => defaultAuthSection st

/-- `handleRoute` (part_009:543-596): handler lines and build wiring lines of
one route. -/
def handleRoute (st : EmitState) (route : RouteNode) (routerName : String) :
    List String × List String :=
  let routeName := route.path.name
  let handlerName := "on" ++
    (if routerName = "" then "" else jsCapFirst routerName) ++ jsCapFirst routeName
  let buildFunctionLines :=
    [(if routerName = "" then "app" else routerName) ++ "." ++ strLower route.method ++
      "(\"" ++ route.path.path ++ "\", this." ++ handlerName ++ ".bind(this));"]
  let methodPrefix :=
    if route.authenticate.isSome || jsTruthyStr st.defaultAuthenticate then "async " else ""
  let output :=
    [""] ++
    (match route.description with
     | some d => ["/** " ++ d ++ " */"]
     | none => []) ++
    [methodPrefix ++ handlerName ++ "(req, res) \x7b"] ++
    routeAuthSection st route ++
    generateValidationCode route.header route.body route.path ++
    ["    return true;",
     "\x7d"]
  (output, buildFunctionLines)

/-! ### Tokens, positions and diagnostics (compiler/lexing/syntax.ts,
compiler/lexing/tokens.ts, src/unnamed/part_008) -/
/-- `SyntaxKind` (syntax.ts:60-142). -/
inductive SyntaxKind where
  | BadToken | EndOfFileToken | Comment
  | NumericLiteral | StringLiteral | BooleanLiteral | PathLiteral
  | Identifier
  | TargetKeyword | UseKeyword | RouterKeyword
  | GetMethodKeyword | PostMethodKeyword | PutMethodKeyword | DeleteMethodKeyword
  | PatchMethodKeyword | HeadMethodKeyword | OptionsMethodKeyword
  | IncludeKeyword | AsKeyword
  | StringTypeKeyword | IntegerTypeKeyword | FloatTypeKeyword | BooleanTypeKeyword
  | AnyTypeKeyword | DateTypeKeyword | DateTimeTypeKeyword | TimeTypeKeyword
  | BodyKeyword | HeaderKeyword | QueryKeyword | WithKeyword
  | PublicKeyword | AuthenticatedKeyword | AuthenticateKeyword | AuthKeyword
  | ResponseKeyword | ResponsesKeyword | RenderKeyword
  | TableKeyword | ListKeyword | DetailKeyword | FormKeyword
  | OpenBraceToken | CloseBraceToken | OpenParenToken | CloseParenToken
  | OpenBracketToken | CloseBracketToken
  | DotToken | CommaToken | SemicolonToken | ColonToken | QuestionToken
  | ExclamationToken | LessThanToken | GreaterThanToken | EqualsToken
  | PlusToken | MinusToken | AsteriskToken | SlashToken | PercentToken
  | CaretToken | TildeToken | AmpersandToken | BarToken | AtToken | HashToken
deriving DecidableEq

/-- `SyntaxKind[kind]` — the reverse enum mapping used by
`transformSyntaxKind` (part_008:47-49). -/
def transformSyntaxKind : SyntaxKind → String
  | .BadToken => "BadToken"
  | .EndOfFileToken => "EndOfFileToken"
  | .Comment => "Comment"
  | .NumericLiteral => "NumericLiteral"
  | .StringLiteral => "StringLiteral"
  | .BooleanLiteral => "BooleanLiteral"
  | .PathLiteral => "PathLiteral"
  | .Identifier => "Identifier"
  | .TargetKeyword => "TargetKeyword"
  | .UseKeyword => "UseKeyword"
  | .RouterKeyword => "RouterKeyword"
  | .GetMethodKeyword => "GetMethodKeyword"
  | .PostMethodKeyword => "PostMethodKeyword"
  | .PutMethodKeyword => "PutMethodKeyword"
  | .DeleteMethodKeyword => "DeleteMethodKeyword"
  | .PatchMethodKeyword => "PatchMethodKeyword"
  | .HeadMethodKeyword => "HeadMethodKeyword"
  | .OptionsMethodKeyword => "OptionsMethodKeyword"
  | .IncludeKeyword => "IncludeKeyword"
  | .AsKeyword => "AsKeyword"
  | .StringTypeKeyword => "StringTypeKeyword"
  | .IntegerTypeKeyword => "IntegerTypeKeyword"
  | .FloatTypeKeyword => "FloatTypeKeyword"
  | .BooleanTypeKeyword => "BooleanTypeKeyword"
  | .AnyTypeKeyword => "AnyTypeKeyword"
  | .DateTypeKeyword => "DateTypeKeyword"
  | .DateTimeTypeKeyword => "DateTimeTypeKeyword"
  | .TimeTypeKeyword => "TimeTypeKeyword"
  | .BodyKeyword => "BodyKeyword"
  | .HeaderKeyword => "HeaderKeyword"
  | .QueryKeyword => "QueryKeyword"
  | .WithKeyword => "WithKeyword"
  | .PublicKeyword => "PublicKeyword"
  | .AuthenticatedKeyword => "AuthenticatedKeyword"
  | .AuthenticateKeyword => "AuthenticateKeyword"
  | .AuthKeyword => "AuthKeyword"
  | .ResponseKeyword => "ResponseKeyword"
  | .ResponsesKeyword => "ResponsesKeyword"
  | .RenderKeyword => "RenderKeyword"
  | .TableKeyword => "TableKeyword"
  | .ListKeyword => "ListKeyword"
  | .DetailKeyword => "DetailKeyword"
  | .FormKeyword => "FormKeyword"
  | .OpenBraceToken => "OpenBraceToken"
  | .CloseBraceToken => "CloseBraceToken"
  | .OpenParenToken => "OpenParenToken"
  | .CloseParenToken => "CloseParenToken"
  | .OpenBracketToken => "OpenBracketToken"
  | .CloseBracketToken => "CloseBracketToken"
  | .DotToken => "DotToken"
  | .CommaToken => "CommaToken"
  | .SemicolonToken => "SemicolonToken"
  | .ColonToken => "ColonToken"
  | .QuestionToken => "QuestionToken"
  | .ExclamationToken => "ExclamationToken"
  | .LessThanToken => "LessThanToken"
  | .GreaterThanToken => "GreaterThanToken"
  | .EqualsToken => "EqualsToken"
  | .PlusToken => "PlusToken"
  | .MinusToken => "MinusToken"
  | .AsteriskToken => "AsteriskToken"
  | .SlashToken => "SlashToken"
  | .PercentToken => "PercentToken"
  | .CaretToken => "CaretToken"
  | .TildeToken => "TildeToken"
  | .AmpersandToken => "AmpersandToken"
  | .BarToken => "BarToken"
  | .AtToken => "AtToken"
  | .HashToken => "HashToken"

/-- `SourceSpan` (syntax.ts:22-42). -/
structure SourceSpan where
  start : Int
  length : Int
deriving DecidableEq

/-- `SourcePosition` (syntax.ts:6-20). -/
structure SourcePosition where
  file : Option String
  line : SourceSpan
  column : SourceSpan
deriving DecidableEq

/-- `ISyntaxToken` with the typed literal payloads of `IStringToken`,
`INumericToken` and `IBooleanToken` (tokens.ts); a payload absent on the
JavaScript object is `none`. -/
structure Tok where
  kind : SyntaxKind
  text : String
  column : SourceSpan
  line : Option Int := none
  sval : Option String := none
  nval : Option Int := none
  bval : Option Bool := none
deriving DecidableEq

/-- `DiagnosticSeverity` (part_008:134-137). -/
inductive Severity where
  | error | warning
deriving DecidableEq

/-- `Diagnostic` (part_008:102-129). -/
structure Diag where
  severity : Severity
  position : SourcePosition
  message : String
  hint : String := ""
deriving DecidableEq

/-- `DiagnosticSink.errorCount` (part_008:23-25). -/
def errorCount (diags : List Diag) : Nat :=
  (diags.filter fun d => d.severity == Severity.error).length

/-! ### The parser (compiler/parsing/parser.ts), embedded as a fuel-indexed
state machine.  Every `while` loop and every mutually recursive call burns one
unit of fuel; running out of fuel yields `PErr.fuelOut`, so an execution of
the TypeScript parser that never terminates corresponds to `PErr.fuelOut` for
every fuel.  JavaScript runtime exceptions are `PErr.jsError`. -/
inductive PErr where
  | fuelOut
  | jsError (msg : String)
deriving DecidableEq

/-- Parser + `ParserContext` state: the token list and cursor
(parser.ts:681-727), the shared diagnostic sink, `currentFiles`
(parser.ts:687), and the project-node collections the parser mutates through
`_currentProjectNode` (`authBlocks`, `middlewares`); `hasProject` records
whether `_currentProjectNode` is defined. -/
structure PState where
  toks : List Tok
  pos : Nat
  diags : List Diag
  files : List String
  authBlocks : List (String × AuthBlockNode)
  middlewares : List MiddlewareNode
  hasProject : Bool

abbrev PM (α : Type) := PState → Except PErr (α × PState)

instance : Monad PM where
  pure a := fun s => .ok (a, s)
  bind m f := fun s =>
    match m s with
    | .ok (a, s') => f a s'
    | .error e => .error e

def pmThrow {α : Type} (e : PErr) : PM α := fun _ => .error e

def getS : PM PState := fun s => .ok (s, s)

def modifyS (f : PState → PState) : PM Unit := fun s => .ok ((), f s)

/-- The fallback token `peek` yields on an empty token list (never reached on
lexer output, which always ends in an end-of-file token). -/
def dummyTok : Tok := { kind := .EndOfFileToken, text := "\x00", column := ⟨0, 1⟩ }

/-- `ParserContext.peek` (parser.ts:715-717): clamps to the last token. -/
def peekT (off : Nat) (s : PState) : Tok :=
  if s.pos + off < s.toks.length then s.toks.getD (s.pos + off) dummyTok
  else s.toks.getD (s.toks.length - 1) dummyTok

/-- `ParserContext.currentToken` (parser.ts:695-697). -/
def currentTok (s : PState) : Tok := peekT 0 s

/-- The array index `currentToken` denotes; two cursor positions yield the
same token object (JavaScript `===`) exactly when their effective indices
agree, because `peek` clamps to the last token. -/
def effIndex (s : PState) : Nat :=
  if s.pos < s.toks.length then s.pos else s.toks.length - 1

/-- `ParserContext.workingFile` (parser.ts:707-713). -/
def workingFile (s : PState) : Option String := s.files.getLast?

/-- `ParserContext.jump` (parser.ts:719-721). -/
def jumpT (off : Nat) : PM Unit := modifyS fun s => { s with pos := s.pos + off }

/-- `ParserContext.readToken` (parser.ts:723-727). -/
def readTokenT : PM Tok := fun s => .ok (currentTok s, { s with pos := s.pos + 1 })

/-- `DiagnosticSink.reportError` (part_008:31-33). -/
def reportError (position : SourcePosition) (message : String)
    (hint : Option String := none) : PM Unit :=
  modifyS fun s =>
    { s with diags := s.diags ++
        [{ severity := .error, position := position, message := message, hint := hint.getD "" }] }

/-- `DiagnosticSink.reportUnexpectedToken` (part_008:39-41). -/
def reportUnexpectedToken (current : Tok) (expected : List SyntaxKind)
    (hint : Option String) (file : Option String) : PM Unit :=
  modifyS fun s =>
    { s with diags := s.diags ++
        [{ severity := .error,
           position := ⟨file, ⟨current.line.getD (-1), 0⟩, current.column⟩,
           message := "Expected token of kind " ++
             String.intercalate " or " (expected.map transformSyntaxKind) ++
             " but got " ++ transformSyntaxKind current.kind ++ " instead.",
           hint := hint.getD "" }] }

/-- `ParserContext.matchToken` (parser.ts:729-755): a matching token is read;
otherwise a synthetic token of the expected kind is produced, with a
diagnostic unless the match is optional. -/
def matchToken (kind : SyntaxKind) (optional : Bool := false)
    (hint : Option String := none) : PM Tok := do
  let s ← getS
  let current := currentTok s
  if current.kind = kind then
    readTokenT
  else if optional then
    pure { kind := kind, text := "", column := current.column, line := current.line }
  else do
    reportError ⟨workingFile s, ⟨current.line.getD (-1), 1⟩, current.column⟩
      ("Expected token of kind " ++ transformSyntaxKind kind ++ " but got " ++
        transformSyntaxKind current.kind ++ " instead.") hint
    pure { kind := kind, text := "", column := current.column, line := current.line }

/-- JavaScript truthiness of an optional option value (`if (value)`). -/
def jsTruthyOpt : Option OptionValue → Bool
  | some v => jsTruthy v
  | none => false

/-- The `while (currentToken.kind === DotToken)` loop of
`parseGlobalVariable` (parser.ts:300-303). -/
def globalVarLoop : Nat → List String → PM (List String)
  | 0, _ => pmThrow .fuelOut
  | fuel + 1, path => do
      let s ← getS
      if (currentTok s).kind = .DotToken then do
        jumpT 1
        let t ← matchToken .Identifier
        globalVarLoop fuel (path ++ [t.text])
      else
        pure path

/-- `parseGlobalVariable` (parser.ts:297-306): `@a.b.c` becomes
`GlobalVariable(name := last segment, path := the other segments)`. -/
def parseGlobalVariable (fuel : Nat) : PM OptionValue := do
  let t ← matchToken .Identifier
  let path ← globalVarLoop fuel [t.text]
  match path.getLast? with
  | some nm => pure (.global nm path.dropLast)
  | none => pmThrow (.jsError "pop of empty array")

mutual

/-- `parseMiddlewareOptionValue` (parser.ts:249-295).  `none` models the
`undefined` the source returns after reporting an unexpected token, and the
`undefined` payload of a literal token without a value. -/
def parseMiddlewareOptionValue : Nat → PM (Option OptionValue)
  | 0 => pmThrow .fuelOut
  | fuel + 1 => do
      let s ← getS
      match (currentTok s).kind with
      | .AtToken => do
          jumpT 1
          let g ← parseGlobalVariable fuel
          pure (some g)
      | .StringLiteral => do
          jumpT 1
          pure ((currentTok s).sval.map OptionValue.str)
      | .NumericLiteral => do
          jumpT 1
          pure ((currentTok s).nval.map OptionValue.num)
      | .BooleanLiteral => do
          jumpT 1
          pure ((currentTok s).bval.map OptionValue.boolv)
      | .OpenBraceToken => do
          let o ← parseMiddlewareOptionObject fuel
          pure (some (.obj o))
      | .OpenBracketToken => do
          let a ← parseMiddlewareOptionArray fuel
          pure (some (.arr a))
      | .StringTypeKeyword => do jumpT 1; pure (some (.str (currentTok s).text))
      | .IntegerTypeKeyword => do jumpT 1; pure (some (.str (currentTok s).text))
      | .FloatTypeKeyword => do jumpT 1; pure (some (.str (currentTok s).text))
      | .BooleanTypeKeyword => do jumpT 1; pure (some (.str (currentTok s).text))
      | .AnyTypeKeyword => do jumpT 1; pure (some (.str (currentTok s).text))
      | .DateTimeTypeKeyword => do jumpT 1; pure (some (.str (currentTok s).text))
      | .DateTypeKeyword => do jumpT 1; pure (some (.str (currentTok s).text))
      | .TimeTypeKeyword => do jumpT 1; pure (some (.str (currentTok s).text))
      | .HeaderKeyword => do jumpT 1; pure (some (.str (currentTok s).text))
      | .QueryKeyword => do jumpT 1; pure (some (.str (currentTok s).text))
      | .BodyKeyword => do jumpT 1; pure (some (.str (currentTok s).text))
      | .PublicKeyword => do jumpT 1; pure (some (.str (currentTok s).text))
      | .AuthenticatedKeyword => do jumpT 1; pure (some (.str (currentTok s).text))
      | _ => do
          reportUnexpectedToken (currentTok s)
            [.StringLiteral, .NumericLiteral, .BooleanLiteral, .OpenBraceToken]
            none (workingFile s)
          pure none

/-- `parseMiddlewareOptionObject` (parser.ts:308-330): consume `{`, then the
entry loop. -/
def parseMiddlewareOptionObject : Nat → PM MiddlewareOptions
  | 0 => pmThrow .fuelOut
  | fuel + 1 => do
      jumpT 1
      parseMiddlewareOptionObjectLoop fuel []

/-- The `while (currentToken.kind !== CloseBraceToken)` loop of
`parseMiddlewareOptionObject` (parser.ts:313-325); there is no end-of-file
check.  A falsy value (`if (value)`) adds nothing and consumes nothing. -/
def parseMiddlewareOptionObjectLoop : Nat → MiddlewareOptions → PM MiddlewareOptions
  | 0, _ => pmThrow .fuelOut
  | fuel + 1, options => do
      let s ← getS
      if (currentTok s).kind = .CloseBraceToken then do
        jumpT 1
        pure options
      else do
        let key ← matchToken .Identifier
        let _ ← matchToken .ColonToken false (some ":")
        let v? ← parseMiddlewareOptionValue fuel
        if jsTruthyOpt v? then do
          let options := jsAssign options key.text (v?.getD (.str ""))
          let s ← getS
          (if (currentTok s).kind = .CommaToken then jumpT 1 else pure ())
          parseMiddlewareOptionObjectLoop fuel options
        else
          parseMiddlewareOptionObjectLoop fuel options

/-- `parseMiddlewareOptionArray` (parser.ts:332-351): consume `[`, then the
element loop. -/
def parseMiddlewareOptionArray : Nat → PM (List OptionValue)
  | 0 => pmThrow .fuelOut
  | fuel + 1 => do
      jumpT 1
      parseMiddlewareOptionArrayLoop fuel []

/-- The `while (currentToken.kind !== CloseBracketToken)` loop of
`parseMiddlewareOptionArray` (parser.ts:337-346); no end-of-file check. -/
def parseMiddlewareOptionArrayLoop : Nat → List OptionValue → PM (List OptionValue)
  | 0, _ => pmThrow .fuelOut
  | fuel + 1, values => do
      let s ← getS
      if (currentTok s).kind = .CloseBracketToken then do
        jumpT 1
        pure values
      else do
        let v? ← parseMiddlewareOptionValue fuel
        if jsTruthyOpt v? then do
          let values := values ++ [v?.getD (.str "")]
          let s ← getS
          (if (currentTok s).kind = .CommaToken then jumpT 1 else pure ())
          parseMiddlewareOptionArrayLoop fuel values
        else
          parseMiddlewareOptionArrayLoop fuel values

end

/-- The `while (currentToken.kind !== CloseParenToken)` loop of
`parseMiddlewareOptions` (parser.ts:226-241); there is no end-of-file check,
so a missing `)` at the end of input loops forever.  A falsy value jumps one
token (parser.ts:239). -/
def parseMiddlewareOptionsLoop : Nat → MiddlewareOptions → PM MiddlewareOptions
  | 0, _ => pmThrow .fuelOut
  | fuel + 1, options => do
      let s ← getS
      if (currentTok s).kind = .CloseParenToken then do
        jumpT 1
        pure options
      else do
        let key ← matchToken .Identifier
        let _ ← matchToken .ColonToken false (some ":")
        let v? ← parseMiddlewareOptionValue fuel
        if jsTruthyOpt v? then do
          let options := jsAssign options key.text (v?.getD (.str ""))
          let s ← getS
          (if (currentTok s).kind = .CommaToken then jumpT 1 else pure ())
          parseMiddlewareOptionsLoop fuel options
        else do
          jumpT 1
          parseMiddlewareOptionsLoop fuel options

/-- `parseMiddlewareOptions` (parser.ts:219-247): an empty mapping unless an
opening parenthesis is present. -/
def parseMiddlewareOptions : Nat → PM MiddlewareOptions
  | 0 => pmThrow .fuelOut
  | fuel + 1 => do
      let s ← getS
      if (currentTok s).kind = .OpenParenToken then do
        jumpT 1
        parseMiddlewareOptionsLoop fuel []
      else
        pure []

/-- `parseMiddleware` (parser.ts:206-217). -/
def parseMiddleware (fuel : Nat) : PM MiddlewareNode := do
  let _ ← matchToken .UseKeyword false (some "use")
  let nameTok ← matchToken .Identifier
  let options ← parseMiddlewareOptions fuel
  let _ ← matchToken .SemicolonToken true
  pure ⟨nameTok.text, options⟩

/-- The body/alias part of `parseAuthBlock` (parser.ts:151-175): options then
optional alias, or alias then mandatory options. -/
def parseAuthBlockBodyAlias (fuel : Nat) : PM (Option (MiddlewareOptions × String)) := do
  let s ← getS
  if (currentTok s).kind = .OpenParenToken then do
    let body ← parseMiddlewareOptions fuel
    let s ← getS
    if (currentTok s).kind = .AsKeyword then do
      jumpT 1
      let a ← matchToken .Identifier
      pure (some (body, a.text))
    else
      pure (some (body, ""))
  else if (currentTok s).kind = .AsKeyword then do
    jumpT 1
    let a ← matchToken .Identifier
    let s ← getS
    if (currentTok s).kind = .OpenParenToken then do
      let body ← parseMiddlewareOptions fuel
      pure (some (body, a.text))
    else do
      let cur := currentTok s
      reportError ⟨workingFile s, ⟨cur.line.getD (-1), 1⟩, cur.column⟩
        "A auth block must have a body." (some "(")
      pure none
  else
    pure (some ([], ""))

/-- `parseAuthBlock` (parser.ts:142-200).  The alias defaults to the empty
string `""` (parser.ts:152) and is always passed to the `AuthBlockNode`
constructor, so the node's `alias` is defined even without an `as` clause.
The options object is only inspected for `source`, `field` and
`defaultAccess`; the constructor call at parser.ts:199 omits the options
argument. -/
def parseAuthBlock (fuel : Nat) : PM (Option AuthBlockNode) := do
  jumpT 1
  let typeTok ← matchToken .Identifier
  let type := typeTok.text
  if !(type = "API-Key" || type = "Bearer") then do
    let s ← getS
    let cur := currentTok s
    reportError ⟨workingFile s, ⟨cur.line.getD (-1), 1⟩, cur.column⟩
      ("auth type \x27" ++ type ++ "\x27 does not exist.")
    pure none
  else do
    let ba ← parseAuthBlockBodyAlias fuel
    match ba with
    | none => pure none
    | some (body, aliasStr) => do
        let _ ← matchToken .SemicolonToken true
        let srcOk :=
          match jsGet body "source" with
          | some (.str "header") => true
          | some (.str "query") => true
          | some (.str "body") => true
          | _ => false
        if !srcOk then do
          let s ← getS
          let cur := currentTok s
          reportError ⟨workingFile s, ⟨cur.line.getD (-1), 1⟩, cur.column⟩
            "A auth block must have a source." (some "source: header|query|body")
          pure none
        else do
          let fieldOk :=
            match jsGet body "field" with
            | some (.str f) => !f.isEmpty
            | _ => false
          if !fieldOk then do
            let s ← getS
            let cur := currentTok s
            reportError ⟨workingFile s, ⟨cur.line.getD (-1), 1⟩, cur.column⟩
              "A auth block must have a field." (some "field: <string>")
            pure none
          else do
            let srcStr := match jsGet body "source" with | some (.str v) => v | _ => ""
            let fieldStr := match jsGet body "field" with | some (.str v) => v | _ => ""
            match jsGet body "defaultAccess" with
            | some v =>
                if jsTruthy v then
                  match v with
                  | .str "public" =>
                      pure (some (AuthBlockNode.make type srcStr fieldStr (some aliasStr) (some "public")))
                  | .str "authenticated" =>
                      pure (some (AuthBlockNode.make type srcStr fieldStr (some aliasStr) (some "authenticated")))
                  | _ => do
                      let s ← getS
                      let cur := currentTok s
                      reportError ⟨workingFile s, ⟨cur.line.getD (-1), 1⟩, cur.column⟩
                        "A auth block must have a valid defaultAccess."
                        (some "defaultAccess: public|authenticated")
                      pure none
                else
                  pure (some (AuthBlockNode.make type srcStr fieldStr (some aliasStr) (some "public")))
            | none =>
                pure (some (AuthBlockNode.make type srcStr fieldStr (some aliasStr) (some "public")))

/-- `parseMethod` (parser.ts:445-481); the error path reports and recovers
with `Method.Get`. -/
def parseMethod : PM String := do
  let s ← getS
  match (currentTok s).kind with
  | .GetMethodKeyword => do jumpT 1; pure "GET"
  | .PostMethodKeyword => do jumpT 1; pure "POST"
  | .PutMethodKeyword => do jumpT 1; pure "PUT"
  | .DeleteMethodKeyword => do jumpT 1; pure "DELETE"
  | .PatchMethodKeyword => do jumpT 1; pure "PATCH"
  | .HeadMethodKeyword => do jumpT 1; pure "HEAD"
  | .OptionsMethodKeyword => do jumpT 1; pure "OPTIONS"
  | _ => do
      reportUnexpectedToken (currentTok s)
        [.GetMethodKeyword, .PostMethodKeyword, .PutMethodKeyword, .DeleteMethodKeyword,
         .PatchMethodKeyword, .HeadMethodKeyword, .OptionsMethodKeyword]
        none (workingFile s)
      pure "GET"

/-- `parseQueryParameterType` (parser.ts:592-633); the default case first
jumps, then reports, then recovers with `Any`. -/
def parseQueryParameterType : PM QueryParameterType := do
  let s ← getS
  match (currentTok s).kind with
  | .AnyTypeKeyword => do jumpT 1; pure .any
  | .StringTypeKeyword => do jumpT 1; pure .string
  | .IntegerTypeKeyword => do jumpT 1; pure .int
  | .FloatTypeKeyword => do jumpT 1; pure .float
  | .BooleanTypeKeyword => do jumpT 1; pure .bool
  | .DateTypeKeyword => do jumpT 1; pure .date
  | .DateTimeTypeKeyword => do jumpT 1; pure .datetime
  | .TimeTypeKeyword => do jumpT 1; pure .time
  | _ => do
      jumpT 1
      reportUnexpectedToken (currentTok s)
        [.AnyTypeKeyword, .StringTypeKeyword, .IntegerTypeKeyword, .FloatTypeKeyword,
         .BooleanTypeKeyword, .DateTypeKeyword, .DateTimeTypeKeyword, .TimeTypeKeyword]
        none (workingFile s)
      pure .any

/-- `parseQueryParameter` (parser.ts:580-590); without `=` the source falls
through and returns `undefined`. -/
def parseQueryParameter : PM (Option QueryParameterNode) := do
  let nameTok ← matchToken .Identifier
  let s ← getS
  if (currentTok s).kind = .EqualsToken then do
    jumpT 1
    let ty ← parseQueryParameterType
    pure (some ⟨nameTok.text, ty⟩)
  else
    pure none

/-- The `while (? or &)` loop of `parseQueryParameters` (parser.ts:565-578). -/
def parseQueryParametersLoop : Nat → List QueryParameterNode → PM (List QueryParameterNode)
  | 0, _ => pmThrow .fuelOut
  | fuel + 1, acc => do
      let s ← getS
      let k := (currentTok s).kind
      if k = .QuestionToken ∨ k = .AmpersandToken then do
        jumpT 1
        let p? ← parseQueryParameter
        match p? with
        | some p => parseQueryParametersLoop fuel (acc ++ [p])
        | none => parseQueryParametersLoop fuel acc
      else
        pure acc

/-- The alias sanitizer of `parsePath` (parser.ts:559):
`alias.replace(/[^a-zA-Z0-9_]/g, "_").replace(/^[0-9]/, "_$&")`. -/
def sanitizeAliasIdent (s : String) : String :=
  let t := String.mk (s.toList.map fun c => if c.isAlpha || c.isDigit || c == '_' then c else '_')
  if (t.toList.headD ' ').isDigit then "_" ++ t else t

/-- The path-segment loop of `parsePath` (parser.ts:544-548). -/
def parsePathLoop : Nat → String → PM String
  | 0, _ => pmThrow .fuelOut
  | fuel + 1, path => do
      let s ← getS
      let k := (currentTok s).kind
      if k = .SlashToken ∨ k = .Identifier ∨ k = .HashToken ∨ k = .MinusToken then do
        let path := path ++ (currentTok s).text
        jumpT 1
        parsePathLoop fuel path
      else
        pure path

/-- The optional query-parameter section of `parsePath` (parser.ts:550-552). -/
def parsePathQueryPart (fuel : Nat) : PM (List QueryParameterNode) := do
  let s ← getS
  if (currentTok s).kind = .QuestionToken then parseQueryParametersLoop fuel []
  else pure []

/-- The optional `as` alias of `parsePath` (parser.ts:554-560). -/
def parsePathAliasPart : PM (Option String) := do
  let s ← getS
  if (currentTok s).kind = .AsKeyword then do
    jumpT 1
    let a ← matchToken .Identifier
    pure (some (sanitizeAliasIdent a.text))
  else
    pure none

/-- `parsePath` (parser.ts:537-563). -/
def parsePath (fuel : Nat) : PM PathNode := do
  let _ ← matchToken .SlashToken false (some "/")
  let path ← parsePathLoop fuel "/"
  let qps ← parsePathQueryPart fuel
  let alias? ← parsePathAliasPart
  pure ⟨path, alias?, qps⟩

/-- `this._currentProjectNode!.authBlocks`: a JavaScript `TypeError` when no
project node is current (as in every sub-parser created by `_include`,
parser.ts:667). -/
def projAuthBlocks : PM (List (String × AuthBlockNode)) := fun s =>
  if s.hasProject then .ok (s.authBlocks, s)
  else .error (.jsError "TypeError: _currentProjectNode is undefined")

/-- Lookup in the project's auth-block record. -/
def lookupAB : List (String × AuthBlockNode) → String → Option AuthBlockNode
  | [], _ => none
  | (k', b) :: t, k => if k' = k then some b else lookupAB t k

/-- `authBlockNode.isAuthorizationInUse = true` (parser.ts:416): the only
mutation of the AST after construction. -/
def setAuthInUse (id : String) : PM Unit :=
  modifyS fun s =>
    { s with authBlocks := s.authBlocks.map fun kv =>
        if kv.1 = id then (kv.1, { kv.2 with isAuthorizationInUse := true }) else kv }

/-- The role-list loop of `parseAuthenticateClause` (parser.ts:427-435); this
loop does check for end-of-file.  Role strings are pushed via `.text`, so the
surrounding quotes stay. -/
def parseAuthRolesLoop : Nat → List String → PM (List String)
  | 0, _ => pmThrow .fuelOut
  | fuel + 1, acc => do
      let s ← getS
      let k := (currentTok s).kind
      if k ≠ SyntaxKind.CloseBracketToken ∧ k ≠ SyntaxKind.EndOfFileToken then do
        let t ← matchToken .StringLiteral false (some "<string>")
        let acc := acc ++ [t.text]
        let s ← getS
        (if (currentTok s).kind = .CommaToken then jumpT 1 else pure ())
        parseAuthRolesLoop fuel acc
      else do
        jumpT 1
        pure acc

/-- The auth-block reference of `parseAuthenticateClause` (parser.ts:393-402):
an identifier names the block; otherwise the single project block is the
implicit default, unless several exist. -/
def parseAuthRefPart : PM (Option String) := do
  let s ← getS
  if (currentTok s).kind = .Identifier then do
    let t ← matchToken .Identifier false (some "<string>")
    pure (some t.text)
  else do
    let blocks ← projAuthBlocks
    if blocks.length > 1 then do
      reportUnexpectedToken (currentTok s) [.Identifier] (some "<authblock>") (workingFile s)
      pure none
    else
      pure (some "")

/-- Resolution of the empty default reference in `parseAuthenticateClause`
(parser.ts:404-410): the first registered auth block. -/
def resolveAuthRefPart (ab : String) : PM (Option String) := do
  if ab = "" then do
    let blocks ← projAuthBlocks
    match blocks.head? with
    | some (k, _) => pure (some k)
    | none => do
        let s ← getS
        let cur := currentTok s
        reportError ⟨workingFile s, ⟨cur.line.getD (-1), 1⟩, cur.column⟩
          "No default auth block found."
        pure none
  else
    pure (some ab)

/-- `parseAuthenticateClause` (parser.ts:389-443). -/
def parseAuthenticateClause (fuel : Nat) : PM (Option AuthenticateClauseNode) := do
  let ab? ← parseAuthRefPart
  match ab? with
  | none => pure none
  | some ab => do
      let ab'? ← resolveAuthRefPart ab
      match ab'? with
      | none => pure none
      | some authBlock => do
          let blocks ← projAuthBlocks
          match lookupAB blocks authBlock with
          | none => do
              let s ← getS
              let cur := currentTok s
              reportError ⟨workingFile s, ⟨cur.line.getD (-1), 1⟩, cur.column⟩
                ("No auth block found for \x27" ++ authBlock ++ "\x27.")
              pure none
          | some _ => do
              let s ← getS
              if (currentTok s).kind = .WithKeyword then do
                jumpT 1
                setAuthInUse authBlock
                let s ← getS
                if (currentTok s).kind = .StringLiteral then do
                  let t ← matchToken .StringLiteral false (some "<string>")
                  pure (some ⟨authBlock, some [t.text]⟩)
                else if (currentTok s).kind = .OpenBracketToken then do
                  jumpT 1
                  let roles ← parseAuthRolesLoop fuel []
                  pure (some ⟨authBlock, some roles⟩)
                else do
                  reportUnexpectedToken (currentTok s) [.StringLiteral, .OpenBracketToken]
                    none (workingFile s)
                  pure none
              else
                pure (some ⟨authBlock, none⟩)

/-- One attribute of `parseRoute` (parser.ts:366-378): dispatch on the keyword
that introduced it. -/
def parseRouteAttr (fuel : Nat) (kind : SyntaxKind)
    (header body : Option MiddlewareOptions) (authenticate : Option AuthenticateClauseNode) :
    PM (Option MiddlewareOptions × Option MiddlewareOptions × Option AuthenticateClauseNode) := do
  if kind = SyntaxKind.HeaderKeyword then do
    let h ← parseMiddlewareOptions fuel
    pure (some h, body, authenticate)
  else if kind = SyntaxKind.BodyKeyword then do
    let b ← parseMiddlewareOptions fuel
    pure (header, some b, authenticate)
  else do
    let a ← parseAuthenticateClause fuel
    pure (header, body, a)

/-- The attribute loop of `parseRoute` (parser.ts:362-382): header, body and
authenticate in any order; a branch that consumed nothing jumps one token. -/
def parseRouteAttrLoop : Nat → Option MiddlewareOptions → Option MiddlewareOptions →
    Option AuthenticateClauseNode →
    PM (Option MiddlewareOptions × Option MiddlewareOptions × Option AuthenticateClauseNode)
  | 0, _, _, _ => pmThrow .fuelOut
  | fuel + 1, header, body, authenticate => do
      let s ← getS
      let k := (currentTok s).kind
      if k = SyntaxKind.HeaderKeyword ∨ k = SyntaxKind.BodyKeyword ∨
          k = SyntaxKind.AuthenticateKeyword then do
        jumpT 1
        let s2 ← getS
        let start := effIndex s2
        let (header, body, authenticate) ←
          parseRouteAttr fuel (currentTok s).kind header body authenticate
        let s3 ← getS
        (if effIndex s3 = start then jumpT 1 else pure ())
        parseRouteAttrLoop fuel header body authenticate
      else
        pure (header, body, authenticate)

/-- `parseRoute` (parser.ts:353-387). -/
def parseRoute (fuel : Nat) : PM RouteNode := do
  let method ← parseMethod
  let path ← parsePath fuel
  let (header, body, authenticate) ← parseRouteAttrLoop fuel none none none
  let _ ← matchToken .SemicolonToken true
  pure { method := method, path := path, header := header, body := body,
         authenticate := authenticate }

/-- One attribute of `parseRouter` (parser.ts:496-512): like `parseRouteAttr`,
but the header and body branches re-check the cursor themselves. -/
def parseRouterAttr (fuel : Nat) (kind : SyntaxKind) (start : Nat)
    (header body : Option MiddlewareOptions) (authenticate : Option AuthenticateClauseNode) :
    PM (Option MiddlewareOptions × Option MiddlewareOptions × Option AuthenticateClauseNode) := do
  if kind = SyntaxKind.HeaderKeyword then do
    let h ← parseMiddlewareOptions fuel
    let s ← getS
    (if effIndex s = start then jumpT 1 else pure ())
    pure (some h, body, authenticate)
  else if kind = SyntaxKind.BodyKeyword then do
    let b ← parseMiddlewareOptions fuel
    let s ← getS
    (if effIndex s = start then jumpT 1 else pure ())
    pure (header, some b, authenticate)
  else do
    let a ← parseAuthenticateClause fuel
    pure (header, body, a)

/-- The attribute loop of `parseRouter` (parser.ts:492-516): like the route
loop, but only the header and body branches re-check the cursor. -/
def parseRouterAttrLoop : Nat → Option MiddlewareOptions → Option MiddlewareOptions →
    Option AuthenticateClauseNode →
    PM (Option MiddlewareOptions × Option MiddlewareOptions × Option AuthenticateClauseNode)
  | 0, _, _, _ => pmThrow .fuelOut
  | fuel + 1, header, body, authenticate => do
      let s ← getS
      let k := (currentTok s).kind
      if k = SyntaxKind.HeaderKeyword ∨ k = SyntaxKind.BodyKeyword ∨
          k = SyntaxKind.AuthenticateKeyword then do
        jumpT 1
        let s2 ← getS
        let start := effIndex s2
        let (header, body, authenticate) ←
          parseRouterAttr fuel (currentTok s).kind start header body authenticate
        parseRouterAttrLoop fuel header body authenticate
      else
        pure (header, body, authenticate)

mutual

/-- `parseParentNode` (parser.ts:68-78): while there is a next token, parse a
child; a pass that consumed nothing jumps one token.  `isProject` models the
`instanceof ProjectNode` test on the node being filled, `fs` maps an include
path to the token list its file lexes to. -/
def parseParentNode : Nat → (String → Option (List Tok)) → Bool → RouterNode → PM RouterNode
  | 0, _, _, _ => pmThrow .fuelOut
  | fuel + 1, fs, isProject, parent => do
      let s ← getS
      if (currentTok s).kind ≠ SyntaxKind.EndOfFileToken then do
        let start := effIndex s
        let parent ← parseRouterChildren fuel fs isProject parent
        let s ← getS
        (if effIndex s = start then jumpT 1 else pure ())
        parseParentNode fuel fs isProject parent
      else
        pure parent

/-- `parseRouterChildren` (parser.ts:93-140): dispatch on the current token;
`use` and `auth` are legal only on the project node, routes and routers are
appended, `include` splices a file, anything else falls through the switch. -/
def parseRouterChildren : Nat → (String → Option (List Tok)) → Bool → RouterNode → PM RouterNode
  | 0, _, _, _ => pmThrow .fuelOut
  | fuel + 1, fs, isProject, routerNode => do
      let s ← getS
      match (currentTok s).kind with
      | .UseKeyword =>
          if isProject then do
            let m ← parseMiddleware fuel
            modifyS fun s => { s with middlewares := s.middlewares ++ [m] }
            pure routerNode
          else do
            reportError ⟨workingFile s, ⟨(currentTok s).line.getD (-1), 1⟩, (currentTok s).column⟩
              "use can only be used in the project node."
            pure routerNode
      | .GetMethodKeyword => do
          let r ← parseRoute fuel
          pure (routerNode.pushRoute r)
      | .PostMethodKeyword => do
          let r ← parseRoute fuel
          pure (routerNode.pushRoute r)
      | .PutMethodKeyword => do
          let r ← parseRoute fuel
          pure (routerNode.pushRoute r)
      | .DeleteMethodKeyword => do
          let r ← parseRoute fuel
          pure (routerNode.pushRoute r)
      | .PatchMethodKeyword => do
          let r ← parseRoute fuel
          pure (routerNode.pushRoute r)
      | .HeadMethodKeyword => do
          let r ← parseRoute fuel
          pure (routerNode.pushRoute r)
      | .OptionsMethodKeyword => do
          let r ← parseRoute fuel
          pure (routerNode.pushRoute r)
      | .RouterKeyword => do
          let r ← parseRouter fuel fs
          pure (routerNode.pushRouter r)
      | .IncludeKeyword =>
          includeStmt fuel fs isProject routerNode
      | .AuthKeyword =>
          if isProject then do
            let ab? ← parseAuthBlock fuel
            match ab? with
            | none => pure routerNode
            | some authBlock => do
                let s2 ← getS
                if (lookupAB s2.authBlocks authBlock.id).isSome then do
                  reportError ⟨workingFile s2, ⟨(currentTok s).line.getD (-1), 1⟩,
                      (currentTok s).column⟩
                    ("auth block with id \x27" ++ authBlock.id ++ "\x27 already exists.")
                  pure routerNode
                else do
                  modifyS fun s =>
                    { s with authBlocks := s.authBlocks ++ [(authBlock.id, authBlock)] }
                  pure routerNode
          else do
            reportError ⟨workingFile s, ⟨(currentTok s).line.getD (-1), 1⟩, (currentTok s).column⟩
              "auth can only be used in the project node."
            pure routerNode
      | _ => pure routerNode

/-- `parseRouter` (parser.ts:483-535). -/
def parseRouter : Nat → (String → Option (List Tok)) → PM RouterNode
  | 0, _ => pmThrow .fuelOut
  | fuel + 1, fs => do
      let _ ← matchToken .RouterKeyword false (some "router")
      let path ← parsePath fuel
      let (header, body, authenticate) ← parseRouterAttrLoop fuel none none none
      let _ ← matchToken .OpenBraceToken false (some "\x7b")
      let router := RouterNode.mk path header body authenticate [] []
      let router ← parseRouterChildrenLoop fuel fs router
      let _ ← matchToken .CloseBraceToken false (some "\x7d")
      pure router

/-- The child loop of `parseRouter` (parser.ts:522-530): until `}` or the end
of the file. -/
def parseRouterChildrenLoop : Nat → (String → Option (List Tok)) → RouterNode → PM RouterNode
  | 0, _, _ => pmThrow .fuelOut
  | fuel + 1, fs, router => do
      let s ← getS
      let k := (currentTok s).kind
      if k ≠ SyntaxKind.CloseBraceToken ∧ k ≠ SyntaxKind.EndOfFileToken then do
        let start := effIndex s
        let router ← parseRouterChildren fuel fs false router
        let s ← getS
        (if effIndex s = start then jumpT 1 else pure ())
        parseRouterChildrenLoop fuel fs router
      else
        pure router

/-- `include` (parser.ts:635-646): consume the directive, push the file onto
`currentFiles`, splice the file, pop.  A recovery token for the path has no
string payload, which crashes `pathApi.join` in the source. -/
def includeStmt : Nat → (String → Option (List Tok)) → Bool → RouterNode → PM RouterNode
  | 0, _, _, _ => pmThrow .fuelOut
  | fuel + 1, fs, isProject, parent => do
      let _ ← matchToken .IncludeKeyword false (some "include")
      let pTok ← matchToken .StringLiteral
      match pTok.sval with
      | none => pmThrow (.jsError "TypeError: path is undefined")
      | some path => do
          let _ ← matchToken .SemicolonToken true
          modifyS fun s => { s with files := s.files ++ [path] }
          let parent ← includeInner fuel fs isProject parent path
          modifyS fun s => { s with files := s.files.dropLast }
          pure parent

/-- `_include` (parser.ts:648-675): read and lex the file (modelled by `fs`,
which maps the include path to the lexed token list; `Deno.readFileSync`
throws when the file is missing), then run a fresh `Parser` over those tokens
against the same parent node.  The sub-parser shares the diagnostic sink and
— through the parent node — the project collections, starts with empty
`currentFiles`, and has no `_currentProjectNode`.  No visited-set or cycle
check exists: a self-including file recurses forever. -/
def includeInner : Nat → (String → Option (List Tok)) → Bool → RouterNode → String → PM RouterNode
  | 0, _, _, _, _ => pmThrow .fuelOut
  | fuel + 1, fs, isProject, parent, path => fun s =>
      match fs path with
      | none => .error (.jsError "ENOENT: file not found")
      | some tokens =>
          let sub : PState :=
            { toks := tokens, pos := 0, diags := s.diags, files := [],
              authBlocks := s.authBlocks, middlewares := s.middlewares, hasProject := false }
          match parseParentNode fuel fs isProject parent sub with
          | .error e => .error e
          | .ok (parent', sub') =>
              .ok (parent', { s with diags := sub'.diags, authBlocks := sub'.authBlocks,
                                     middlewares := sub'.middlewares })

end

/-- `parseTarget` (parser.ts:83-91). -/
def parseTarget : PM String := do
  let _ ← matchToken .TargetKeyword false (some "target")
  let t ← matchToken .Identifier
  let _ ← matchToken .SemicolonToken true
  pure t.text

/-- `parseProject` (parser.ts:56-66): parse the target, create the fresh
project node (empty auth blocks, middlewares), make it current, fill it, drop
the current-project reference, and assemble the result. -/
def parseProject (fuel : Nat) (fs : String → Option (List Tok)) : PM ProjectNode := do
  let target ← parseTarget
  modifyS fun s => { s with authBlocks := [], middlewares := [], hasProject := true }
  let root ← parseParentNode fuel fs true (RouterNode.mk ⟨"", none, []⟩ none none none [] [])
  let s ← getS
  modifyS fun s => { s with hasProject := false }
  pure { target := target, authBlocks := s.authBlocks, middlewares := s.middlewares,
         root := root }

/-- `ParsingPolicy` (parser.ts:758-767). -/
inductive ParsingPolicy where
  | CancelParsingOnFirstError
  | IgnoreErrors
deriving DecidableEq

/-- `Parser.parse` (parser.ts:44-54): under `CancelParsingOnFirstError` the
project is dropped when parsing raised the error count. -/
def parse (fuel : Nat) (policy : ParsingPolicy) (fs : String → Option (List Tok)) :
    PM (Option ProjectNode) := do
  let s ← getS
  let currentErrorCount := errorCount s.diags
  let project ← parseProject fuel fs
  let s ← getS
  if policy = ParsingPolicy.CancelParsingOnFirstError ∧
      errorCount s.diags > currentErrorCount then
    pure none
  else
    pure (some project)

/-- A fresh parser state over a token list (`new Parser(new DiagnosticSink(),
policy, tokens)` plus `setIndexFile`). -/
def initPState (tokens : List Tok) (indexFile : Option String := none) : PState :=
  { toks := tokens, pos := 0, diags := [],
    files := match indexFile with | some f => [f] | none => [],
    authBlocks := [], middlewares := [], hasProject := false }

/-- A file system with no files (no `include` is reachable). -/
def noFs : String → Option (List Tok) := fun _ => none

/-! ### Concrete token sequences used as test inputs -/
/-- A token with a fixed position (positions do not influence parsing). -/
def tk (k : SyntaxKind) (text : String) : Tok :=
  { kind := k, text := text, column := ⟨0, 1⟩, line := some 1 }

/-- A string-literal token carrying its decoded value. -/
def tkS (text val : String) : Tok :=
  { kind := .StringLiteral, text := text, column := ⟨0, 1⟩, line := some 1, sval := some val }

def eofTok : Tok := { kind := .EndOfFileToken, text := "\x00", column := ⟨0, 1⟩, line := some 1 }

/-- `target T; auth API-Key (source: header, field: "x");` — a well-formed
project with one alias-less auth block. -/
def c6toks : List Tok :=
  [tk .TargetKeyword "target", tk .Identifier "T", tk .SemicolonToken ";",
   tk .AuthKeyword "auth", tk .Identifier "API-Key", tk .OpenParenToken "(",
   tk .Identifier "source", tk .ColonToken ":", tk .HeaderKeyword "header", tk .CommaToken ",",
   tk .Identifier "field", tk .ColonToken ":", tkS "\"x\"" "x", tk .CloseParenToken ")",
   tk .SemicolonToken ";", eofTok]

/-- `auth API-Key as <aliasName> (source: header, field: "x",
defaultAccess: authenticated);` -/
def authBlockToks (aliasName : String) : List Tok :=
  [tk .AuthKeyword "auth", tk .Identifier "API-Key", tk .AsKeyword "as", tk .Identifier aliasName,
   tk .OpenParenToken "(",
   tk .Identifier "source", tk .ColonToken ":", tk .HeaderKeyword "header", tk .CommaToken ",",
   tk .Identifier "field", tk .ColonToken ":", tkS "\"x\"" "x", tk .CommaToken ",",
   tk .Identifier "defaultAccess", tk .ColonToken ":", tk .AuthenticatedKeyword "authenticated",
   tk .CloseParenToken ")", tk .SemicolonToken ";"]

/-- A project declaring two auth blocks that both carry
`defaultAccess: authenticated` (the flattened concatenation of the prefix
`target T;`, `authBlockToks "a"`, `authBlockToks "b"` and the end-of-file
token). -/
def c1toks : List Tok :=
  [tk .TargetKeyword "target", tk .Identifier "T", tk .SemicolonToken ";",
   tk .AuthKeyword "auth", tk .Identifier "API-Key", tk .AsKeyword "as", tk .Identifier "a",
   tk .OpenParenToken "(",
   tk .Identifier "source", tk .ColonToken ":", tk .HeaderKeyword "header", tk .CommaToken ",",
   tk .Identifier "field", tk .ColonToken ":", tkS "\"x\"" "x", tk .CommaToken ",",
   tk .Identifier "defaultAccess", tk .ColonToken ":", tk .AuthenticatedKeyword "authenticated",
   tk .CloseParenToken ")", tk .SemicolonToken ";",
   tk .AuthKeyword "auth", tk .Identifier "API-Key", tk .AsKeyword "as", tk .Identifier "b",
   tk .OpenParenToken "(",
   tk .Identifier "source", tk .ColonToken ":", tk .HeaderKeyword "header", tk .CommaToken ",",
   tk .Identifier "field", tk .ColonToken ":", tkS "\"x\"" "x", tk .CommaToken ",",
   tk .Identifier "defaultAccess", tk .ColonToken ":", tk .AuthenticatedKeyword "authenticated",
   tk .CloseParenToken ")", tk .SemicolonToken ";",
   eofTok]

/-- `target T; use m(` with the end of file in place of the option list's
closing parenthesis (parser.ts:226 never checks for end of input). -/
def c7toks : List Tok :=
  [tk .TargetKeyword "target", tk .Identifier "T", tk .SemicolonToken ";",
   tk .UseKeyword "use", tk .Identifier "m", tk .OpenParenToken "(", eofTok]

/-- `target T; include "main.ymr";` — the contents of `main.ymr` itself, so
the file includes itself. -/
def c8toks : List Tok :=
  [tk .TargetKeyword "target", tk .Identifier "T", tk .SemicolonToken ";",
   tk .IncludeKeyword "include", tkS "\"main.ymr\"" "main.ymr", tk .SemicolonToken ";", eofTok]

/-- The one-file file system mapping `main.ymr` to `c8toks`. -/
def cycleFs : String → Option (List Tok) := fun p =>
  if p = "main.ymr" then some c8toks else none

/-- The auth block the parser builds from `c6toks`: alias `""` because the
parser always passes the alias variable, defaulted to `""` (parser.ts:152). -/
def blkLit : AuthBlockNode := AuthBlockNode.make "API-Key" "header" "x" (some "") (some "public")

/-- The empty root router `parseProject` starts from (parser.ts:60). -/
def rootR : RouterNode := RouterNode.mk ⟨"", none, []⟩ none none none [] []

/-- The project `parse` returns on `c6toks`. -/
def c6proj : ProjectNode :=
  { target := "T", authBlocks := [("", blkLit)], middlewares := [], root := rootR }

/-- The parser state after `parse` on `c6toks`. -/
def c6final : PState :=
  { toks := c6toks, pos := 15, diags := [], files := [], authBlocks := [("", blkLit)],
    middlewares := [], hasProject := false }

/-! ### The lexer (src/unnamed/part_002 `Lexer`/`LexerContext`,
src/unnamed/part_007 rule set).  Rule-internal loops are fuel-indexed like
the parser; pure cursor operations terminate structurally. -/
/-- `LexerContext` (part_002:83-247): source text, absolute position, and the
column counter `_sourcePosition` (reset by `newLine`). -/
structure LState where
  text : List Char
  pos : Nat
  srcPos : Nat

/-- `this._text[index]`; the `'\0'` sentinel stands for end of input
(part_002:173-174). -/
def charAtD (text : List Char) (i : Nat) : Char := text.getD i '\x00'

def isWsC (c : Char) : Bool := c == ' ' || c == '\t' || c == '\r' || c == '\n'

/-- The whitespace-skipping scan shared by `peekWithIndex` (part_002:182-189)
and `jump` (part_002:217-222). -/
def wsSkipIdx (text : List Char) (index : Nat) : Char × Nat :=
  if h : index ≥ text.length then ('\x00', index)
  else
    let c := charAtD text index
    if isWsC c then wsSkipIdx text (index + 1) else (c, index)
termination_by text.length - index
decreasing_by simp at h; omega

/-- `peekWithIndex` (part_002:171-192). -/
def peekWithIndex (s : LState) (offset : Nat) (skipWs : Bool) : Char × Nat :=
  let index := s.pos + offset
  if index ≥ s.text.length then ('\x00', index)
  else
    let c := charAtD s.text index
    if !skipWs then (c, index) else wsSkipIdx s.text index

/-- `peek` (part_002:160-162). -/
def peekL (s : LState) (offset : Nat := 0) (skipWs : Bool := false) : Char :=
  (peekWithIndex s offset skipWs).1

/-- `currentCharacter` (part_002:100-102). -/
def currentChar (s : LState) : Char := peekL s 0 false

/-- `jump` (part_002:209-223): advance position and column together, then
optionally skip whitespace (both counters advance in lockstep). -/
def jumpL (s : LState) (offset : Nat) (skipWs : Bool := false) : LState :=
  let pos := s.pos + offset
  let srcPos := s.srcPos + offset
  if !skipWs then { s with pos := pos, srcPos := srcPos }
  else
    let pos' := (wsSkipIdx s.text pos).2
    { s with pos := pos', srcPos := srcPos + (pos' - pos) }

/-- `read` (part_002:230-234): return the current character, then advance. -/
def readL (s : LState) (skipWs : Bool := false) : Char × LState :=
  (currentChar s, jumpL s 1 skipWs)

/-- `newLine` (part_002:149-151): reset the column counter. -/
def newLineL (s : LState) : LState := { s with srcPos := 0 }

/-- A syntax rule (part_007 `ISyntaxRule`): a match predicate and a transform
producing a token (the token's line number is filled in by `tokenize`). -/
structure LexRule where
  isMatch : LState → Bool
  transform : LState → Except PErr (Tok × LState)

def isDigitC (c : Char) : Bool := '0' ≤ c && c ≤ '9'

/-- `NumberSyntaxRule.checkForDot` (part_007:257-260): note that the absolute
index returned by `peekWithIndex` is reused as a peek *offset*. -/
def checkForDot (s : LState) : Bool :=
  let (c, index) := peekWithIndex s 1 true
  c == '.' && isDigitC (peekL s (index + 1) false)

/-- `NumberSyntaxRule.isMatch` (part_007:194-201). -/
def numberIsMatch (s : LState) : Bool :=
  isDigitC (currentChar s) ||
  (currentChar s == '-' && isDigitC (peekL s 1 true)) ||
  (currentChar s == '+' && isDigitC (peekL s 1 true)) ||
  (currentChar s == '.' && isDigitC (peekL s 1 true)) ||
  (currentChar s == '-' && checkForDot s) ||
  (currentChar s == '+' && checkForDot s)

def digitsLoop : Nat → LState → String → Except PErr (String × LState)
  | 0, _, _ => .error .fuelOut
  | fuel + 1, s, acc =>
      if isDigitC (currentChar s) then
        let (c, s) := readL s
        digitsLoop fuel s (acc.push c)
      else
        .ok (acc, s)

/-- `NumberSyntaxRule.readNumber` (part_007:216-255): a leading `-` is kept
(and whitespace after it skipped), a leading `+` is dropped; digits, an
optional dot, more digits, an optional exponent. -/
def readNumber (fuel : Nat) (s : LState) : Except PErr (String × LState) := do
  let (number, s) ←
    if currentChar s == '-' then
      let (c, s) := readL s true
      pure (String.mk [c], s)
    else if currentChar s == '+' then
      let (_, s) := readL s true
      pure ("", s)
    else
      pure ("", s)
  let (number, s) ← digitsLoop fuel s number
  let (number, s) ←
    if currentChar s == '.' then
      let (c, s) := readL s
      pure (number.push c, s)
    else
      pure (number, s)
  let (number, s) ← digitsLoop fuel s number
  if currentChar s != 'e' && currentChar s != 'E' then
    pure (number, s)
  else do
    let (c, s) := readL s
    let number := number.push c
    let (number, s) ←
      if currentChar s == '-' || currentChar s == '+' then
        let (c, s) := readL s
        pure (number.push c, s)
      else
        pure (number, s)
    digitsLoop fuel s number

/-- Best-effort integer reading of the numeric text; the source stores
`parseFloat(number)` and no claim inspects the value. -/
def jsNumValInt (str : String) : Int :=
  let core := str.takeWhile fun c => c.isDigit || c == '-'
  core.toInt?.getD 0

def numberRule (fuel : Nat) : LexRule where
  isMatch := numberIsMatch
  transform := fun s => do
    let start := s.srcPos
    let (number, s') ← readNumber fuel s
    .ok ({ kind := .NumericLiteral, column := ⟨Int.ofNat start, Int.ofNat number.length⟩,
           text := number, nval := some (jsNumValInt number) }, s')

/-- The scan loop of `StringSyntaxRule.readString` (part_007:299-319);
`none` is the unterminated case. -/
def readStringLoop : Nat → LState → Char → String → Bool → Except PErr (Option String × LState)
  | 0, _, _, _, _ => .error .fuelOut
  | fuel + 1, s, quote, acc, wasEscaped =>
      let c := currentChar s
      if c == quote && !wasEscaped then .ok (some acc, s)
      else if c == '\x00' then .ok (none, s)
      else if c == '\\' && !wasEscaped then
        readStringLoop fuel (readL s).2 quote acc true
      else
        readStringLoop fuel (readL s).2 quote (acc.push c) false

/-- `StringSyntaxRule` (part_007:270-329); an unterminated literal throws
`Error("Unterminated string literal")`. -/
def stringRule (fuel : Nat) : LexRule where
  isMatch := fun s => currentChar s == '"' || currentChar s == '\x27'
  transform := fun s => do
    let start := s.srcPos
    let (quote, s) := readL s
    let (text?, s) ← readStringLoop fuel s quote "" false
    let (_, s) := readL s
    match text? with
    | none => .error (.jsError "Unterminated string literal")
    | some text =>
        .ok ({ kind := .StringLiteral,
               column := ⟨Int.ofNat start, Int.ofNat (text.length + 2)⟩,
               text := String.mk [quote] ++ text ++ String.mk [quote],
               sval := some text }, s)

def commentLoop : Nat → LState → String → Except PErr (String × LState)
  | 0, _, _ => .error .fuelOut
  | fuel + 1, s, acc =>
      if currentChar s != '\x00' && currentChar s != '\n' then
        let (c, s) := readL s
        commentLoop fuel s (acc.push c)
      else
        .ok (acc, s)

/-- `CommentSyntaxRule` (part_007:361-385): the span starts at the `//` but
its length is the raw comment body's length, and the token text is the
*trimmed* body. -/
def commentRule (fuel : Nat) : LexRule where
  isMatch := fun s => currentChar s == '/' && peekL s 1 == '/'
  transform := fun s => do
    let start := s.srcPos
    let (_, s) := readL s
    let (_, s) := readL s
    let (comment, s) ← commentLoop fuel s ""
    .ok ({ kind := .Comment, column := ⟨Int.ofNat start, Int.ofNat comment.length⟩,
           text := strTrim comment }, s)

/-- A character of `/^[a-zA-Z0-9_-]+$/` (part_007:75). -/
def isWordDashC (c : Char) : Bool := c.isAlpha || c.isDigit || c == '_' || c == '-'

def patCharsMatch (s : LState) : List Char → Nat → Bool
  | [], _ => true
  | c :: t, i => peekL s i == c && patCharsMatch s t (i + 1)

/-- `PatternSyntaxRule.isMatch` (part_007:66-80): the pattern's characters
followed by whitespace, end of input, or a non-identifier character. -/
def patternIsMatch (pat : String) (s : LState) : Bool :=
  patCharsMatch s pat.toList 0 &&
  (let lookahead := peekL s pat.length
   isWsC lookahead || lookahead == '\x00' || !isWordDashC lookahead)

/-- `PatternSyntaxRule` (part_007:54-92). -/
def patternRule (pat : String) (kind : SyntaxKind) : LexRule where
  isMatch := patternIsMatch pat
  transform := fun s =>
    .ok ({ kind := kind, column := ⟨Int.ofNat s.srcPos, Int.ofNat pat.length⟩, text := pat },
      jumpL s pat.length)

/-- `CharSyntaxRule` (part_007:97-121). -/
def charRule (c : Char) (kind : SyntaxKind) : LexRule where
  isMatch := fun s => currentChar s == c
  transform := fun s =>
    .ok ({ kind := kind, column := ⟨Int.ofNat s.srcPos, 1⟩, text := String.mk [c] },
      jumpL s 1)

/-- `BooleanSyntaxRule` (part_007:165-187). -/
def booleanRule : LexRule where
  isMatch := fun s => patternIsMatch "true" s || patternIsMatch "false" s
  transform := fun s => do
    let pat := if patternIsMatch "true" s then "true" else "false"
    let (tok, s') ← (patternRule pat .BooleanLiteral).transform s
    .ok ({ tok with bval := some (tok.text == "true") }, s')

def idLoop : Nat → LState → String → Except PErr (String × LState)
  | 0, _, _ => .error .fuelOut
  | fuel + 1, s, acc =>
      let c := currentChar s
      if c.isAlpha || isDigitC c || c == '_' || c == '-' then
        let (c, s) := readL s
        idLoop fuel s (acc.push c)
      else
        .ok (acc, s)

/-- `IdentifierSyntaxRule` (part_007:126-160); this rule set admits `-` in
identifiers. -/
def identifierRule (fuel : Nat) : LexRule where
  isMatch := fun s =>
    let c := currentChar s
    c.isAlpha || c == '_' || c == '-'
  transform := fun s => do
    let start := s.srcPos
    let (text, s') ← idLoop fuel s ""
    .ok ({ kind := .Identifier, column := ⟨Int.ofNat start, Int.ofNat text.length⟩,
           text := text }, s')

/-- A `\w` run (length of the longest `[A-Za-z0-9_]+` match). -/
def wordRun (text : List Char) (pos : Nat) : Nat :=
  if h : pos < text.length then
    let c := charAtD text pos
    if c.isAlpha || c.isDigit || c == '_' then wordRun text (pos + 1) + 1 else 0
  else 0
termination_by text.length - pos

/-- The run of `(?:[^\s?;\\]|\\.)+` elements. -/
def escRun (text : List Char) (pos : Nat) : Nat :=
  if h : pos < text.length then
    let c := charAtD text pos
    if c == '\\' then
      if h2 : pos + 1 < text.length then 2 + escRun text (pos + 2) else 0
    else if isWsC c || c == '?' || c == ';' then 0
    else 1 + escRun text (pos + 1)
  else 0
termination_by text.length - pos

/-- The run of `(?:[^>?\\]|\\.)+` elements inside `<...>`. -/
def angleRun (text : List Char) (pos : Nat) : Nat :=
  if h : pos < text.length then
    let c := charAtD text pos
    if c == '\\' then
      if h2 : pos + 1 < text.length then 2 + angleRun text (pos + 2) else 0
    else if c == '>' || c == '?' then 0
    else 1 + angleRun text (pos + 1)
  else 0
termination_by text.length - pos

/-- One alternative of the path regex after the `/`
(`:\w+`, `{\w+(?:<...>)?}`, or an escaped-character run), returning the
number of characters it consumes. -/
def pathAlt (text : List Char) (pos : Nat) : Option Nat :=
  let c := charAtD text pos
  if c == ':' then
    let w := wordRun text (pos + 1)
    if w > 0 then some (1 + w) else none
  else if c == '\x7b' then
    let w := wordRun text (pos + 1)
    if w > 0 then
      let p2 := pos + 1 + w
      if charAtD text p2 == '<' then
        let a := angleRun text (p2 + 1)
        if a > 0 && charAtD text (p2 + 1 + a) == '\x7d' then
          some (p2 + 1 + a + 1 - pos)
        else
          let r := escRun text pos
          if r > 0 then some r else none
      else if charAtD text p2 == '\x7d' then
        some (p2 + 1 - pos)
      else
        let r := escRun text pos
        if r > 0 then some r else none
    else
      let r := escRun text pos
      if r > 0 then some r else none
  else
    let r := escRun text pos
    if r > 0 then some r else none

/-- The greedy overall match length of the path regex
`/^(?:\/(?::\w+|{[\w]+(?:<...>)?}|(?:[^\s?;\\]|\\.)+))*/` (part_007:392):
groups of `/` plus one alternative, repeated as long as possible. -/
def pathMatchLen (text : List Char) (pos : Nat) : Nat :=
  if _h : pos < text.length then
    if charAtD text pos == '/' then
      match pathAlt text (pos + 1) with
      | some k => 1 + k + pathMatchLen text (pos + 1 + k)
      | none => 0
    else 0
  else 0
termination_by text.length - pos
decreasing_by omega

/-- The path normalizer (part_007:392): unescape `\?`, `\;` and `"\ "`. -/
def pathNormalize : List Char → List Char
  | [] => []
  | '\\' :: '?' :: t => '?' :: pathNormalize t
  | '\\' :: ';' :: t => ';' :: pathNormalize t
  | '\\' :: ' ' :: t => ' ' :: pathNormalize t
  | c :: t => c :: pathNormalize t

/-- `RegExSyntaxRule` for path literals (part_007:334-356, 392).  The
`peekRegEx`/`readRegEx` cursor methods the rule calls are absent from
part_002's `LexerContext`; they are modelled by their evident regex
semantics: the span length is the raw match length, the token text is the
normalized match, and the cursor advances over the raw match. -/
def pathRule : LexRule where
  isMatch := fun s => pathMatchLen s.text s.pos > 0
  transform := fun s =>
    let len := pathMatchLen s.text s.pos
    let raw := (s.text.drop s.pos).take len
    .ok ({ kind := .PathLiteral, column := ⟨Int.ofNat s.srcPos, Int.ofNat len⟩,
           text := String.mk (pathNormalize raw) }, jumpL s len)

/-- `RuleSet` (part_007:387-458), in priority order. -/
def ruleSet (fuel : Nat) : List LexRule :=
  [numberRule fuel,
   stringRule fuel,
   booleanRule,
   commentRule fuel,
   pathRule,
   patternRule "target" .TargetKeyword,
   patternRule "use" .UseKeyword,
   patternRule "router" .RouterKeyword,
   patternRule "include" .IncludeKeyword,
   patternRule "with" .WithKeyword,
   patternRule "body" .BodyKeyword,
   patternRule "header" .HeaderKeyword,
   patternRule "query" .QueryKeyword,
   patternRule "GET" .GetMethodKeyword,
   patternRule "POST" .PostMethodKeyword,
   patternRule "PUT" .PutMethodKeyword,
   patternRule "DELETE" .DeleteMethodKeyword,
   patternRule "PATCH" .PatchMethodKeyword,
   patternRule "HEAD" .HeadMethodKeyword,
   patternRule "OPTIONS" .OptionsMethodKeyword,
   patternRule "as" .AsKeyword,
   patternRule "any" .AnyTypeKeyword,
   patternRule "string" .StringTypeKeyword,
   patternRule "float" .FloatTypeKeyword,
   patternRule "int" .IntegerTypeKeyword,
   patternRule "boolean" .BooleanTypeKeyword,
   patternRule "datetime" .DateTimeTypeKeyword,
   patternRule "date" .DateTypeKeyword,
   patternRule "time" .TimeTypeKeyword,
   patternRule "public" .PublicKeyword,
   patternRule "authenticated" .AuthenticatedKeyword,
   patternRule "authenticate" .AuthenticateKeyword,
   patternRule "auth" .AuthKeyword,
   patternRule "response" .ResponseKeyword,
   patternRule "responses" .ResponsesKeyword,
   patternRule "render" .RenderKeyword,
   patternRule "table" .TableKeyword,
   patternRule "list" .ListKeyword,
   patternRule "detail" .DetailKeyword,
   patternRule "form" .FormKeyword,
   charRule '(' .OpenParenToken,
   charRule ')' .CloseParenToken,
   charRule '\x7b' .OpenBraceToken,
   charRule '\x7d' .CloseBraceToken,
   charRule '[' .OpenBracketToken,
   charRule ']' .CloseBracketToken,
   charRule '.' .DotToken,
   charRule ',' .CommaToken,
   charRule ':' .ColonToken,
   charRule ';' .SemicolonToken,
   charRule '?' .QuestionToken,
   charRule '=' .EqualsToken,
   charRule '!' .ExclamationToken,
   charRule '<' .LessThanToken,
   charRule '>' .GreaterThanToken,
   charRule '+' .PlusToken,
   charRule '-' .MinusToken,
   charRule '*' .AsteriskToken,
   charRule '/' .SlashToken,
   charRule '%' .PercentToken,
   charRule '&' .AmpersandToken,
   charRule '|' .BarToken,
   charRule '^' .CaretToken,
   charRule '~' .TildeToken,
   charRule '@' .AtToken,
   charRule '#' .HashToken,
   identifierRule fuel]

/-- The first matching rule (part_002:37-50). -/
def firstMatch (s : LState) : List LexRule → Option LexRule
  | [] => none
  | r :: t => if r.isMatch s then some r else firstMatch s t

/-- The main loop of `Lexer.tokenize` (part_002:21-67). -/
def tokenizeLoop : Nat → LState → Nat → List Tok → Except PErr (List Tok × LState × Nat)
  | 0, _, _, _ => .error .fuelOut
  | fuel + 1, s, line, acc =>
      let c := currentChar s
      if c == '\x00' then .ok (acc, s, line)
      else if c == '\r' || c == '\t' then
        tokenizeLoop fuel (jumpL s 1) line acc
      else if c == '\n' then
        tokenizeLoop fuel (jumpL (newLineL s) 1) (line + 1) acc
      else
        match firstMatch s (ruleSet fuel) with
        | some rule => do
            let (tok, s') ← rule.transform s
            tokenizeLoop fuel s' line (acc ++ [{ tok with line := some (Int.ofNat line) }])
        | none =>
            if c == ' ' then
              tokenizeLoop fuel (jumpL s 1) line acc
            else
              let bad : Tok :=
                { kind := .BadToken, column := ⟨Int.ofNat s.srcPos, 1⟩,
                  text := String.mk [c], line := some (Int.ofNat line) }
              tokenizeLoop fuel (jumpL s 1) line (acc ++ [bad])

/-- `Lexer.tokenize` (part_002:18-77): run the loop, then append the
end-of-file token. -/
def tokenize (fuel : Nat) (source : String) : Except PErr (List Tok) := do
  let (toks, s, line) ← tokenizeLoop fuel ⟨source.toList, 0, 0⟩ 1 []
  .ok (toks ++ [{ kind := .EndOfFileToken, column := ⟨Int.ofNat s.srcPos, 1⟩,
                  text := "\x00", line := some (Int.ofNat line) }])

/-- The substring of the source at a token's column span — the right-hand
side of the spec's text/span invariant. -/
def sourceSlice (source : String) (sp : SourceSpan) : String :=
  String.mk ((source.toList.drop sp.start.toNat).take sp.length.toNat)

/-! ### Invariant: every auth block the parser stores has empty options -/
/-- Every auth block recorded in the parser state has an empty options
mapping. -/
def Inv (s : PState) : Prop := ∀ kv ∈ s.authBlocks, (kv : String × AuthBlockNode).2.options = []

/-- A parser computation preserves `Inv`. -/
def PresInv {α : Type} (m : PM α) : Prop :=
  ∀ s a s', Inv s → m s = .ok (a, s') → Inv s'

/-- A parser computation whose successful result satisfies `P`. -/
def RetP {α : Type} (P : α → Prop) (m : PM α) : Prop :=
  ∀ s a s', m s = .ok (a, s') → P a

/-- The synthetic recovery token `matchToken` builds at the end of the file
(parser.ts:745-752). -/
def synthTok (k : SyntaxKind) : Tok :=
  { kind := k, text := "", column := eofTok.column, line := eofTok.line }

/-- The diagnostic `matchToken` reports at the end of the file. -/
def eofDiag (k : SyntaxKind) (hint : Option String) (s : PState) : Diag :=
  { severity := .error,
    position := ⟨workingFile s, ⟨eofTok.line.getD (-1), 1⟩, eofTok.column⟩,
    message := "Expected token of kind " ++ transformSyntaxKind k ++ " but got " ++
      transformSyntaxKind eofTok.kind ++ " instead.",
    hint := hint.getD "" }

/-- The diagnostic `parseMiddlewareOptionValue` reports at the end of the
file (parser.ts:288-293). -/
def valueEofDiag (s : PState) : Diag :=
  { severity := .error,
    position := ⟨workingFile s, ⟨eofTok.line.getD (-1), 0⟩, eofTok.column⟩,
    message := "Expected token of kind " ++
      String.intercalate " or " ([SyntaxKind.StringLiteral, SyntaxKind.NumericLiteral,
        SyntaxKind.BooleanLiteral, SyntaxKind.OpenBraceToken].map transformSyntaxKind) ++
      " but got " ++ transformSyntaxKind eofTok.kind ++ " instead.",
    hint := "" }

/-- State of the `c7toks` run at cursor position `p`, after the project reset
(parser.ts:59). -/
def c7st (p : Nat) : PState :=
  { toks := c7toks, pos := p, diags := [], files := [], authBlocks := [],
    middlewares := [], hasProject := true }

/-! ### C1: two default auth blocks parse without a diagnostic; the Express
emitter aborts later -/
/-- The first auth block of `c1toks` as parsed (alias `a`,
`defaultAccess: authenticated`). -/
def blkA : AuthBlockNode := AuthBlockNode.make "API-Key" "header" "x" (some "a") (some "authenticated")

/-- The second auth block of `c1toks` (alias `b`). -/
def blkB : AuthBlockNode := AuthBlockNode.make "API-Key" "header" "x" (some "b") (some "authenticated")

/-- The option mapping of either `c1toks` auth block. -/
def c1opts : MiddlewareOptions :=
  [("source", .str "header"), ("field", .str "x"), ("defaultAccess", .str "authenticated")]

/-- The project `parse` returns on `c1toks`. -/
def c1proj : ProjectNode :=
  { target := "T", authBlocks := [("a", blkA), ("b", blkB)], middlewares := [], root := rootR }

/-- The parser state after `parse` on `c1toks`: no diagnostics. -/
def c1final : PState :=
  { toks := c1toks, pos := 39, diags := [], files := [], authBlocks := [("a", blkA), ("b", blkB)],
    middlewares := [], hasProject := false }

/-! ### C2: the emitted handler authenticates before it validates -/
/-- An emitter state with one registered auth handler `K`. -/
def c2st : EmitState := { defaultAuthenticate := none, authHandlers := [("K", "K")] }

/-- A route with an `authenticate K` clause and a one-field header schema. -/
def c2route : RouteNode :=
  { method := "GET", path := ⟨"/x", some "x", []⟩,
    header := some [("h", OptionValue.str "string")], body := none,
    authenticate := some ⟨"K", none⟩ }

/-! ## Theorems -/

theorem optOr_assoc {α : Type} (a b c : Option α) :
    optOr (optOr a b) c = optOr a (optOr b c) := by
  cases a <;> rfl

theorem jsGet_jsAssign (o : MiddlewareOptions) (k k' : String) (v : OptionValue) :
    jsGet (jsAssign o k v) k' = if k' = k then some v else jsGet o k' := by
  induction o with
  | nil =>
    by_cases h : k' = k
    · subst h; simp [jsAssign, jsGet]
    · have h2 : ¬ k = k' := fun hh => h hh.symm
      simp [jsAssign, jsGet, h, h2]
  | cons hd t ih =>
    obtain ⟨k₁, v₁⟩ := hd
    by_cases h1 : k₁ = k
    · subst h1
      by_cases h : k' = k₁
      · subst h; simp [jsAssign, jsGet]
      · have h2 : ¬ k₁ = k' := fun hh => h hh.symm
        simp [jsAssign, jsGet, h, h2]
    · by_cases h : k' = k
      · subst h
        have h2 : ¬ k₁ = k' := h1
        simp [jsAssign, jsGet, h1, h2, ih]
      · by_cases h2 : k₁ = k'
        · subst h2
          simp [jsAssign, jsGet, h1, h, ih]
        · simp [jsAssign, jsGet, h1, h, h2, ih]

theorem jsGet_foldl_jsAssign (l : MiddlewareOptions) (o : MiddlewareOptions) (k : String) :
    jsGet (l.foldl (fun o kv => jsAssign o kv.1 kv.2) o) k
      = optOr (lastAssoc l k) (jsGet o k) := by
  induction l generalizing o with
  | nil => simp [lastAssoc]
  | cons hd t ih =>
    obtain ⟨k₁, v₁⟩ := hd
    have key : (if k = k₁ then some v₁ else jsGet o k)
        = optOr (if k₁ = k then some v₁ else none) (jsGet o k) := by
      by_cases h : k₁ = k
      · subst h; simp
      · have h2 : ¬ k = k₁ := fun hh => h hh.symm
        simp [h, h2]
    simp only [List.foldl_cons, lastAssoc, ih, jsGet_jsAssign, optOr_assoc, key]

theorem lastAssoc_append (a b : MiddlewareOptions) (k : String) :
    lastAssoc (a ++ b) k = optOr (lastAssoc b k) (lastAssoc a k) := by
  induction a with
  | nil => simp [lastAssoc]
  | cons hd t ih =>
    obtain ⟨k₁, v₁⟩ := hd
    simp only [List.cons_append, List.append_eq, lastAssoc, ih, optOr_assoc]

theorem jsGet_objSpread (a b : MiddlewareOptions) (k : String) :
    jsGet (objSpread a b) k = optOr (lastAssoc b k) (lastAssoc a k) := by
  unfold objSpread
  rw [jsGet_foldl_jsAssign, lastAssoc_append]
  simp [jsGet]

/-- On duplicate-free associations (every JavaScript object), the last and the
first binding coincide. -/
theorem lastAssoc_eq_jsGet (l : MiddlewareOptions) (h : (optKeys l).Nodup) (k : String) :
    lastAssoc l k = jsGet l k := by
  induction l with
  | nil => rfl
  | cons hd t ih =>
    obtain ⟨k₁, v₁⟩ := hd
    simp only [optKeys, List.map_cons, List.nodup_cons] at h
    simp only [lastAssoc, jsGet]
    by_cases hk : k₁ = k
    · subst hk
      have hnone : lastAssoc t k₁ = none := by
        have hmem : k₁ ∉ t.map Prod.fst := h.1
        clear ih h
        induction t with
        | nil => rfl
        | cons hd₂ t₂ ih₂ =>
          obtain ⟨k₂, v₂⟩ := hd₂
          simp only [List.map_cons, List.mem_cons, not_or] at hmem
          simp only [lastAssoc, ih₂ hmem.2,
            if_neg (fun hh : k₂ = k₁ => hmem.1 hh.symm), optOr_none_left]
      simp [hnone]
    · simp only [lastAssoc, ih h.2, if_neg hk, optOr_none_right]

theorem optKeys_jsAssign_mem (o : MiddlewareOptions) (k v x) :
    x ∈ optKeys (jsAssign o k v) ↔ x ∈ optKeys o ∨ x = k := by
  induction o with
  | nil => simp [jsAssign, optKeys]
  | cons hd t ih =>
    obtain ⟨k₁, v₁⟩ := hd
    by_cases h : k₁ = k
    · subst h
      have he : jsAssign ((k₁, v₁) :: t) k₁ v = (k₁, v) :: t := by simp [jsAssign]
      rw [he]
      simp only [optKeys, List.map_cons, List.mem_cons]
      tauto
    · have he : jsAssign ((k₁, v₁) :: t) k v = (k₁, v₁) :: jsAssign t k v := by
        simp [jsAssign, h]
      rw [he]
      simp only [optKeys, List.map_cons, List.mem_cons] at *
      rw [ih]
      tauto

theorem optKeys_jsAssign_nodup (o : MiddlewareOptions) (h : (optKeys o).Nodup) (k v) :
    (optKeys (jsAssign o k v)).Nodup := by
  induction o with
  | nil => simp [jsAssign, optKeys]
  | cons hd t ih =>
    obtain ⟨k₁, v₁⟩ := hd
    simp only [optKeys, List.map_cons, List.nodup_cons] at h
    by_cases hk : k₁ = k
    · subst hk
      have he : jsAssign ((k₁, v₁) :: t) k₁ v = (k₁, v) :: t := by simp [jsAssign]
      rw [he]
      simp only [optKeys, List.map_cons, List.nodup_cons]
      exact ⟨h.1, h.2⟩
    · have he : jsAssign ((k₁, v₁) :: t) k v = (k₁, v₁) :: jsAssign t k v := by
        simp [jsAssign, hk]
      rw [he]
      simp only [optKeys, List.map_cons, List.nodup_cons]
      refine ⟨fun hmem => ?_, ih h.2⟩
      rcases (optKeys_jsAssign_mem t k v k₁).mp hmem with hm | hm
      · exact h.1 hm
      · exact hk hm

theorem optKeys_foldl_jsAssign_nodup (l : MiddlewareOptions) (o : MiddlewareOptions)
    (h : (optKeys o).Nodup) :
    (optKeys (l.foldl (fun o kv => jsAssign o kv.1 kv.2) o)).Nodup := by
  induction l generalizing o with
  | nil => exact h
  | cons hd t ih => exact ih _ (optKeys_jsAssign_nodup o h hd.1 hd.2)

theorem optKeys_objSpread_nodup (a b : MiddlewareOptions) :
    (optKeys (objSpread a b)).Nodup :=
  optKeys_foldl_jsAssign_nodup (a ++ b) [] (by simp [optKeys])

theorem optKeys_effHeaderChain_nodup (chain : List RouterNode) :
    (optKeys (effHeaderChain chain)).Nodup := by
  induction chain using List.reverseRecOn with
  | nil => simp [effHeaderChain, optKeys]
  | append_singleton t n _ =>
    simp only [effHeaderChain, List.foldl_append, List.foldl_cons, List.foldl_nil]
    exact optKeys_objSpread_nodup _ _

theorem optKeys_effBodyChain_nodup (chain : List RouterNode) :
    (optKeys (effBodyChain chain)).Nodup := by
  induction chain using List.reverseRecOn with
  | nil => simp [effBodyChain, optKeys]
  | append_singleton t n _ =>
    simp only [effBodyChain, List.foldl_append, List.foldl_cons, List.foldl_nil]
    exact optKeys_objSpread_nodup _ _

/-- Core shadowing property of one inheritance step: a key resolves to the
node's own binding when present, otherwise to the inherited value. -/
theorem jsGet_effStep (pre : MiddlewareOptions) (hpre : (optKeys pre).Nodup)
    (own : Option MiddlewareOptions) (k : String) :
    jsGet (effStep pre own) k = optOr (lastAssoc (own.getD []) k) (jsGet pre k) := by
  unfold effStep
  rw [jsGet_objSpread, lastAssoc_eq_jsGet pre hpre]

theorem canonIfObj_eq (v : OptionValue) : canonIfObj v = canonV v := by
  cases v <;> simp [canonIfObj, canonV]

theorem canonEntries_eq_map (l : List (String × OptionValue)) :
    canonEntries l = l.map fun kv => (kv.1, canonV kv.2) := by
  induction l with
  | nil => simp [canonEntries]
  | cons hd t ih =>
    obtain ⟨k, v⟩ := hd
    simp only [canonEntries, canonIfObj_eq, List.map_cons, ih]

theorem canonEntries_keys (l : List (String × OptionValue)) :
    (canonEntries l).map Prod.fst = l.map Prod.fst := by
  rw [canonEntries_eq_map]
  simp

theorem canonIdx_congr : ∀ (xs ys : List OptionValue) (i : Nat), xs.length = ys.length →
    (∀ j (h₁ : j < xs.length) (h₂ : j < ys.length),
      canonV (xs.get ⟨j, h₁⟩) = canonV (ys.get ⟨j, h₂⟩)) →
    canonIdx i xs = canonIdx i ys
  | [], [], _, _, _ => by simp [canonIdx]
  | [], _ :: _, _, hlen, _ => by simp at hlen
  | _ :: _, [], _, hlen, _ => by simp at hlen
  | x :: xs, y :: ys, i, hlen, hv => by
    simp only [canonIdx, canonIfObj_eq]
    have h0 := hv 0 (by simp) (by simp)
    simp only [List.get] at h0
    rw [h0, canonIdx_congr xs ys (i + 1) (by simpa using hlen)
      (fun j h₁ h₂ => hv (j + 1) (by simpa using h₁) (by simpa using h₂))]

theorem canonEntries_congr : ∀ (l₁ l' : List (String × OptionValue)),
    l₁.length = l'.length →
    (∀ j (h₁ : j < l₁.length) (h₂ : j < l'.length),
      (l₁.get ⟨j, h₁⟩).1 = (l'.get ⟨j, h₂⟩).1) →
    (∀ j (h₁ : j < l₁.length) (h₂ : j < l'.length),
      canonV (l₁.get ⟨j, h₁⟩).2 = canonV (l'.get ⟨j, h₂⟩).2) →
    canonEntries l₁ = canonEntries l'
  | [], [], _, _, _ => by simp [canonEntries]
  | [], _ :: _, hlen, _, _ => by simp at hlen
  | _ :: _, [], hlen, _, _ => by simp at hlen
  | (k₁, v₁) :: l₁, (k₂, v₂) :: l', hlen, hk, hv => by
    simp only [canonEntries, canonIfObj_eq]
    have h0k := hk 0 (by simp) (by simp)
    have h0v := hv 0 (by simp) (by simp)
    simp only [List.get] at h0k h0v
    rw [h0k, h0v, canonEntries_congr l₁ l' (by simpa using hlen)
      (fun j h₁ h₂ => hk (j + 1) (by simpa using h₁) (by simpa using h₂))
      (fun j h₁ h₂ => hv (j + 1) (by simpa using h₁) (by simpa using h₂))]

/-- A `≤`-sorted association whose keys are duplicate-free is strictly sorted. -/
theorem sorted_lt_of_sorted_le (l : List (String × OptionValue))
    (hs : l.Sorted (fun a b => a.1 ≤ b.1)) (hn : (l.map Prod.fst).Nodup) :
    l.Sorted (fun a b => a.1 < b.1) := by
  have hne : l.Pairwise (fun a b => a.1 ≠ b.1) := (List.pairwise_map).mp hn
  exact (hs.and hne).imp fun h => lt_of_le_of_ne h.1 h.2

/-- Sorting by key is invariant under permutations of a duplicate-free
association: both sorts are `≤`-sorted permutations of the same entries,
hence strictly sorted by key and therefore equal. -/
theorem sortEntries_eq_of_perm (l₁ l₂ : List (String × OptionValue))
    (hp : l₁.Perm l₂) (hn : (l₁.map Prod.fst).Nodup) :
    sortEntries l₁ = sortEntries l₂ := by
  have p1 := List.perm_insertionSort (fun a b : String × OptionValue => a.1 ≤ b.1) l₁
  have p2 := List.perm_insertionSort (fun a b : String × OptionValue => a.1 ≤ b.1) l₂
  have hp' : (sortEntries l₁).Perm (sortEntries l₂) := (p1.trans hp).trans p2.symm
  have hn1 : ((sortEntries l₁).map Prod.fst).Nodup := ((p1.map Prod.fst).nodup_iff).mpr hn
  have hn2 : ((sortEntries l₂).map Prod.fst).Nodup := ((hp'.map Prod.fst).nodup_iff).mp hn1
  exact List.eq_of_perm_of_sorted hp'
    (sorted_lt_of_sorted_le _ (List.sorted_insertionSort _ l₁) hn1)
    (sorted_lt_of_sorted_le _ (List.sorted_insertionSort _ l₂) hn2)

/-- Recursive key sorting identifies option values that are equal up to
recursive key order. -/
theorem canonV_eq_of_ovperm {a b : OptionValue} (h : OVPerm a b) :
    canonV a = canonV b := by
  induction h with
  | str s => rfl
  | num n => rfl
  | boolv b => rfl
  | global n p => rfl
  | arr xs ys hlen hv ih =>
    simp only [canonV]
    rw [canonIdx_congr xs ys 0 hlen ih]
  | obj l₁ l' l₂ hn hlen hk hv hp ih =>
    simp only [canonV]
    have h1 : canonEntries l₁ = canonEntries l' := canonEntries_congr l₁ l' hlen hk ih
    have h2 : (canonEntries l').Perm (canonEntries l₂) := by
      rw [canonEntries_eq_map, canonEntries_eq_map]
      exact hp.map _
    have hn1 : ((canonEntries l').map Prod.fst).Nodup := by
      rw [← h1, canonEntries_keys]
      exact hn
    rw [h1]
    exact congrArg OptionValue.obj (sortEntries_eq_of_perm _ _ h2 hn1)

/-- The middleware-option hash depends only on the recursively key-sorted
canonical form. -/
theorem hash_eq_of_ovperm (o₁ o₂ : MiddlewareOptions)
    (h : OVPerm (.obj o₁) (.obj o₂)) :
    generateMiddlewareOptionsHash o₁ = generateMiddlewareOptionsHash o₂ := by
  unfold generateMiddlewareOptionsHash
  rw [canonV_eq_of_ovperm h]

theorem name_addField (cb : ClassB) (f : FieldB) : (cb.addField f).name = cb.name := by
  obtain ⟨p, n, i, im, an, fs, ms, inn⟩ := cb
  simp only [ClassB.addField]
  split <;> rfl

theorem name_addMethod (cb : ClassB) (m : MethodB) : (cb.addMethod m).name = cb.name := by
  obtain ⟨p, n, i, im, an, fs, ms, inn⟩ := cb
  rfl

theorem name_addClass (cb c : ClassB) : (cb.addClass c).name = cb.name := by
  obtain ⟨p, n, i, im, an, fs, ms, inn⟩ := cb
  rfl

theorem name_addStrField (cb : ClassB) (k s : String) :
    (addStrField cb k s).name = cb.name := by
  unfold addStrField
  rw [name_addMethod, name_addField]

theorem name_addObjField (cb : ClassB) (k : String) (c : ClassB) :
    (addObjField cb k c).name = cb.name := by
  unfold addObjField
  rw [name_addMethod, name_addField, name_addClass]

theorem name_compileDtoEntry (cb : ClassB) (k : String) (v : OptionValue) :
    (compileDtoEntry cb k v).name = cb.name := by
  cases v <;> simp [compileDtoEntry, name_addObjField, name_addStrField]

theorem name_compileDtoEntries (l : List (String × OptionValue)) (cb : ClassB) :
    (compileDtoEntries cb l).name = cb.name := by
  induction l generalizing cb with
  | nil => simp [compileDtoEntries]
  | cons hd t ih =>
    obtain ⟨k, v⟩ := hd
    rw [compileDtoEntries, ih, name_compileDtoEntry]

/-- The DTO class produced for a body object carries exactly the name passed
in (`methodName + "Dto"` at the call site, springboot.ts:150). -/
theorem name_compileDtoObjVal (l : List (String × OptionValue)) (name : String)
    (pkg : Option String) :
    (compileDtoObjVal (.obj l) name pkg).name = name := by
  rw [compileDtoObjVal, name_compileDtoEntries]
  rfl

/-- `c1toks` is exactly that concatenation. -/
theorem c1toks_eq :
    c1toks = [tk .TargetKeyword "target", tk .Identifier "T", tk .SemicolonToken ";"] ++
      authBlockToks "a" ++ authBlockToks "b" ++ [eofTok] := rfl

theorem presInv_bind {α β : Type} {m : PM α} {f : α → PM β}
    (hm : PresInv m) (hf : ∀ a, PresInv (f a)) : PresInv (m >>= f) := by
  intro s a s' hs h
  have hb : (m >>= f) s = match m s with
    | .ok (b, s₁) => f b s₁
    | .error e => .error e := rfl
  rw [hb] at h
  cases hms : m s with
  | ok r =>
      obtain ⟨b, s₁⟩ := r
      rw [hms] at h
      exact hf b s₁ a s' (hm s b s₁ hs hms) h
  | error e => rw [hms] at h; exact absurd h (by simp)

theorem presInv_pure {α : Type} (a : α) : PresInv (pure a : PM α) := by
  intro s b s' hs h
  have : (pure a : PM α) s = .ok (a, s) := rfl
  rw [this] at h
  injection h with h'
  injection h' with h1 h2
  exact h2 ▸ hs

theorem presInv_throw {α : Type} (e : PErr) : PresInv (pmThrow e : PM α) := by
  intro s b s' _ h
  exact absurd h (by simp [pmThrow])

theorem presInv_getS : PresInv getS := by
  intro s b s' hs h
  have : getS s = .ok (s, s) := rfl
  rw [this] at h
  injection h with h'
  injection h' with h1 h2
  exact h2 ▸ hs

theorem presInv_modify_keep (f : PState → PState)
    (hf : ∀ s, (f s).authBlocks = s.authBlocks) : PresInv (modifyS f) := by
  intro s b s' hs h
  have : modifyS f s = .ok ((), f s) := rfl
  rw [this] at h
  injection h with h'
  injection h' with h1 h2
  rw [← h2]
  intro kv hkv
  exact hs kv (by rw [← hf s]; exact hkv)

theorem presInv_jump (off : Nat) : PresInv (jumpT off) :=
  presInv_modify_keep _ fun _ => rfl

theorem presInv_readToken : PresInv readTokenT := by
  intro s b s' hs h
  have : readTokenT s = .ok (currentTok s, { s with pos := s.pos + 1 }) := rfl
  rw [this] at h
  injection h with h'
  injection h' with h1 h2
  rw [← h2]
  exact hs

theorem presInv_reportError (p m h') : PresInv (reportError p m h') :=
  presInv_modify_keep _ fun _ => rfl

theorem presInv_reportUnexpected (c e h' f) : PresInv (reportUnexpectedToken c e h' f) :=
  presInv_modify_keep _ fun _ => rfl

theorem presInv_ite {α : Type} (c : Prop) [Decidable c] {m₁ m₂ : PM α}
    (h₁ : PresInv m₁) (h₂ : PresInv m₂) : PresInv (if c then m₁ else m₂) := by
  by_cases hc : c
  · simpa [hc] using h₁
  · simpa [hc] using h₂

theorem presInv_matchToken (k : SyntaxKind) (opt : Bool) (hint : Option String) :
    PresInv (matchToken k opt hint) := by
  unfold matchToken
  apply presInv_bind presInv_getS
  intro s
  apply presInv_ite _ presInv_readToken
  apply presInv_ite _ (presInv_pure _)
  exact presInv_bind (presInv_reportError _ _ _) fun _ => presInv_pure _

theorem presInv_globalVarLoop (fuel : Nat) (path : List String) :
    PresInv (globalVarLoop fuel path) := by
  induction fuel generalizing path with
  | zero => exact presInv_throw _
  | succ n ih =>
      rw [globalVarLoop]
      apply presInv_bind presInv_getS
      intro s
      refine presInv_ite _ ?_ (presInv_pure _)
      apply presInv_bind (presInv_jump 1)
      intro _
      exact presInv_bind (presInv_matchToken _ _ _) fun t => ih _

theorem presInv_parseGlobalVariable (fuel : Nat) : PresInv (parseGlobalVariable fuel) := by
  unfold parseGlobalVariable
  apply presInv_bind (presInv_matchToken _ _ _)
  intro t
  apply presInv_bind (presInv_globalVarLoop _ _)
  intro path
  cases path.getLast? <;> first
    | exact presInv_throw _
    | exact presInv_pure _

/-- Invariant preservation for the mutually recursive middleware-option value,
object and array parsers, proved simultaneously by induction on fuel. -/
theorem presInv_mwOptionGroup (fuel : Nat) :
    PresInv (parseMiddlewareOptionValue fuel) ∧
    PresInv (parseMiddlewareOptionObject fuel) ∧
    (∀ opts, PresInv (parseMiddlewareOptionObjectLoop fuel opts)) ∧
    PresInv (parseMiddlewareOptionArray fuel) ∧
    (∀ vs, PresInv (parseMiddlewareOptionArrayLoop fuel vs)) := by
  induction fuel with
  | zero =>
      exact ⟨presInv_throw _, presInv_throw _, fun _ => presInv_throw _,
        presInv_throw _, fun _ => presInv_throw _⟩
  | succ n ih =>
      obtain ⟨ihv, iho, ihol, iha, ihal⟩ := ih
      refine ⟨?_, ?_, ?_, ?_, ?_⟩
      · rw [parseMiddlewareOptionValue]
        apply presInv_bind presInv_getS
        intro s
        split <;>
          first
          | exact presInv_bind (presInv_jump 1) fun _ =>
              presInv_bind (presInv_parseGlobalVariable n) fun g => presInv_pure _
          | exact presInv_bind (presInv_jump 1) fun _ => presInv_pure _
          | exact presInv_bind iho fun o => presInv_pure _
          | exact presInv_bind iha fun a => presInv_pure _
          | exact presInv_bind (presInv_reportUnexpected _ _ _ _) fun _ => presInv_pure _
      · rw [parseMiddlewareOptionObject]
        exact presInv_bind (presInv_jump 1) fun _ => ihol _
      · intro opts
        rw [parseMiddlewareOptionObjectLoop]
        apply presInv_bind presInv_getS
        intro s
        refine presInv_ite _ (presInv_bind (presInv_jump 1) fun _ => presInv_pure _) ?_
        apply presInv_bind (presInv_matchToken _ _ _)
        intro key
        apply presInv_bind (presInv_matchToken _ _ _)
        intro _
        apply presInv_bind ihv
        intro v?
        refine presInv_ite _ ?_ (ihol _)
        apply presInv_bind presInv_getS
        intro s2
        exact presInv_bind (presInv_ite _ (presInv_jump 1) (presInv_pure _)) fun _ => ihol _
      · rw [parseMiddlewareOptionArray]
        exact presInv_bind (presInv_jump 1) fun _ => ihal _
      · intro vs
        rw [parseMiddlewareOptionArrayLoop]
        apply presInv_bind presInv_getS
        intro s
        refine presInv_ite _ (presInv_bind (presInv_jump 1) fun _ => presInv_pure _) ?_
        apply presInv_bind ihv
        intro v?
        refine presInv_ite _ ?_ (ihal _)
        apply presInv_bind presInv_getS
        intro s2
        exact presInv_bind (presInv_ite _ (presInv_jump 1) (presInv_pure _)) fun _ => ihal _

theorem presInv_parseMiddlewareOptionsLoop (fuel : Nat) (opts : MiddlewareOptions) :
    PresInv (parseMiddlewareOptionsLoop fuel opts) := by
  induction fuel generalizing opts with
  | zero => exact presInv_throw _
  | succ n ih =>
      rw [parseMiddlewareOptionsLoop]
      apply presInv_bind presInv_getS
      intro s
      refine presInv_ite _ (presInv_bind (presInv_jump 1) fun _ => presInv_pure _) ?_
      apply presInv_bind (presInv_matchToken _ _ _)
      intro key
      apply presInv_bind (presInv_matchToken _ _ _)
      intro _
      apply presInv_bind (presInv_mwOptionGroup n).1
      intro v?
      refine presInv_ite _ ?_ (presInv_bind (presInv_jump 1) fun _ => ih _)
      apply presInv_bind presInv_getS
      intro s2
      exact presInv_bind (presInv_ite _ (presInv_jump 1) (presInv_pure _)) fun _ => ih _

theorem presInv_parseMiddlewareOptions (fuel : Nat) :
    PresInv (parseMiddlewareOptions fuel) := by
  cases fuel with
  | zero => exact presInv_throw _
  | succ n =>
      rw [parseMiddlewareOptions]
      apply presInv_bind presInv_getS
      intro s
      refine presInv_ite _ ?_ (presInv_pure _)
      exact presInv_bind (presInv_jump 1) fun _ => presInv_parseMiddlewareOptionsLoop n []

theorem presInv_parseMiddleware (fuel : Nat) : PresInv (parseMiddleware fuel) := by
  unfold parseMiddleware
  apply presInv_bind (presInv_matchToken _ _ _)
  intro _
  apply presInv_bind (presInv_matchToken _ _ _)
  intro nameTok
  apply presInv_bind (presInv_parseMiddlewareOptions fuel)
  intro options
  exact presInv_bind (presInv_matchToken _ _ _) fun _ => presInv_pure _

theorem retP_bind {α β : Type} {P : β → Prop} {m : PM α} {f : α → PM β}
    (hf : ∀ a, RetP P (f a)) : RetP P (m >>= f) := by
  intro s a s' h
  have hb : (m >>= f) s = match m s with
    | .ok (b, s₁) => f b s₁
    | .error e => .error e := rfl
  rw [hb] at h
  cases hms : m s with
  | ok r =>
      obtain ⟨b, s₁⟩ := r
      rw [hms] at h
      exact hf b s₁ a s' h
  | error e => rw [hms] at h; exact absurd h (by simp)

theorem retP_pure {α : Type} {P : α → Prop} (a : α) (h : P a) : RetP P (pure a : PM α) := by
  intro s b s' hb
  have : (pure a : PM α) s = .ok (a, s) := rfl
  rw [this] at hb
  injection hb with h'
  injection h' with h1 h2
  exact h1 ▸ h

theorem retP_throw {α : Type} {P : α → Prop} (e : PErr) : RetP P (pmThrow e : PM α) := by
  intro s b s' h
  exact absurd h (by simp [pmThrow])

theorem retP_ite {α : Type} {P : α → Prop} (c : Prop) [Decidable c] {m₁ m₂ : PM α}
    (h₁ : RetP P m₁) (h₂ : RetP P m₂) : RetP P (if c then m₁ else m₂) := by
  by_cases hc : c
  · simpa [hc] using h₁
  · simpa [hc] using h₂

/-- Binding where the continuation may rely on the returned value's
property. -/
theorem presInv_bind_retP {α β : Type} {P : α → Prop} {m : PM α} {f : α → PM β}
    (hm : PresInv m) (hP : RetP P m) (hf : ∀ a, P a → PresInv (f a)) :
    PresInv (m >>= f) := by
  intro s a s' hs h
  have hb : (m >>= f) s = match m s with
    | .ok (b, s₁) => f b s₁
    | .error e => .error e := rfl
  rw [hb] at h
  cases hms : m s with
  | ok r =>
      obtain ⟨b, s₁⟩ := r
      rw [hms] at h
      exact hf b (hP s b s₁ hms) s₁ a s' (hm s b s₁ hs hms) h
  | error e => rw [hms] at h; exact absurd h (by simp)

theorem presInv_parseAuthBlockBodyAlias (fuel : Nat) :
    PresInv (parseAuthBlockBodyAlias fuel) := by
  unfold parseAuthBlockBodyAlias
  apply presInv_bind presInv_getS
  intro s
  refine presInv_ite _ ?_ (presInv_ite _ ?_ (presInv_pure _))
  · apply presInv_bind (presInv_parseMiddlewareOptions fuel)
    intro body
    apply presInv_bind presInv_getS
    intro s2
    refine presInv_ite _ ?_ (presInv_pure _)
    exact presInv_bind (presInv_jump 1) fun _ =>
      presInv_bind (presInv_matchToken _ _ _) fun a => presInv_pure _
  · apply presInv_bind (presInv_jump 1)
    intro _
    apply presInv_bind (presInv_matchToken _ _ _)
    intro a
    apply presInv_bind presInv_getS
    intro s2
    refine presInv_ite _ ?_ ?_
    · exact presInv_bind (presInv_parseMiddlewareOptions fuel) fun body => presInv_pure _
    · exact presInv_bind (presInv_reportError _ _ _) fun _ => presInv_pure _

theorem presInv_parseAuthBlock (fuel : Nat) : PresInv (parseAuthBlock fuel) := by
  unfold parseAuthBlock
  apply presInv_bind (presInv_jump 1)
  intro _
  apply presInv_bind (presInv_matchToken _ _ _)
  intro typeTok
  refine presInv_ite _ ?_ ?_
  · apply presInv_bind presInv_getS
    intro s
    exact presInv_bind (presInv_reportError _ _ _) fun _ => presInv_pure _
  · apply presInv_bind (presInv_parseAuthBlockBodyAlias fuel)
    intro ba
    cases ba with
    | none => exact presInv_pure _
    | some p =>
        obtain ⟨body, aliasStr⟩ := p
        apply presInv_bind (presInv_matchToken _ _ _)
        intro _
        refine presInv_ite _ ?_ ?_
        · apply presInv_bind presInv_getS
          intro s
          exact presInv_bind (presInv_reportError _ _ _) fun _ => presInv_pure _
        · refine presInv_ite _ ?_ ?_
          · apply presInv_bind presInv_getS
            intro s
            exact presInv_bind (presInv_reportError _ _ _) fun _ => presInv_pure _
          · cases jsGet body "defaultAccess" with
            | none => exact presInv_pure _
            | some v =>
                refine presInv_ite _ ?_ (presInv_pure _)
                cases v <;>
                  first
                  | exact presInv_bind presInv_getS fun s =>
                      presInv_bind (presInv_reportError _ _ _) fun _ => presInv_pure _
                  | split <;>
                      first
                      | exact presInv_pure _
                      | exact presInv_bind presInv_getS fun s =>
                          presInv_bind (presInv_reportError _ _ _) fun _ => presInv_pure _

/-- Every auth block `parseAuthBlock` returns has an empty options mapping:
all three constructor sites (parser.ts:184, 192, 199) omit the options
argument. -/
theorem retP_parseAuthBlock (fuel : Nat) :
    RetP (fun r => ∀ b, r = some b → b.options = []) (parseAuthBlock fuel) := by
  unfold parseAuthBlock
  apply retP_bind
  intro _
  apply retP_bind
  intro typeTok
  refine retP_ite _ (retP_bind fun s => retP_bind fun _ => retP_pure _ (by simp)) ?_
  apply retP_bind
  intro ba
  cases ba with
  | none => exact retP_pure _ (by simp)
  | some p =>
      obtain ⟨body, aliasStr⟩ := p
      apply retP_bind
      intro _
      refine retP_ite _ (retP_bind fun s => retP_bind fun _ => retP_pure _ (by simp)) ?_
      refine retP_ite _ (retP_bind fun s => retP_bind fun _ => retP_pure _ (by simp)) ?_
      cases jsGet body "defaultAccess" with
      | none =>
          refine retP_pure _ ?_
          intro b hb
          injection hb with hb
          rw [← hb]
          rfl
      | some v =>
          refine retP_ite _ ?_ ?_
          · cases v <;>
              first
              | exact retP_bind fun s => retP_bind fun _ => retP_pure _ (by simp)
              | split <;>
                  first
                  | exact retP_bind fun s => retP_bind fun _ => retP_pure _ (by simp)
                  | · refine retP_pure _ ?_
                      intro b hb
                      injection hb with hb
                      rw [← hb]
                      rfl
          · refine retP_pure _ ?_
            intro b hb
            injection hb with hb
            rw [← hb]
            rfl

theorem presInv_parseMethod : PresInv parseMethod := by
  unfold parseMethod
  apply presInv_bind presInv_getS
  intro s
  split <;>
    first
    | exact presInv_bind (presInv_jump 1) fun _ => presInv_pure _
    | exact presInv_bind (presInv_reportUnexpected _ _ _ _) fun _ => presInv_pure _

theorem presInv_parseQueryParameterType : PresInv parseQueryParameterType := by
  unfold parseQueryParameterType
  apply presInv_bind presInv_getS
  intro s
  split <;>
    first
    | exact presInv_bind (presInv_jump 1) fun _ => presInv_pure _
    | exact presInv_bind (presInv_jump 1) fun _ =>
        presInv_bind (presInv_reportUnexpected _ _ _ _) fun _ => presInv_pure _

theorem presInv_parseQueryParameter : PresInv parseQueryParameter := by
  unfold parseQueryParameter
  apply presInv_bind (presInv_matchToken _ _ _)
  intro nameTok
  apply presInv_bind presInv_getS
  intro s
  refine presInv_ite _ ?_ (presInv_pure _)
  exact presInv_bind (presInv_jump 1) fun _ =>
    presInv_bind presInv_parseQueryParameterType fun ty => presInv_pure _

theorem presInv_parseQueryParametersLoop (fuel : Nat) (acc : List QueryParameterNode) :
    PresInv (parseQueryParametersLoop fuel acc) := by
  induction fuel generalizing acc with
  | zero => exact presInv_throw _
  | succ n ih =>
      rw [parseQueryParametersLoop]
      apply presInv_bind presInv_getS
      intro s
      refine presInv_ite _ ?_ (presInv_pure _)
      apply presInv_bind (presInv_jump 1)
      intro _
      apply presInv_bind presInv_parseQueryParameter
      intro p?
      cases p? with
      | some p => exact ih _
      | none => exact ih _

theorem presInv_parsePathLoop (fuel : Nat) (path : String) :
    PresInv (parsePathLoop fuel path) := by
  induction fuel generalizing path with
  | zero => exact presInv_throw _
  | succ n ih =>
      rw [parsePathLoop]
      apply presInv_bind presInv_getS
      intro s
      refine presInv_ite _ ?_ (presInv_pure _)
      exact presInv_bind (presInv_jump 1) fun _ => ih _

theorem presInv_parsePathQueryPart (fuel : Nat) : PresInv (parsePathQueryPart fuel) := by
  unfold parsePathQueryPart
  apply presInv_bind presInv_getS
  intro s
  exact presInv_ite _ (presInv_parseQueryParametersLoop fuel []) (presInv_pure _)

theorem presInv_parsePathAliasPart : PresInv parsePathAliasPart := by
  unfold parsePathAliasPart
  apply presInv_bind presInv_getS
  intro s
  refine presInv_ite _ ?_ (presInv_pure _)
  exact presInv_bind (presInv_jump 1) fun _ =>
    presInv_bind (presInv_matchToken _ _ _) fun a => presInv_pure _

theorem presInv_parsePath (fuel : Nat) : PresInv (parsePath fuel) := by
  unfold parsePath
  apply presInv_bind (presInv_matchToken _ _ _)
  intro _
  apply presInv_bind (presInv_parsePathLoop fuel "/")
  intro path
  apply presInv_bind (presInv_parsePathQueryPart fuel)
  intro qps
  exact presInv_bind presInv_parsePathAliasPart fun a? => presInv_pure _

theorem presInv_projAuthBlocks : PresInv projAuthBlocks := by
  intro s a s' hs h
  unfold projAuthBlocks at h
  by_cases hp : s.hasProject
  · rw [if_pos hp] at h
    injection h with h'
    injection h' with h1 h2
    exact h2 ▸ hs
  · rw [if_neg hp] at h
    exact absurd h (by simp)

theorem presInv_setAuthInUse (id : String) : PresInv (setAuthInUse id) := by
  intro s a s' hs h
  unfold setAuthInUse at h
  have : modifyS (fun s => { s with authBlocks := s.authBlocks.map fun kv =>
      if kv.1 = id then (kv.1, { kv.2 with isAuthorizationInUse := true }) else kv }) s
      = .ok ((), { s with authBlocks := s.authBlocks.map fun kv =>
        if kv.1 = id then (kv.1, { kv.2 with isAuthorizationInUse := true }) else kv }) := rfl
  rw [this] at h
  injection h with h'
  injection h' with h1 h2
  rw [← h2]
  intro kv hkv
  simp only [List.mem_map] at hkv
  obtain ⟨kv₀, h₀, hkv⟩ := hkv
  by_cases hid : kv₀.1 = id
  · rw [if_pos hid] at hkv
    rw [← hkv]
    exact hs kv₀ h₀
  · rw [if_neg hid] at hkv
    rw [← hkv]
    exact hs kv₀ h₀

theorem presInv_parseAuthRolesLoop (fuel : Nat) (acc : List String) :
    PresInv (parseAuthRolesLoop fuel acc) := by
  induction fuel generalizing acc with
  | zero => exact presInv_throw _
  | succ n ih =>
      rw [parseAuthRolesLoop]
      apply presInv_bind presInv_getS
      intro s
      refine presInv_ite _ ?_ (presInv_bind (presInv_jump 1) fun _ => presInv_pure _)
      apply presInv_bind (presInv_matchToken _ _ _)
      intro t
      apply presInv_bind presInv_getS
      intro s2
      exact presInv_bind (presInv_ite _ (presInv_jump 1) (presInv_pure _)) fun _ => ih _

theorem presInv_parseAuthRefPart : PresInv parseAuthRefPart := by
  unfold parseAuthRefPart
  apply presInv_bind presInv_getS
  intro s
  refine presInv_ite _ ?_ ?_
  · exact presInv_bind (presInv_matchToken _ _ _) fun t => presInv_pure _
  · apply presInv_bind presInv_projAuthBlocks
    intro blocks
    refine presInv_ite _ ?_ (presInv_pure _)
    exact presInv_bind (presInv_reportUnexpected _ _ _ _) fun _ => presInv_pure _

theorem presInv_resolveAuthRefPart (ab : String) : PresInv (resolveAuthRefPart ab) := by
  unfold resolveAuthRefPart
  refine presInv_ite _ ?_ (presInv_pure _)
  apply presInv_bind presInv_projAuthBlocks
  intro blocks
  cases blocks.head? with
  | some kv =>
      obtain ⟨k, b⟩ := kv
      exact presInv_pure _
  | none =>
      exact presInv_bind presInv_getS fun s2 =>
        presInv_bind (presInv_reportError _ _ _) fun _ => presInv_pure _

theorem presInv_parseAuthenticateClause (fuel : Nat) :
    PresInv (parseAuthenticateClause fuel) := by
  unfold parseAuthenticateClause
  apply presInv_bind presInv_parseAuthRefPart
  intro ab?
  cases ab? with
  | none => exact presInv_pure _
  | some ab =>
      apply presInv_bind (presInv_resolveAuthRefPart ab)
      intro ab'?
      cases ab'? with
      | none => exact presInv_pure _
      | some authBlock =>
          apply presInv_bind presInv_projAuthBlocks
          intro blocks
          cases lookupAB blocks authBlock with
          | none =>
              exact presInv_bind presInv_getS fun s2 =>
                presInv_bind (presInv_reportError _ _ _) fun _ => presInv_pure _
          | some b =>
              apply presInv_bind presInv_getS
              intro s2
              refine presInv_ite _ ?_ (presInv_pure _)
              apply presInv_bind (presInv_jump 1)
              intro _
              apply presInv_bind (presInv_setAuthInUse authBlock)
              intro _
              apply presInv_bind presInv_getS
              intro s3
              refine presInv_ite _ ?_ ?_
              · exact presInv_bind (presInv_matchToken _ _ _) fun t => presInv_pure _
              · refine presInv_ite _ ?_ ?_
                · apply presInv_bind (presInv_jump 1)
                  intro _
                  exact presInv_bind (presInv_parseAuthRolesLoop fuel []) fun roles =>
                    presInv_pure _
                · exact presInv_bind (presInv_reportUnexpected _ _ _ _) fun _ => presInv_pure _

theorem presInv_parseRouteAttr (fuel : Nat) (kind : SyntaxKind)
    (header body : Option MiddlewareOptions) (authenticate : Option AuthenticateClauseNode) :
    PresInv (parseRouteAttr fuel kind header body authenticate) := by
  unfold parseRouteAttr
  refine presInv_ite _ ?_ (presInv_ite _ ?_ ?_)
  · exact presInv_bind (presInv_parseMiddlewareOptions fuel) fun h => presInv_pure _
  · exact presInv_bind (presInv_parseMiddlewareOptions fuel) fun b => presInv_pure _
  · exact presInv_bind (presInv_parseAuthenticateClause fuel) fun a => presInv_pure _

theorem presInv_parseRouteAttrLoop (fuel : Nat) (header body : Option MiddlewareOptions)
    (authenticate : Option AuthenticateClauseNode) :
    PresInv (parseRouteAttrLoop fuel header body authenticate) := by
  induction fuel generalizing header body authenticate with
  | zero => exact presInv_throw _
  | succ n ih =>
      rw [parseRouteAttrLoop]
      apply presInv_bind presInv_getS
      intro s
      refine presInv_ite _ ?_ (presInv_pure _)
      apply presInv_bind (presInv_jump 1)
      intro _
      apply presInv_bind presInv_getS
      intro s2
      apply presInv_bind (presInv_parseRouteAttr n _ _ _ _)
      intro r
      obtain ⟨header', body', authenticate'⟩ := r
      apply presInv_bind presInv_getS
      intro s3
      exact presInv_bind (presInv_ite _ (presInv_jump 1) (presInv_pure _)) fun _ => ih _ _ _

theorem presInv_parseRoute (fuel : Nat) : PresInv (parseRoute fuel) := by
  unfold parseRoute
  apply presInv_bind presInv_parseMethod
  intro method
  apply presInv_bind (presInv_parsePath fuel)
  intro path
  apply presInv_bind (presInv_parseRouteAttrLoop fuel none none none)
  intro r
  obtain ⟨header, body, authenticate⟩ := r
  exact presInv_bind (presInv_matchToken _ _ _) fun _ => presInv_pure _

theorem presInv_parseRouterAttr (fuel : Nat) (kind : SyntaxKind) (start : Nat)
    (header body : Option MiddlewareOptions) (authenticate : Option AuthenticateClauseNode) :
    PresInv (parseRouterAttr fuel kind start header body authenticate) := by
  unfold parseRouterAttr
  refine presInv_ite _ ?_ (presInv_ite _ ?_ ?_)
  · apply presInv_bind (presInv_parseMiddlewareOptions fuel)
    intro h
    apply presInv_bind presInv_getS
    intro s
    exact presInv_bind (presInv_ite _ (presInv_jump 1) (presInv_pure _)) fun _ =>
      presInv_pure _
  · apply presInv_bind (presInv_parseMiddlewareOptions fuel)
    intro b
    apply presInv_bind presInv_getS
    intro s
    exact presInv_bind (presInv_ite _ (presInv_jump 1) (presInv_pure _)) fun _ =>
      presInv_pure _
  · exact presInv_bind (presInv_parseAuthenticateClause fuel) fun a => presInv_pure _

theorem presInv_parseRouterAttrLoop (fuel : Nat) (header body : Option MiddlewareOptions)
    (authenticate : Option AuthenticateClauseNode) :
    PresInv (parseRouterAttrLoop fuel header body authenticate) := by
  induction fuel generalizing header body authenticate with
  | zero => exact presInv_throw _
  | succ n ih =>
      rw [parseRouterAttrLoop]
      apply presInv_bind presInv_getS
      intro s
      refine presInv_ite _ ?_ (presInv_pure _)
      apply presInv_bind (presInv_jump 1)
      intro _
      apply presInv_bind presInv_getS
      intro s2
      apply presInv_bind (presInv_parseRouterAttr n _ _ _ _ _)
      intro r
      obtain ⟨header', body', authenticate'⟩ := r
      exact ih _ _ _

/-- Appending an auth block with empty options preserves the invariant. -/
theorem presInv_insertAuth (b : AuthBlockNode) (hb : b.options = []) (id : String) :
    PresInv (modifyS fun s => { s with authBlocks := s.authBlocks ++ [(id, b)] }) := by
  intro s a s' hs h
  have : modifyS (fun s => { s with authBlocks := s.authBlocks ++ [(id, b)] }) s
      = .ok ((), { s with authBlocks := s.authBlocks ++ [(id, b)] }) := rfl
  rw [this] at h
  injection h with h'
  injection h' with h1 h2
  rw [← h2]
  intro kv hkv
  rcases List.mem_append.1 hkv with hkv | hkv
  · exact hs kv hkv
  · rw [List.mem_singleton.1 hkv]
    exact hb

/-- Invariant preservation for the mutually recursive router/include parsers,
proved simultaneously by induction on fuel. -/
theorem presInv_routerGroup (fuel : Nat) :
    (∀ fs ip parent, PresInv (parseParentNode fuel fs ip parent)) ∧
    (∀ fs ip r, PresInv (parseRouterChildren fuel fs ip r)) ∧
    (∀ fs, PresInv (parseRouter fuel fs)) ∧
    (∀ fs r, PresInv (parseRouterChildrenLoop fuel fs r)) ∧
    (∀ fs ip parent, PresInv (includeStmt fuel fs ip parent)) ∧
    (∀ fs ip parent path, PresInv (includeInner fuel fs ip parent path)) := by
  induction fuel with
  | zero =>
      exact ⟨fun _ _ _ => presInv_throw _, fun _ _ _ => presInv_throw _,
        fun _ => presInv_throw _, fun _ _ => presInv_throw _,
        fun _ _ _ => presInv_throw _, fun _ _ _ _ => presInv_throw _⟩
  | succ n ih =>
      obtain ⟨ihp, ihc, ihr, ihl, ihs, ihi⟩ := ih
      refine ⟨?_, ?_, ?_, ?_, ?_, ?_⟩
      · intro fs ip parent
        rw [parseParentNode]
        apply presInv_bind presInv_getS
        intro s
        refine presInv_ite _ ?_ (presInv_pure _)
        apply presInv_bind (ihc fs ip parent)
        intro parent'
        apply presInv_bind presInv_getS
        intro s2
        exact presInv_bind (presInv_ite _ (presInv_jump 1) (presInv_pure _)) fun _ =>
          ihp fs ip parent'
      · intro fs ip r
        rw [parseRouterChildren]
        apply presInv_bind presInv_getS
        intro s
        split
        · refine presInv_ite _ ?_ ?_
          · apply presInv_bind (presInv_parseMiddleware n)
            intro m
            refine presInv_bind (presInv_modify_keep _ fun _ => rfl) fun _ => presInv_pure _
          · exact presInv_bind (presInv_reportError _ _ _) fun _ => presInv_pure _
        · exact presInv_bind (presInv_parseRoute n) fun r' => presInv_pure _
        · exact presInv_bind (presInv_parseRoute n) fun r' => presInv_pure _
        · exact presInv_bind (presInv_parseRoute n) fun r' => presInv_pure _
        · exact presInv_bind (presInv_parseRoute n) fun r' => presInv_pure _
        · exact presInv_bind (presInv_parseRoute n) fun r' => presInv_pure _
        · exact presInv_bind (presInv_parseRoute n) fun r' => presInv_pure _
        · exact presInv_bind (presInv_parseRoute n) fun r' => presInv_pure _
        · exact presInv_bind (ihr fs) fun r' => presInv_pure _
        · exact ihs fs ip r
        · refine presInv_ite _ ?_ ?_
          · apply presInv_bind_retP (presInv_parseAuthBlock n) (retP_parseAuthBlock n)
            intro ab? hab
            cases ab? with
            | none => exact presInv_pure _
            | some authBlock =>
                apply presInv_bind presInv_getS
                intro s2
                refine presInv_ite _ ?_ ?_
                · exact presInv_bind (presInv_reportError _ _ _) fun _ => presInv_pure _
                · exact presInv_bind
                    (presInv_insertAuth authBlock (hab authBlock rfl) authBlock.id)
                    fun _ => presInv_pure _
          · exact presInv_bind (presInv_reportError _ _ _) fun _ => presInv_pure _
        · exact presInv_pure _
      · intro fs
        rw [parseRouter]
        apply presInv_bind (presInv_matchToken _ _ _)
        intro _
        apply presInv_bind (presInv_parsePath n)
        intro path
        apply presInv_bind (presInv_parseRouterAttrLoop n none none none)
        intro r
        obtain ⟨header, body, authenticate⟩ := r
        apply presInv_bind (presInv_matchToken _ _ _)
        intro _
        apply presInv_bind (ihl fs _)
        intro router
        exact presInv_bind (presInv_matchToken _ _ _) fun _ => presInv_pure _
      · intro fs r
        rw [parseRouterChildrenLoop]
        apply presInv_bind presInv_getS
        intro s
        refine presInv_ite _ ?_ (presInv_pure _)
        apply presInv_bind (ihc fs false r)
        intro r'
        apply presInv_bind presInv_getS
        intro s2
        exact presInv_bind (presInv_ite _ (presInv_jump 1) (presInv_pure _)) fun _ =>
          ihl fs r'
      · intro fs ip parent
        rw [includeStmt]
        apply presInv_bind (presInv_matchToken _ _ _)
        intro _
        apply presInv_bind (presInv_matchToken _ _ _)
        intro pTok
        cases pTok.sval with
        | none => exact presInv_throw _
        | some path =>
            apply presInv_bind (presInv_matchToken _ _ _)
            intro _
            refine presInv_bind (presInv_modify_keep _ fun _ => rfl) ?_
            intro _
            refine presInv_bind (ihi fs ip parent path) ?_
            intro parent'
            exact presInv_bind (presInv_modify_keep _ fun _ => rfl) fun _ => presInv_pure _
      · intro fs ip parent path
        intro s a s' hs h
        cases hfs : fs path with
        | none =>
            simp only [includeInner, hfs] at h
            exact absurd h (by simp)
        | some tokens =>
            simp only [includeInner, hfs] at h
            cases hpp : parseParentNode n fs ip parent
                ({ toks := tokens, pos := 0, diags := s.diags, files := [],
                   authBlocks := s.authBlocks, middlewares := s.middlewares,
                   hasProject := false } : PState) with
            | error e => rw [hpp] at h; exact absurd h (by simp)
            | ok r =>
                obtain ⟨parent', sub'⟩ := r
                rw [hpp] at h
                injection h with h'
                injection h' with h1 h2
                have hsub :
                    Inv ({ toks := tokens, pos := 0, diags := s.diags, files := [],
                           authBlocks := s.authBlocks, middlewares := s.middlewares,
                           hasProject := false } : PState) :=
                  fun kv hkv => hs kv hkv
                have hsub' : Inv sub' := ihp fs ip parent _ parent' sub' hsub hpp
                rw [← h2]
                intro kv hkv
                exact hsub' kv hkv

theorem pm_bind_apply {α β : Type} (m : PM α) (f : α → PM β) (s : PState) :
    (m >>= f) s = match m s with
      | .ok (a, s₁) => f a s₁
      | .error e => .error e := rfl

theorem pm_pure_apply {α : Type} (a : α) (s : PState) : (pure a : PM α) s = .ok (a, s) := rfl

theorem presInv_parseTarget : PresInv parseTarget := by
  unfold parseTarget
  apply presInv_bind (presInv_matchToken _ _ _)
  intro _
  apply presInv_bind (presInv_matchToken _ _ _)
  intro t
  exact presInv_bind (presInv_matchToken _ _ _) fun _ => presInv_pure _

/-- Every project `parseProject` assembles carries only auth blocks with empty
options: the project starts with an empty collection (parser.ts:59) and every
insertion (parser.ts:123-138) stores a block built by `parseAuthBlock`. -/
theorem parseProject_result_authBlocks (fuel : Nat) (fs : String → Option (List Tok))
    (s : PState) (proj : ProjectNode) (s' : PState)
    (h : parseProject fuel fs s = .ok (proj, s')) :
    ∀ kv ∈ proj.authBlocks, (kv : String × AuthBlockNode).2.options = [] := by
  unfold parseProject at h
  simp only [pm_bind_apply, pm_pure_apply, modifyS, getS] at h
  cases ht : parseTarget s with
  | error e => simp only [ht] at h; exact absurd h (by simp)
  | ok r =>
      obtain ⟨target, sA⟩ := r
      simp only [ht] at h
      cases hpp : parseParentNode fuel fs true
          (RouterNode.mk ⟨"", none, []⟩ none none none [] [])
          ({ toks := sA.toks, pos := sA.pos, diags := sA.diags, files := sA.files,
             authBlocks := [], middlewares := [], hasProject := true } : PState) with
      | error e => rw [hpp] at h; exact absurd h (by simp)
      | ok r2 =>
          obtain ⟨root, sC⟩ := r2
          rw [hpp] at h
          injection h with h'
          injection h' with h1 h2
          have hInvB :
              Inv ({ toks := sA.toks, pos := sA.pos, diags := sA.diags, files := sA.files,
                     authBlocks := [], middlewares := [], hasProject := true } : PState) := by
            intro kv hkv
            exact absurd hkv (List.not_mem_nil kv)
          have hInvC : Inv sC :=
            (presInv_routerGroup fuel).1 fs true
              (RouterNode.mk ⟨"", none, []⟩ none none none [] []) _ root sC hInvB hpp
          rw [← h1]
          intro kv hkv
          exact hInvC kv hkv

/-- **C10.** For every project returned by `Parser.parse`, every
`AuthBlockNode` stored in `project.authBlocks` has an empty options mapping:
`parseAuthBlock` inspects the parsed option object only for `source`, `field`
and `defaultAccess` and omits it from every `AuthBlockNode` constructor call
(parser.ts:184, 192, 199), so the option pairs written inside the auth
directive are not stored on the node even though the emitters later read the
Bearer settings from `AuthBlockNode.options`. -/
theorem parse_project_authBlock_options_empty
    (fuel : Nat) (policy : ParsingPolicy) (fs : String → Option (List Tok))
    (s : PState) (proj : ProjectNode) (s' : PState)
    (h : parse fuel policy fs s = .ok (some proj, s')) :
    ∀ kv ∈ proj.authBlocks, (kv : String × AuthBlockNode).2.options = [] := by
  unfold parse at h
  simp only [pm_bind_apply, pm_pure_apply, getS] at h
  cases hpj : parseProject fuel fs s with
  | error e => simp only [hpj] at h; exact absurd h (by simp)
  | ok r =>
      obtain ⟨project, s1⟩ := r
      simp only [hpj] at h
      split at h
      · injection h with h'
        injection h' with h1 h2
        exact absurd h1 (by simp)
      · injection h with h'
        injection h' with h1 h2
        injection h1 with h1
        rw [← h1]
        exact parseProject_result_authBlocks fuel fs s project s1 hpj

/-- A closed run of the parser on `c6toks`, stitched from checkpoint
evaluations on literal states so each segment evaluates on concrete input. -/
theorem c6parse :
    parse 50 .CancelParsingOnFirstError noFs (initPState c6toks) = .ok (some c6proj, c6final) := by
  have h1 : parseTarget (initPState c6toks)
      = .ok ("T", ({ toks := c6toks, pos := 3, diags := [], files := [], authBlocks := [],
                     middlewares := [], hasProject := false } : PState)) := rfl
  have h2 : parseParentNode 50 noFs true rootR
      ({ toks := c6toks, pos := 3, diags := [], files := [], authBlocks := [],
         middlewares := [], hasProject := true } : PState)
      = .ok (rootR, ({ toks := c6toks, pos := 15, diags := [], files := [],
                       authBlocks := [("", blkLit)], middlewares := [],
                       hasProject := true } : PState)) := rfl
  unfold parse parseProject
  simp only [pm_bind_apply, pm_pure_apply, getS, modifyS, h1, h2]
  rfl

theorem parse_project_authBlock_options_empty_witness :
    parse 50 .CancelParsingOnFirstError noFs (initPState c6toks) = .ok (some c6proj, c6final) ∧
    ∀ kv ∈ c6proj.authBlocks, (kv : String × AuthBlockNode).2.options = [] :=
  ⟨c6parse, parse_project_authBlock_options_empty 50 .CancelParsingOnFirstError noFs
      (initPState c6toks) c6proj c6final c6parse⟩

/-! ### C7: the option-list loop never terminates at end of input -/
/-- With the `c7toks` token list, any cursor at or beyond position 6 reads the
end-of-file token: `peek` clamps to the last token (parser.ts:715-717). -/
theorem currentTok_c7 (s : PState) (h1 : s.toks = c7toks) (h2 : 6 ≤ s.pos) :
    currentTok s = eofTok := by
  unfold currentTok peekT
  rw [h1]
  rcases Nat.lt_or_ge (s.pos + 0) c7toks.length with h | h
  · have hlen : c7toks.length = 7 := rfl
    have h6 : s.pos = 6 := by
      rw [hlen] at h
      omega
    rw [h6]
    rfl
  · rw [if_neg (Nat.not_lt.mpr h)]
    rfl

/-- A non-optional `matchToken` for anything but the end-of-file kind, run at
the end of `c7toks`, reports and recovers without moving the cursor. -/
theorem matchToken_c7eof (k : SyntaxKind) (hk : ¬ (eofTok.kind = k)) (hint : Option String)
    (s : PState) (h1 : s.toks = c7toks) (h2 : 6 ≤ s.pos) :
    ∃ t s', matchToken k false hint s = .ok (t, s') ∧ s'.toks = s.toks ∧ s'.pos = s.pos := by
  have hcur := currentTok_c7 s h1 h2
  have e : matchToken k false hint s = .ok (synthTok k,
      { s with diags := s.diags ++ [eofDiag k hint s] }) := by
    unfold matchToken
    simp only [pm_bind_apply, pm_pure_apply, getS, hcur]
    rw [if_neg hk]
    rfl
  exact ⟨_, _, e, rfl, rfl⟩

/-- `parseMiddlewareOptionValue` at the end of `c7toks` reports an unexpected
token and yields `undefined` without moving the cursor. -/
theorem value_c7eof (m : Nat) (s : PState) (h1 : s.toks = c7toks) (h2 : 6 ≤ s.pos) :
    ∃ s', parseMiddlewareOptionValue (m + 1) s = .ok (none, s') ∧
      s'.toks = s.toks ∧ s'.pos = s.pos := by
  have hcur := currentTok_c7 s h1 h2
  have e : parseMiddlewareOptionValue (m + 1) s = .ok (none,
      { s with diags := s.diags ++ [valueEofDiag s] }) := by
    rw [parseMiddlewareOptionValue]
    simp only [pm_bind_apply, pm_pure_apply, getS, hcur]
    rfl
  exact ⟨_, e, rfl, rfl⟩

/-- The `while` loop of `parseMiddlewareOptions` runs out of any amount of
fuel once the cursor sits at the end of `c7toks`: there is no end-of-file
check (parser.ts:226), and every iteration moves the cursor further right. -/
theorem c7loop (fuel : Nat) : ∀ (opts : MiddlewareOptions) (s : PState),
    s.toks = c7toks → 6 ≤ s.pos →
    parseMiddlewareOptionsLoop fuel opts s = .error .fuelOut := by
  induction fuel with
  | zero => intro opts s h1 h2; rfl
  | succ n ih =>
      intro opts s h1 h2
      have hcur := currentTok_c7 s h1 h2
      rw [parseMiddlewareOptionsLoop]
      simp only [pm_bind_apply, pm_pure_apply, getS, hcur]
      rw [if_neg (by decide : ¬ (eofTok.kind = SyntaxKind.CloseParenToken))]
      obtain ⟨t1, s1, e1, ht1, hp1⟩ := matchToken_c7eof .Identifier (by decide) none s h1 h2
      have h1b : s1.toks = c7toks := ht1.trans h1
      have h2b : 6 ≤ s1.pos := h2.trans_eq hp1.symm
      obtain ⟨t2, s2, e2, ht2, hp2⟩ := matchToken_c7eof .ColonToken (by decide) (some ":") s1 h1b h2b
      have h1c : s2.toks = c7toks := ht2.trans h1b
      have h2c : 6 ≤ s2.pos := h2b.trans_eq hp2.symm
      simp only [pm_bind_apply, e1, e2]
      cases n with
      | zero => rfl
      | succ m =>
          obtain ⟨s3, e3, ht3, hp3⟩ := value_c7eof m s2 h1c h2c
          have h1d : s3.toks = c7toks := ht3.trans h1c
          have h2d : 6 ≤ s3.pos := h2c.trans_eq hp3.symm
          simp only [pm_bind_apply, e3]
          rw [if_neg (by decide : ¬ (jsTruthyOpt none = true))]
          simp only [pm_bind_apply, jumpT, modifyS]
          exact ih opts _ h1d (Nat.le_succ_of_le h2d)

theorem c7options (fuel : Nat) : parseMiddlewareOptions fuel (c7st 5) = .error .fuelOut := by
  cases fuel with
  | zero => rfl
  | succ k =>
      have hb : parseMiddlewareOptions (k + 1) (c7st 5)
          = parseMiddlewareOptionsLoop k [] (c7st 6) := rfl
      rw [hb]
      exact c7loop k [] (c7st 6) rfl (by decide)

theorem c7middleware (fuel : Nat) : parseMiddleware fuel (c7st 3) = .error .fuelOut := by
  have hopt := c7options fuel
  unfold parseMiddleware
  simp only [pm_bind_apply,
    show matchToken .UseKeyword false (some "use") (c7st 3)
      = .ok (tk .UseKeyword "use", c7st 4) from rfl,
    show matchToken .Identifier false none (c7st 4)
      = .ok (tk .Identifier "m", c7st 5) from rfl,
    hopt]

theorem c7children (fuel : Nat) :
    parseRouterChildren fuel noFs true rootR (c7st 3) = .error .fuelOut := by
  cases fuel with
  | zero => rfl
  | succ k =>
      have hm := c7middleware k
      rw [parseRouterChildren]
      simp only [pm_bind_apply, getS]
      rw [show (currentTok (c7st 3)).kind = SyntaxKind.UseKeyword from rfl]
      simp [pm_bind_apply, hm]

theorem c7parent (fuel : Nat) :
    parseParentNode fuel noFs true rootR (c7st 3) = .error .fuelOut := by
  cases fuel with
  | zero => rfl
  | succ k =>
      have hc := c7children k
      rw [parseParentNode]
      simp only [pm_bind_apply, getS]
      rw [show (currentTok (c7st 3)).kind = SyntaxKind.UseKeyword from rfl]
      simp [pm_bind_apply, hc]

/-- **C7.** `Parser.parse` does NOT terminate on every finite token sequence
ending in an end-of-file token: on `target T; use m(` with the closing
parenthesis missing at the end of the file, the option-list loop
(parser.ts:226-241) rereads the clamped end-of-file token forever, under
either policy.  In the fuel model, the run exhausts every fuel bound instead
of completing or stopping at a diagnostic. -/
theorem parse_c7toks_never_terminates (fuel : Nat) (policy : ParsingPolicy) :
    parse fuel policy noFs (initPState c7toks) = .error .fuelOut := by
  have hp := c7parent fuel
  have ht7 : parseTarget (initPState c7toks)
      = .ok ("T",
        ({ toks := c7toks, pos := 3, diags := [], files := [], authBlocks := [],
           middlewares := [], hasProject := false } : PState)) := rfl
  have hcs : ({ toks := c7toks, pos := 3, diags := [], files := [], authBlocks := [],
                middlewares := [], hasProject := true } : PState) = c7st 3 := rfl
  have hroot : RouterNode.mk ⟨"", none, []⟩ none none none [] [] = rootR := rfl
  unfold parse parseProject
  simp only [pm_bind_apply, pm_pure_apply, getS, modifyS, ht7, hcs, hroot, hp]

/-! ### C8: a self-including file recurses until the fuel runs out -/
/-- `_include` on the cyclic file system re-enters the parent parser on the
same token list at position 0 (parser.ts:648-675): there is no visited set. -/
theorem c8includeInner (i : Nat) (parent : RouterNode) (d : List Diag) (fl : List String)
    (ab : List (String × AuthBlockNode)) (mw : List MiddlewareNode) (hpj : Bool)
    (hrec : parseParentNode i cycleFs true parent
      (PState.mk c8toks 0 d [] ab mw false) = .error .fuelOut) :
    includeInner (i + 1) cycleFs true parent "main.ymr"
      (PState.mk c8toks 6 d fl ab mw hpj) = .error .fuelOut := by
  simp only [includeInner, show cycleFs "main.ymr" = some c8toks from rfl, hrec]

/-- `include` consumes `include "main.ymr";`, pushes the file and splices it
(parser.ts:635-646); the error of the spliced parse propagates. -/
theorem c8includeStmt (j : Nat) (parent : RouterNode) (d : List Diag) (fl : List String)
    (ab : List (String × AuthBlockNode)) (mw : List MiddlewareNode) (hpj : Bool)
    (hinner : includeInner j cycleFs true parent "main.ymr"
      (PState.mk c8toks 6 d (fl ++ ["main.ymr"]) ab mw hpj) = .error .fuelOut) :
    includeStmt (j + 1) cycleFs true parent
      (PState.mk c8toks 3 d fl ab mw hpj) = .error .fuelOut := by
  rw [includeStmt]
  simp only [pm_bind_apply, pm_pure_apply, modifyS,
    show matchToken .IncludeKeyword false (some "include") (PState.mk c8toks 3 d fl ab mw hpj)
      = .ok (tk .IncludeKeyword "include", PState.mk c8toks 4 d fl ab mw hpj) from rfl,
    show matchToken .StringLiteral false none (PState.mk c8toks 4 d fl ab mw hpj)
      = .ok (tkS "\"main.ymr\"" "main.ymr", PState.mk c8toks 5 d fl ab mw hpj) from rfl,
    show (tkS "\"main.ymr\"" "main.ymr").sval = some "main.ymr" from rfl,
    show matchToken .SemicolonToken true none (PState.mk c8toks 5 d fl ab mw hpj)
      = .ok (tk .SemicolonToken ";", PState.mk c8toks 6 d fl ab mw hpj) from rfl,
    hinner]

/-- At the `include` keyword, `parseRouterChildren` dispatches to the include
statement. -/
theorem c8children3 (m : Nat) (parent : RouterNode) (d : List Diag) (fl : List String)
    (ab : List (String × AuthBlockNode)) (mw : List MiddlewareNode) (hpj : Bool)
    (hstmt : includeStmt m cycleFs true parent
      (PState.mk c8toks 3 d fl ab mw hpj) = .error .fuelOut) :
    parseRouterChildren (m + 1) cycleFs true parent
      (PState.mk c8toks 3 d fl ab mw hpj) = .error .fuelOut := by
  rw [parseRouterChildren]
  simp only [pm_bind_apply, getS,
    show (currentTok (PState.mk c8toks 3 d fl ab mw hpj)).kind
      = SyntaxKind.IncludeKeyword from rfl,
    hstmt]

/-- One pass of the `parseParentNode` loop at the `include` keyword. -/
theorem c8parentStep3 (n : Nat) (parent : RouterNode) (d : List Diag) (fl : List String)
    (ab : List (String × AuthBlockNode)) (mw : List MiddlewareNode) (hpj : Bool)
    (hch : parseRouterChildren n cycleFs true parent
      (PState.mk c8toks 3 d fl ab mw hpj) = .error .fuelOut) :
    parseParentNode (n + 1) cycleFs true parent
      (PState.mk c8toks 3 d fl ab mw hpj) = .error .fuelOut := by
  rw [parseParentNode]
  simp only [pm_bind_apply, getS]
  rw [if_pos (show (currentTok (PState.mk c8toks 3 d fl ab mw hpj)).kind
      ≠ SyntaxKind.EndOfFileToken from fun h => SyntaxKind.noConfusion h)]
  simp only [pm_bind_apply, hch]

/-- On the cyclic input, `parseParentNode` exhausts every fuel bound from any
of the four cursor positions the top-level loop visits. -/
theorem c8parent : ∀ (fuel : Nat) (parent : RouterNode) (d : List Diag) (fl : List String)
    (ab : List (String × AuthBlockNode)) (mw : List MiddlewareNode) (hpj : Bool) (p : Nat),
    p = 0 ∨ p = 1 ∨ p = 2 ∨ p = 3 →
    parseParentNode fuel cycleFs true parent
      (PState.mk c8toks p d fl ab mw hpj) = .error .fuelOut := by
  intro fuel
  induction fuel using Nat.strong_induction_on with
  | _ fuel ih =>
      intro parent d fl ab mw hpj p hp
      cases fuel with
      | zero => rfl
      | succ n =>
          rcases hp with hp | hp | hp | hp <;> subst hp
          · cases n with
            | zero => rfl
            | succ m =>
                rw [show parseParentNode (m + 1 + 1) cycleFs true parent
                      (PState.mk c8toks 0 d fl ab mw hpj)
                    = parseParentNode (m + 1) cycleFs true parent
                      (PState.mk c8toks 1 d fl ab mw hpj) from rfl]
                exact ih (m + 1) (by omega) parent d fl ab mw hpj 1 (by simp)
          · cases n with
            | zero => rfl
            | succ m =>
                rw [show parseParentNode (m + 1 + 1) cycleFs true parent
                      (PState.mk c8toks 1 d fl ab mw hpj)
                    = parseParentNode (m + 1) cycleFs true parent
                      (PState.mk c8toks 2 d fl ab mw hpj) from rfl]
                exact ih (m + 1) (by omega) parent d fl ab mw hpj 2 (by simp)
          · cases n with
            | zero => rfl
            | succ m =>
                rw [show parseParentNode (m + 1 + 1) cycleFs true parent
                      (PState.mk c8toks 2 d fl ab mw hpj)
                    = parseParentNode (m + 1) cycleFs true parent
                      (PState.mk c8toks 3 d fl ab mw hpj) from rfl]
                exact ih (m + 1) (by omega) parent d fl ab mw hpj 3 (by simp)
          · cases n with
            | zero => rfl
            | succ m =>
                cases m with
                | zero => rfl
                | succ j =>
                    cases j with
                    | zero => rfl
                    | succ i =>
                        have hrec := ih i (by omega) parent d [] ab mw false 0 (by simp)
                        have hinner := c8includeInner i parent d (fl ++ ["main.ymr"]) ab mw hpj hrec
                        have hstmt := c8includeStmt (i + 1) parent d fl ab mw hpj hinner
                        have hch := c8children3 (i + 1 + 1) parent d fl ab mw hpj hstmt
                        exact c8parentStep3 (i + 1 + 1 + 1) parent d fl ab mw hpj hch

/-- **C8.** The compiler does NOT detect include cycles: on a file that
includes itself, `_include` re-enters the same token list with no visited
set or `IncludeCycle` error (parser.ts:635-675), so the parse recurses
without bound.  In the fuel model, `parse` exhausts every fuel bound under
either policy instead of failing with a cycle diagnostic. -/
theorem parse_c8cycle_never_terminates (fuel : Nat) (policy : ParsingPolicy) :
    parse fuel policy cycleFs (initPState c8toks) = .error .fuelOut := by
  have hp := c8parent fuel rootR [] [] [] [] true 3 (by simp)
  have ht8 : parseTarget (initPState c8toks)
      = .ok ("T", PState.mk c8toks 3 [] [] [] [] false) := rfl
  have hroot : RouterNode.mk ⟨"", none, []⟩ none none none [] [] = rootR := rfl
  unfold parse parseProject
  simp only [pm_bind_apply, pm_pure_apply, getS, modifyS, ht8, hroot, hp]

set_option maxRecDepth 8000 in
set_option maxHeartbeats 16000000 in
/-- The first auth block of `c1toks`, fully consumed without a diagnostic,
at any sufficient fuel. -/
theorem c1blockAGen (k : Nat) : parseAuthBlock (k + 5) (PState.mk c1toks 3 [] [] [] [] true)
    = .ok (some blkA, (PState.mk c1toks 21 [] [] [] [] true)) := by
  have hL1 : parseMiddlewareOptionsLoop (k + 3 + 1) [] (PState.mk c1toks 8 [] [] [] [] true)
      = parseMiddlewareOptionsLoop (k + 3) [("source", .str "header")] (PState.mk c1toks 12 [] [] [] [] true) := by
    rw [parseMiddlewareOptionsLoop]
    simp only [pm_bind_apply, pm_pure_apply, getS]
    rw [if_neg (show ¬ ((currentTok (PState.mk c1toks 8 [] [] [] [] true)).kind
        = SyntaxKind.CloseParenToken) from fun h => SyntaxKind.noConfusion h)]
    simp only [pm_bind_apply,
      show matchToken .Identifier false none (PState.mk c1toks 8 [] [] [] [] true)
        = .ok (tk .Identifier "source", (PState.mk c1toks 9 [] [] [] [] true)) from rfl,
      show matchToken .ColonToken false (some ":") (PState.mk c1toks 9 [] [] [] [] true)
        = .ok (tk .ColonToken ":", (PState.mk c1toks 10 [] [] [] [] true)) from rfl,
      show parseMiddlewareOptionValue (k + 3) (PState.mk c1toks 10 [] [] [] [] true)
        = .ok (some (.str "header"), (PState.mk c1toks 11 [] [] [] [] true)) from rfl]
    rw [if_pos (show jsTruthyOpt (some (OptionValue.str "header")) = true from rfl)]
    simp only [pm_bind_apply, pm_pure_apply, getS, modifyS, jumpT]
    rw [if_pos (show (currentTok (PState.mk c1toks 11 [] [] [] [] true)).kind
        = SyntaxKind.CommaToken from rfl)]
    simp only [pm_bind_apply, pm_pure_apply, modifyS, jumpT]
    rfl
  have hL2 : parseMiddlewareOptionsLoop (k + 2 + 1) [("source", .str "header")] (PState.mk c1toks 12 [] [] [] [] true)
      = parseMiddlewareOptionsLoop (k + 2) [("source", .str "header"), ("field", .str "x")] (PState.mk c1toks 16 [] [] [] [] true) := by
    rw [parseMiddlewareOptionsLoop]
    simp only [pm_bind_apply, pm_pure_apply, getS]
    rw [if_neg (show ¬ ((currentTok (PState.mk c1toks 12 [] [] [] [] true)).kind
        = SyntaxKind.CloseParenToken) from fun h => SyntaxKind.noConfusion h)]
    simp only [pm_bind_apply,
      show matchToken .Identifier false none (PState.mk c1toks 12 [] [] [] [] true)
        = .ok (tk .Identifier "field", (PState.mk c1toks 13 [] [] [] [] true)) from rfl,
      show matchToken .ColonToken false (some ":") (PState.mk c1toks 13 [] [] [] [] true)
        = .ok (tk .ColonToken ":", (PState.mk c1toks 14 [] [] [] [] true)) from rfl,
      show parseMiddlewareOptionValue (k + 2) (PState.mk c1toks 14 [] [] [] [] true)
        = .ok (some (.str "x"), (PState.mk c1toks 15 [] [] [] [] true)) from rfl]
    rw [if_pos (show jsTruthyOpt (some (OptionValue.str "x")) = true from rfl)]
    simp only [pm_bind_apply, pm_pure_apply, getS, modifyS, jumpT]
    rw [if_pos (show (currentTok (PState.mk c1toks 15 [] [] [] [] true)).kind
        = SyntaxKind.CommaToken from rfl)]
    simp only [pm_bind_apply, pm_pure_apply, modifyS, jumpT]
    rfl
  have hL3 : parseMiddlewareOptionsLoop (k + 1 + 1) [("source", .str "header"), ("field", .str "x")] (PState.mk c1toks 16 [] [] [] [] true)
      = parseMiddlewareOptionsLoop (k + 1) c1opts (PState.mk c1toks 19 [] [] [] [] true) := by
    rw [parseMiddlewareOptionsLoop]
    simp only [pm_bind_apply, pm_pure_apply, getS]
    rw [if_neg (show ¬ ((currentTok (PState.mk c1toks 16 [] [] [] [] true)).kind
        = SyntaxKind.CloseParenToken) from fun h => SyntaxKind.noConfusion h)]
    simp only [pm_bind_apply,
      show matchToken .Identifier false none (PState.mk c1toks 16 [] [] [] [] true)
        = .ok (tk .Identifier "defaultAccess", (PState.mk c1toks 17 [] [] [] [] true)) from rfl,
      show matchToken .ColonToken false (some ":") (PState.mk c1toks 17 [] [] [] [] true)
        = .ok (tk .ColonToken ":", (PState.mk c1toks 18 [] [] [] [] true)) from rfl,
      show parseMiddlewareOptionValue (k + 1) (PState.mk c1toks 18 [] [] [] [] true)
        = .ok (some (.str "authenticated"), (PState.mk c1toks 19 [] [] [] [] true)) from rfl]
    rw [if_pos (show jsTruthyOpt (some (OptionValue.str "authenticated")) = true from rfl)]
    simp only [pm_bind_apply, pm_pure_apply, getS, modifyS, jumpT]
    rw [if_neg (show ¬ ((currentTok (PState.mk c1toks 19 [] [] [] [] true)).kind
        = SyntaxKind.CommaToken) from fun h => SyntaxKind.noConfusion h)]
    simp only [pm_bind_apply, pm_pure_apply, modifyS, jumpT]
    rfl
  have hL4 : parseMiddlewareOptionsLoop (k + 1) c1opts (PState.mk c1toks 19 [] [] [] [] true)
      = .ok (c1opts, (PState.mk c1toks 20 [] [] [] [] true)) := rfl
  have hOpts : parseMiddlewareOptions (k + 5) (PState.mk c1toks 7 [] [] [] [] true)
      = .ok (c1opts, (PState.mk c1toks 20 [] [] [] [] true)) := by
    rw [show parseMiddlewareOptions (k + 5) (PState.mk c1toks 7 [] [] [] [] true)
        = parseMiddlewareOptionsLoop ((k + 3) + 1) [] (PState.mk c1toks 8 [] [] [] [] true) from rfl,
      hL1, hL2, hL3, hL4]
  have hBA : parseAuthBlockBodyAlias (k + 5) (PState.mk c1toks 5 [] [] [] [] true)
      = .ok (some (c1opts, "a"), (PState.mk c1toks 20 [] [] [] [] true)) := by
    have hb : parseAuthBlockBodyAlias (k + 5) (PState.mk c1toks 5 [] [] [] [] true)
        = (parseMiddlewareOptions (k + 5) >>= fun body => pure (some (body, "a")))
            (PState.mk c1toks 7 [] [] [] [] true) := rfl
    rw [hb, pm_bind_apply, hOpts]
    rfl
  unfold parseAuthBlock
  simp only [pm_bind_apply, pm_pure_apply, getS, modifyS, jumpT,
    show matchToken .Identifier false none (PState.mk c1toks 4 [] [] [] [] true)
      = .ok (tk .Identifier "API-Key", (PState.mk c1toks 5 [] [] [] [] true)) from rfl,
    hBA]
  rfl

set_option maxRecDepth 8000 in
set_option maxHeartbeats 16000000 in
/-- The second auth block of `c1toks` (cursor 21). -/
theorem c1blockBGen (k : Nat) : parseAuthBlock (k + 5) (PState.mk c1toks 21 [] [] [("a", blkA)] [] true)
    = .ok (some blkB, (PState.mk c1toks 39 [] [] [("a", blkA)] [] true)) := by
  have hL1 : parseMiddlewareOptionsLoop (k + 3 + 1) [] (PState.mk c1toks 26 [] [] [("a", blkA)] [] true)
      = parseMiddlewareOptionsLoop (k + 3) [("source", .str "header")] (PState.mk c1toks 30 [] [] [("a", blkA)] [] true) := by
    rw [parseMiddlewareOptionsLoop]
    simp only [pm_bind_apply, pm_pure_apply, getS]
    rw [if_neg (show ¬ ((currentTok (PState.mk c1toks 26 [] [] [("a", blkA)] [] true)).kind
        = SyntaxKind.CloseParenToken) from fun h => SyntaxKind.noConfusion h)]
    simp only [pm_bind_apply,
      show matchToken .Identifier false none (PState.mk c1toks 26 [] [] [("a", blkA)] [] true)
        = .ok (tk .Identifier "source", (PState.mk c1toks 27 [] [] [("a", blkA)] [] true)) from rfl,
      show matchToken .ColonToken false (some ":") (PState.mk c1toks 27 [] [] [("a", blkA)] [] true)
        = .ok (tk .ColonToken ":", (PState.mk c1toks 28 [] [] [("a", blkA)] [] true)) from rfl,
      show parseMiddlewareOptionValue (k + 3) (PState.mk c1toks 28 [] [] [("a", blkA)] [] true)
        = .ok (some (.str "header"), (PState.mk c1toks 29 [] [] [("a", blkA)] [] true)) from rfl]
    rw [if_pos (show jsTruthyOpt (some (OptionValue.str "header")) = true from rfl)]
    simp only [pm_bind_apply, pm_pure_apply, getS, modifyS, jumpT]
    rw [if_pos (show (currentTok (PState.mk c1toks 29 [] [] [("a", blkA)] [] true)).kind
        = SyntaxKind.CommaToken from rfl)]
    simp only [pm_bind_apply, pm_pure_apply, modifyS, jumpT]
    rfl
  have hL2 : parseMiddlewareOptionsLoop (k + 2 + 1) [("source", .str "header")] (PState.mk c1toks 30 [] [] [("a", blkA)] [] true)
      = parseMiddlewareOptionsLoop (k + 2) [("source", .str "header"), ("field", .str "x")] (PState.mk c1toks 34 [] [] [("a", blkA)] [] true) := by
    rw [parseMiddlewareOptionsLoop]
    simp only [pm_bind_apply, pm_pure_apply, getS]
    rw [if_neg (show ¬ ((currentTok (PState.mk c1toks 30 [] [] [("a", blkA)] [] true)).kind
        = SyntaxKind.CloseParenToken) from fun h => SyntaxKind.noConfusion h)]
    simp only [pm_bind_apply,
      show matchToken .Identifier false none (PState.mk c1toks 30 [] [] [("a", blkA)] [] true)
        = .ok (tk .Identifier "field", (PState.mk c1toks 31 [] [] [("a", blkA)] [] true)) from rfl,
      show matchToken .ColonToken false (some ":") (PState.mk c1toks 31 [] [] [("a", blkA)] [] true)
        = .ok (tk .ColonToken ":", (PState.mk c1toks 32 [] [] [("a", blkA)] [] true)) from rfl,
      show parseMiddlewareOptionValue (k + 2) (PState.mk c1toks 32 [] [] [("a", blkA)] [] true)
        = .ok (some (.str "x"), (PState.mk c1toks 33 [] [] [("a", blkA)] [] true)) from rfl]
    rw [if_pos (show jsTruthyOpt (some (OptionValue.str "x")) = true from rfl)]
    simp only [pm_bind_apply, pm_pure_apply, getS, modifyS, jumpT]
    rw [if_pos (show (currentTok (PState.mk c1toks 33 [] [] [("a", blkA)] [] true)).kind
        = SyntaxKind.CommaToken from rfl)]
    simp only [pm_bind_apply, pm_pure_apply, modifyS, jumpT]
    rfl
  have hL3 : parseMiddlewareOptionsLoop (k + 1 + 1) [("source", .str "header"), ("field", .str "x")] (PState.mk c1toks 34 [] [] [("a", blkA)] [] true)
      = parseMiddlewareOptionsLoop (k + 1) c1opts (PState.mk c1toks 37 [] [] [("a", blkA)] [] true) := by
    rw [parseMiddlewareOptionsLoop]
    simp only [pm_bind_apply, pm_pure_apply, getS]
    rw [if_neg (show ¬ ((currentTok (PState.mk c1toks 34 [] [] [("a", blkA)] [] true)).kind
        = SyntaxKind.CloseParenToken) from fun h => SyntaxKind.noConfusion h)]
    simp only [pm_bind_apply,
      show matchToken .Identifier false none (PState.mk c1toks 34 [] [] [("a", blkA)] [] true)
        = .ok (tk .Identifier "defaultAccess", (PState.mk c1toks 35 [] [] [("a", blkA)] [] true)) from rfl,
      show matchToken .ColonToken false (some ":") (PState.mk c1toks 35 [] [] [("a", blkA)] [] true)
        = .ok (tk .ColonToken ":", (PState.mk c1toks 36 [] [] [("a", blkA)] [] true)) from rfl,
      show parseMiddlewareOptionValue (k + 1) (PState.mk c1toks 36 [] [] [("a", blkA)] [] true)
        = .ok (some (.str "authenticated"), (PState.mk c1toks 37 [] [] [("a", blkA)] [] true)) from rfl]
    rw [if_pos (show jsTruthyOpt (some (OptionValue.str "authenticated")) = true from rfl)]
    simp only [pm_bind_apply, pm_pure_apply, getS, modifyS, jumpT]
    rw [if_neg (show ¬ ((currentTok (PState.mk c1toks 37 [] [] [("a", blkA)] [] true)).kind
        = SyntaxKind.CommaToken) from fun h => SyntaxKind.noConfusion h)]
    simp only [pm_bind_apply, pm_pure_apply, modifyS, jumpT]
    rfl
  have hL4 : parseMiddlewareOptionsLoop (k + 1) c1opts (PState.mk c1toks 37 [] [] [("a", blkA)] [] true)
      = .ok (c1opts, (PState.mk c1toks 38 [] [] [("a", blkA)] [] true)) := rfl
  have hOpts : parseMiddlewareOptions (k + 5) (PState.mk c1toks 25 [] [] [("a", blkA)] [] true)
      = .ok (c1opts, (PState.mk c1toks 38 [] [] [("a", blkA)] [] true)) := by
    rw [show parseMiddlewareOptions (k + 5) (PState.mk c1toks 25 [] [] [("a", blkA)] [] true)
        = parseMiddlewareOptionsLoop ((k + 3) + 1) [] (PState.mk c1toks 26 [] [] [("a", blkA)] [] true) from rfl,
      hL1, hL2, hL3, hL4]
  have hBA : parseAuthBlockBodyAlias (k + 5) (PState.mk c1toks 23 [] [] [("a", blkA)] [] true)
      = .ok (some (c1opts, "b"), (PState.mk c1toks 38 [] [] [("a", blkA)] [] true)) := by
    have hb : parseAuthBlockBodyAlias (k + 5) (PState.mk c1toks 23 [] [] [("a", blkA)] [] true)
        = (parseMiddlewareOptions (k + 5) >>= fun body => pure (some (body, "b")))
            (PState.mk c1toks 25 [] [] [("a", blkA)] [] true) := rfl
    rw [hb, pm_bind_apply, hOpts]
    rfl
  unfold parseAuthBlock
  simp only [pm_bind_apply, pm_pure_apply, getS, modifyS, jumpT,
    show matchToken .Identifier false none (PState.mk c1toks 22 [] [] [("a", blkA)] [] true)
      = .ok (tk .Identifier "API-Key", (PState.mk c1toks 23 [] [] [("a", blkA)] [] true)) from rfl,
    hBA]
  rfl

theorem c1blockA : parseAuthBlock 78 (PState.mk c1toks 3 [] [] [] [] true)
    = .ok (some blkA, PState.mk c1toks 21 [] [] [] [] true) := c1blockAGen 73

theorem c1blockB : parseAuthBlock 77 (PState.mk c1toks 21 [] [] [("a", blkA)] [] true)
    = .ok (some blkB, PState.mk c1toks 39 [] [] [("a", blkA)] [] true) := c1blockBGen 72

theorem c1childrenA :
    parseRouterChildren 79 noFs true rootR (PState.mk c1toks 3 [] [] [] [] true)
    = .ok (rootR, PState.mk c1toks 21 [] [] [("a", blkA)] [] true) := by
  rw [parseRouterChildren]
  simp only [pm_bind_apply, getS]
  rw [show (currentTok (PState.mk c1toks 3 [] [] [] [] true)).kind
      = SyntaxKind.AuthKeyword from rfl]
  simp only [pm_bind_apply, pm_pure_apply, getS, modifyS, if_true, eq_self_iff_true, c1blockA]
  rfl

theorem c1childrenB :
    parseRouterChildren 78 noFs true rootR (PState.mk c1toks 21 [] [] [("a", blkA)] [] true)
    = .ok (rootR, PState.mk c1toks 39 [] [] [("a", blkA), ("b", blkB)] [] true) := by
  rw [parseRouterChildren]
  simp only [pm_bind_apply, getS]
  rw [show (currentTok (PState.mk c1toks 21 [] [] [("a", blkA)] [] true)).kind
      = SyntaxKind.AuthKeyword from rfl]
  simp only [pm_bind_apply, pm_pure_apply, getS, modifyS, if_true, eq_self_iff_true, c1blockB]
  rfl

theorem c1parent : parseParentNode 80 noFs true rootR (PState.mk c1toks 3 [] [] [] [] true)
    = .ok (rootR, PState.mk c1toks 39 [] [] [("a", blkA), ("b", blkB)] [] true) := by
  show parseParentNode (79 + 1) noFs true rootR (PState.mk c1toks 3 [] [] [] [] true) = _
  rw [parseParentNode]
  simp only [pm_bind_apply, pm_pure_apply, getS, modifyS, jumpT]
  rw [if_pos (show (currentTok (PState.mk c1toks 3 [] [] [] [] true)).kind
      ≠ SyntaxKind.EndOfFileToken from fun h => SyntaxKind.noConfusion h)]
  simp only [pm_bind_apply, c1childrenA, pm_pure_apply, getS]
  rw [if_neg (show ¬ (effIndex (PState.mk c1toks 21 [] [] [("a", blkA)] [] true)
      = effIndex (PState.mk c1toks 3 [] [] [] [] true)) by decide)]
  simp only [pm_bind_apply, pm_pure_apply]
  show parseParentNode (78 + 1) noFs true rootR
      (PState.mk c1toks 21 [] [] [("a", blkA)] [] true) = _
  rw [parseParentNode]
  simp only [pm_bind_apply, pm_pure_apply, getS, modifyS, jumpT]
  rw [if_pos (show (currentTok (PState.mk c1toks 21 [] [] [("a", blkA)] [] true)).kind
      ≠ SyntaxKind.EndOfFileToken from fun h => SyntaxKind.noConfusion h)]
  simp only [pm_bind_apply, c1childrenB, pm_pure_apply, getS]
  rw [if_neg (show ¬ (effIndex (PState.mk c1toks 39 [] [] [("a", blkA), ("b", blkB)] [] true)
      = effIndex (PState.mk c1toks 21 [] [] [("a", blkA)] [] true)) by decide)]
  simp only [pm_bind_apply, pm_pure_apply]
  rfl

/-- A closed run of the parser on `c1toks`. -/
theorem c1parse :
    parse 80 .CancelParsingOnFirstError noFs (initPState c1toks) = .ok (some c1proj, c1final) := by
  have ht1 : parseTarget (initPState c1toks)
      = .ok ("T", PState.mk c1toks 3 [] [] [] [] false) := rfl
  have hroot : RouterNode.mk ⟨"", none, []⟩ none none none [] [] = rootR := rfl
  unfold parse parseProject
  simp only [pm_bind_apply, pm_pure_apply, getS, modifyS, ht1, hroot, c1parent]
  rfl

/-- Counterexample to C1's parse-time error: on a project declaring two auth
blocks that both carry `defaultAccess: authenticated`, `Parser.parse`
finishes with ZERO diagnostics and returns the AST — even under
`CancelParsingOnFirstError` — because `parseAuthBlock` (parser.ts:142-200)
never checks for a second default block. -/
theorem c1_two_default_blocks_parse_clean :
    parse 80 .CancelParsingOnFirstError noFs (initPState c1toks) = .ok (some c1proj, c1final) ∧
    errorCount c1final.diags = 0 ∧
    c1proj.authBlocks.length = 2 ∧
    (∀ kv ∈ c1proj.authBlocks, (kv : String × AuthBlockNode).2.isDefaultAccessPublic = false) :=
  ⟨c1parse, rfl, rfl, by decide⟩

/-- **C1 (amended).** The `Only one default authentication block can be
defined` failure is not a parse diagnostic: the parse of the two-default
project completes with zero errors and returns the project, and it is the
Express emitter's auth-block pass that aborts (`Logger.fatal` +
`AbortError`, part_009:231-238) when it meets the second default block. -/
theorem c1_two_default_blocks_parse_clean_but_emitter_aborts :
    parse 80 .CancelParsingOnFirstError noFs (initPState c1toks) = .ok (some c1proj, c1final) ∧
    errorCount c1final.diags = 0 ∧
    handleAuthBlocksFold ⟨none, [], []⟩ (c1proj.authBlocks.map Prod.snd) = .error .abort :=
  ⟨c1parse, rfl, rfl⟩

/-! ### C6: auth-block identity and display name without an alias -/
/-- **C6 (code bug).** An auth block written without an `as` alias still gets
a defined alias: `parseAuthBlock` initialises `alias` to the empty string and
always passes it to the `AuthBlockNode` constructor (parser.ts:151-152, 199).
On the aliasless `c6toks` project the parse succeeds cleanly with
`aliasName = some ""`, so `AuthBlockNode.id` returns `""` rather than the
auth-type string `"API-Key"`, and `AuthBlockNode.name` — which evaluates
`id[0].toUpperCase()` on the empty identity — throws a `TypeError` (modelled
as `none`) instead of returning a capitalized name. -/
theorem c6_aliasless_auth_block_id_empty_name_crashes :
    parse 50 .CancelParsingOnFirstError noFs (initPState c6toks) = .ok (some c6proj, c6final) ∧
    c6final.diags = [] ∧
    c6proj.authBlocks = [("", blkLit)] ∧
    blkLit.aliasName = some "" ∧
    AuthBlockNode.id blkLit = "" ∧
    AuthBlockNode.id blkLit ≠ blkLit.type ∧
    AuthBlockNode.name blkLit = none :=
  ⟨c6parse, rfl, rfl, rfl, rfl, by decide, rfl⟩

/-! ### C9: the comment token's text/span invariant -/
/-- **C9 (code bug).** The comment rule (part_007:361-385) stores the trimmed
comment BODY as the token text but builds the span from the start of `//` with
the BODY's length: lexing `//ab` yields a `Comment` token with text `"ab"` and
span `(0, 2)`, while the source substring at that span is `"//"` — and a
comment token is not a string literal, so the escape exemption of the claimed
invariant does not apply. -/
theorem c9_comment_token_violates_span_invariant :
    tokenize 100 "//ab" = .ok
      [{ kind := .Comment, text := "ab", column := ⟨0, 2⟩, line := some 1 },
       { kind := .EndOfFileToken, text := "\x00", column := ⟨4, 1⟩, line := some 1 }] ∧
    sourceSlice "//ab" ⟨0, 2⟩ = "//" ∧
    "ab" ≠ "//" ∧
    SyntaxKind.Comment ≠ SyntaxKind.StringLiteral :=
  ⟨rfl, rfl, by decide, by decide⟩

/-! ### C3: effective header/body schemas merge with descendant keys winning -/
/-- **C3.** One inheritance step extends the chain's effective schema
(`compileRouterNode` threads the parent's maps through springboot.ts:64-65,
84-86; `compileRouteNode` applies the same step at springboot.ts:97-98), and
on the merged schema every key resolves to the node's own binding when the
node binds it and to the inherited (ancestor) value otherwise — ancestor keys
stay visible unless shadowed by a descendant key. -/
theorem c3_effective_schema_merge (anc : List RouterNode) (n : RouterNode)
    (r : RouteNode) (k : String) :
    effHeaderChain (anc ++ [n]) = routerEffHeader (effHeaderChain anc) n ∧
    effBodyChain (anc ++ [n]) = routerEffBody (effBodyChain anc) n ∧
    jsGet (routerEffHeader (effHeaderChain anc) n) k
      = optOr (lastAssoc (n.header.getD []) k) (jsGet (effHeaderChain anc) k) ∧
    jsGet (routerEffBody (effBodyChain anc) n) k
      = optOr (lastAssoc (n.body.getD []) k) (jsGet (effBodyChain anc) k) ∧
    jsGet (routeEffHeader (effHeaderChain anc) r) k
      = optOr (lastAssoc (r.header.getD []) k) (jsGet (effHeaderChain anc) k) ∧
    jsGet (routeEffBody (effBodyChain anc) r) k
      = optOr (lastAssoc (r.body.getD []) k) (jsGet (effBodyChain anc) k) := by
  refine ⟨?_, ?_, ?_, ?_, ?_, ?_⟩
  · simp [effHeaderChain]
  · simp [effBodyChain]
  · exact jsGet_effStep _ (optKeys_effHeaderChain_nodup anc) _ k
  · exact jsGet_effStep _ (optKeys_effBodyChain_nodup anc) _ k
  · exact jsGet_effStep _ (optKeys_effHeaderChain_nodup anc) _ k
  · exact jsGet_effStep _ (optKeys_effBodyChain_nodup anc) _ k

/-! ### C4: the middleware-option hash is invariant under key reordering -/
/-- The two-entry mappings `\x7ba:1,b:2\x7d` and `\x7bb:2,a:1\x7d` are equal
up to key order. -/
theorem ovperm_ab :
    OVPerm (.obj [("a", OptionValue.num 1), ("b", OptionValue.num 2)])
      (.obj [("b", OptionValue.num 2), ("a", OptionValue.num 1)]) := by
  refine OVPerm.obj _ [("a", OptionValue.num 1), ("b", OptionValue.num 2)] _
    (by decide) rfl (fun i h₁ h₂ => rfl) ?_ (List.Perm.swap _ _ _)
  intro i h₁ h₂
  match i, h₁ with
  | 0, _ => exact OVPerm.num 1
  | 1, _ => exact OVPerm.num 2
  | m + 2, h => exact absurd h (by simp only [List.length_cons, List.length_nil]; omega)

/-- **C4.** `generateMiddlewareOptionsHash` (springboot.ts:456-475) — JSON of
the option mapping with keys recursively sorted, whitespace stripped, then
base64 — produces equal hash strings on any two option mappings equal up to
recursive key order. -/
theorem c4_hash_invariant_under_key_reordering (o₁ o₂ : MiddlewareOptions)
    (h : OVPerm (.obj o₁) (.obj o₂)) :
    generateMiddlewareOptionsHash o₁ = generateMiddlewareOptionsHash o₂ :=
  hash_eq_of_ovperm o₁ o₂ h

theorem c4_hash_invariant_under_key_reordering_witness :
    OVPerm (.obj [("a", OptionValue.num 1), ("b", OptionValue.num 2)])
      (.obj [("b", OptionValue.num 2), ("a", OptionValue.num 1)]) ∧
    generateMiddlewareOptionsHash [("a", OptionValue.num 1), ("b", OptionValue.num 2)]
      = generateMiddlewareOptionsHash [("b", OptionValue.num 2), ("a", OptionValue.num 1)] :=
  ⟨ovperm_ab, c4_hash_invariant_under_key_reordering _ _ ovperm_ab⟩

/-! ### C5: routes with equal body schemas share one DTO -/
/-- Appending a fresh key to the `_createdDtos` map makes it resolve. -/
theorem strAssoc_append_self (l : List (String × String)) (key n : String)
    (hl : strAssoc l key = none) : strAssoc (l ++ [(key, n)]) key = some n := by
  induction l with
  | nil => simp [strAssoc]
  | cons hd t ih =>
    obtain ⟨k', v'⟩ := hd
    simp only [strAssoc, List.cons_append] at hl ⊢
    split at hl
    · exact absurd hl (by simp)
    · next hk =>
        rw [if_neg hk]
        exact ih hl

/-- **C5.** With the option-hash cache not yet holding the schema's hash, the
first `compileBodyOptionsAsDto` call (springboot.ts:165-197) returns the DTO
name it was given and records exactly one new cache entry, and a second call
on any body schema equal up to recursive key order returns the SAME name and
leaves the cache unchanged — the second route creates no new DTO class. -/
theorem c5_equal_body_schemas_share_dto
    (createdDtos : List (String × String)) (o₁ o₂ : MiddlewareOptions)
    (name₁ name₂ pkg₁ pkg₂ : String)
    (hperm : OVPerm (.obj o₁) (.obj o₂))
    (hfresh : strAssoc createdDtos (generateMiddlewareOptionsHash o₁) = none) :
    compileBodyOptionsAsDto createdDtos o₁ name₁ pkg₁
      = (name₁, createdDtos ++ [(generateMiddlewareOptionsHash o₁, name₁)]) ∧
    compileBodyOptionsAsDto (createdDtos ++ [(generateMiddlewareOptionsHash o₁, name₁)])
        o₂ name₂ pkg₂
      = (name₁, createdDtos ++ [(generateMiddlewareOptionsHash o₁, name₁)]) ∧
    (createdDtos ++ [(generateMiddlewareOptionsHash o₁, name₁)]).length
      = createdDtos.length + 1 := by
  have hh : generateMiddlewareOptionsHash o₂ = generateMiddlewareOptionsHash o₁ :=
    (hash_eq_of_ovperm o₁ o₂ hperm).symm
  refine ⟨?_, ?_, by simp⟩
  · unfold compileBodyOptionsAsDto
    simp only [hfresh, name_compileDtoObjVal]
  · unfold compileBodyOptionsAsDto
    simp only [hh,
      strAssoc_append_self createdDtos (generateMiddlewareOptionsHash o₁) name₁ hfresh]

theorem c5_equal_body_schemas_share_dto_witness :
    OVPerm (.obj [("a", OptionValue.num 1), ("b", OptionValue.num 2)])
      (.obj [("b", OptionValue.num 2), ("a", OptionValue.num 1)]) ∧
    strAssoc []
      (generateMiddlewareOptionsHash [("a", OptionValue.num 1), ("b", OptionValue.num 2)])
      = none ∧
    (compileBodyOptionsAsDto [] [("a", OptionValue.num 1), ("b", OptionValue.num 2)] "BodyDto" "p"
      = ("BodyDto",
         [(generateMiddlewareOptionsHash [("a", OptionValue.num 1), ("b", OptionValue.num 2)],
           "BodyDto")]) ∧
     compileBodyOptionsAsDto
        [(generateMiddlewareOptionsHash [("a", OptionValue.num 1), ("b", OptionValue.num 2)],
          "BodyDto")]
        [("b", OptionValue.num 2), ("a", OptionValue.num 1)] "OtherDto" "q"
      = ("BodyDto",
         [(generateMiddlewareOptionsHash [("a", OptionValue.num 1), ("b", OptionValue.num 2)],
           "BodyDto")]) ∧
     [(generateMiddlewareOptionsHash [("a", OptionValue.num 1), ("b", OptionValue.num 2)],
       "BodyDto")].length = List.length ([] : List (String × String)) + 1) :=
  ⟨ovperm_ab, rfl,
   c5_equal_body_schemas_share_dto [] _ _ "BodyDto" "OtherDto" "p" "q" ovperm_ab rfl⟩

/-- Counterexample to C2's validate-then-authenticate order: on a route with
an authenticate clause and a header schema, the handler `handleRoute`
(part_009:543-596) emits calls the authentication handler at line index 2,
BEFORE any validation — the first validation line (`req.headers` guard) only
appears at index 6, and no validation line occurs among the first six lines. -/
theorem c2_auth_before_validation_example :
    (handleRoute c2st c2route "").1 =
      ["",
       "async onX(req, res) \x7b",
       "    const authResult = await this.#handleKAuthentication(req, res);",
       "    if (authResult === undefined) \x7b",
       "        return false;",
       "    \x7d",
       "    if (req.headers === undefined) \x7b",
       "        res.status(400).send(messages._400.replace(\"\x7bfield\x7d\", \"header\").replace(\"\x7btype\x7d\", \"object\"));",
       "        return false;",
       "    \x7d",
       "",
       "    const header = req.headers;",
       "    if (getHeader(header, \"h\") === undefined) \x7b",
       "        res.status(400).send(messages._400.replace(\"\x7bfield\x7d\", \"header.h\").replace(\"\x7btype\x7d\", \"string\"));",
       "        return false;",
       "    \x7d",
       "    if (!isString(getHeader(header, \"h\"))) \x7b",
       "        res.status(400).send(messages._400.replace(\"\x7bfield\x7d\", \"header.h\").replace(\"\x7btype\x7d\", \"string\"));",
       "        return false;",
       "    \x7d",
       "",
       "    return true;",
       "\x7d"] ∧
    (handleRoute c2st c2route "").1.getD 2 ""
      = "    const authResult = await this.#handleKAuthentication(req, res);" ∧
    (handleRoute c2st c2route "").1.getD 6 ""
      = "    if (req.headers === undefined) \x7b" ∧
    "    if (req.headers === undefined) \x7b" ∉ ((handleRoute c2st c2route "").1.take 6) :=
  ⟨rfl, rfl, rfl, by decide⟩

/-- **C2 (amended).** The handler `handleRoute` emits (part_009:543-596) is:
the signature line, then the authentication/authorization section
(part_009:562-588), then the validation code — and the validation itself runs
header checks, then query checks, then body checks (part_009:598-659) —
then `return true`.  Authentication comes FIRST, not after validation. -/
theorem c2_handleRoute_auth_precedes_validation (st : EmitState) (route : RouteNode)
    (routerName : String) :
    (handleRoute st route routerName).1 =
      [""] ++
      (match route.description with
       | some d => ["/** " ++ d ++ " */"]
       | none => []) ++
      [(if route.authenticate.isSome || jsTruthyStr st.defaultAuthenticate then "async " else "")
        ++ ("on" ++ (if routerName = "" then "" else jsCapFirst routerName)
              ++ jsCapFirst route.path.name)
        ++ "(req, res) \x7b"] ++
      routeAuthSection st route ++
      (headerValidationLines route.header ++ queryValidationLines route.path ++
        bodyValidationLines route.body) ++
      ["    return true;", "\x7d"] ∧
    generateValidationCode route.header route.body route.path
      = headerValidationLines route.header ++ queryValidationLines route.path ++
        bodyValidationLines route.body :=
  ⟨rfl, rfl⟩

end Ymir
